import Mathlib

/-! TerraVecta: voxel chunk, greedy mesher and chunk streaming.

A shallow embedding of `VoxelChunk.cpp`, `Application.cpp`, `TextureAtlas.cpp`,
`Biome.cpp`, `BiomeManager.cpp` and `Frustum.h`, followed by theorems about it.

Modelling conventions.
* `int` values are `Int`; loop counters that run over `0 .. size-1` are `Nat`
  and are cast when they are used as coordinates.
* `std::vector<std::vector<std::vector<int>>>` is a total function
  `Int → Int → Int → Int`; the code only ever indexes it inside `[0,size)³`.
* `float` values are rationals.  Vertex positions are small integers converted
  to `float`, which is exact, so they are kept as `Int`.
* `std::unordered_map` / `std::map` are functions into `Option`.
* External noise (`FastNoiseLite`) is a parameter.
* OpenGL handles (`m_VAO`, `m_VBO`, `m_EBO`) are not modelled.
* `glm::normalize`, the mouse buttons, the look vector and the parsed inventory item are
  parameters of the raycast and edit functions.
* In `raycastVoxel` the `float` operations are rounded: `roundFloat` is IEEE 754 binary32
  rounding to nearest, ties to even, on rationals, applied after every sum, difference and
  product (no fused multiply-add, no overflow to infinity).  The loop carries a bound on the
  number of tests of its condition and is shown to finish within it when `maxDist ≤ 2^20 - 1`.
* A mutation through a chunk pointer is an update of the store entry that holds the chunk.
-/

namespace TerraVecta

/-! ## Data model -/

/-- The enum `VoxelChunk::Face`, in declaration order. -/
inductive Face where
  | Top
  | Bottom
  | Right
  | Left
  | Back
  | Front
  deriving DecidableEq, Repr

/-- The value of `static_cast<int>(face)`. -/
def Face.toInt : Face → Int
  | .Top => 0
  | .Bottom => 1
  | .Right => 2
  | .Left => 3
  | .Back => 4
  | .Front => 5

/-- One vertex record of `m_vertices`: eight floats (position, normal, texture coordinates). -/
structure Vertex where
  px : Int
  py : Int
  pz : Int
  nx : Int
  ny : Int
  nz : Int
  u : ℚ
  v : ℚ
  deriving DecidableEq

/-- A `glm::vec4` holding a texture rectangle `(minU, minV, maxU, maxV)`. -/
structure TexRect where
  x : ℚ
  y : ℚ
  z : ℚ
  w : ℚ
  deriving DecidableEq

/-- Four consecutive vertex records of `m_vertices`: the corners `v1 .. v4` of one quad. -/
structure Quad where
  v1 : Vertex
  v2 : Vertex
  v3 : Vertex
  v4 : Vertex
  deriving DecidableEq

/-- The four records of a quad in the order they are inserted into `m_vertices`. -/
def Quad.vertices (q : Quad) : List Vertex := [q.v1, q.v2, q.v3, q.v4]

/-- The quads stored in a vertex buffer, four records each. -/
def quadsOf : List Vertex → List Quad
  | v1 :: v2 :: v3 :: v4 :: rest => ⟨v1, v2, v3, v4⟩ :: quadsOf rest
  | _ => []

/-- The class `TextureAtlas` (the GL texture handle is not modelled). -/
structure TextureAtlas where
  m_tileSize : Int
  m_atlasWidth : Int
  m_atlasHeight : Int
  m_blockTiles : Int → Option (List Int)

/-- The method `TextureAtlas::getTexCoords`.  Integer `/` and `%` truncate as in C++. -/
def TextureAtlas.getTexCoords (a : TextureAtlas) (blockType face : Int) : TexRect :=
  match a.m_blockTiles blockType with
  | none => ⟨0, 0, 1, 1⟩
  | some indices =>
    let index : Int :=
      if face < (indices.length : Int) then indices.getD face.toNat 0 else indices.getD 0 0
    let tilesPerRow : Int := Int.tdiv a.m_atlasWidth a.m_tileSize
    let tileX : Int := Int.tmod index tilesPerRow
    let tileY : Int := Int.tdiv index tilesPerRow
    let tileWidth : ℚ := (a.m_tileSize : ℚ) / (a.m_atlasWidth : ℚ)
    let tileHeight : ℚ := (a.m_tileSize : ℚ) / (a.m_atlasHeight : ℚ)
    let u1 : ℚ := (tileX : ℚ) * tileWidth
    let v1 : ℚ := (tileY : ℚ) * tileHeight
    let u2 : ℚ := u1 + tileWidth
    let v2 : ℚ := v1 + tileHeight
    ⟨u1, v1, u2, v2⟩

/-- The enum `Biome::Type`. -/
inductive BiomeType where
  | Plains
  | Forest
  | Desert
  | Mountains
  | Tundra
  | Ocean
  deriving DecidableEq, Repr

/-- The class `Biome`. -/
structure Biome where
  m_type : BiomeType
  m_baseHeight : ℚ
  m_heightVariation : ℚ
  m_surfaceBlock : Int
  m_subsurfaceBlock : Int
  m_bedrockBlock : Int
  deriving DecidableEq

/-- The constructor `Biome::Biome`, which runs the block-type switch of
`Biome::initializeBiomeParameters`. -/
def Biome.new (type : BiomeType) (baseHeight heightVariation : ℚ) : Biome :=
  match type with
  | .Plains => ⟨type, baseHeight, heightVariation, 1, 2, 5⟩
  | .Desert => ⟨type, baseHeight, heightVariation, 4, 4, 5⟩
  | .Mountains => ⟨type, baseHeight, heightVariation, 5, 5, 5⟩
  | .Forest => ⟨type, baseHeight, heightVariation, 1, 2, 5⟩
  | .Tundra => ⟨type, baseHeight, heightVariation, 6, 2, 5⟩
  | .Ocean => ⟨type, baseHeight, heightVariation, 1, 2, 5⟩

/-- The method `Biome::getType`. -/
def Biome.getType (b : Biome) : BiomeType := b.m_type

/-- The method `Biome::getBaseHeight`. -/
def Biome.getBaseHeight (b : Biome) : ℚ := b.m_baseHeight

/-- The method `Biome::getHeightVariation`. -/
def Biome.getHeightVariation (b : Biome) : ℚ := b.m_heightVariation

/-- The method `Biome::getVoxelType(int x, int y, int height)`. -/
def Biome.getVoxelType (b : Biome) (_x y height : Int) : Int :=
  if y < 1 then b.m_bedrockBlock
  else if y < height - 3 then b.m_bedrockBlock
  else if y < height - 1 then b.m_subsurfaceBlock
  else if y = height - 1 then b.m_surfaceBlock
  else if y < 10 ∧ b.m_type ≠ BiomeType.Desert ∧ b.m_type ≠ BiomeType.Tundra then 3
  else 0

/-- The class `BiomeManager`.  `m_noise` is the external Perlin noise
`FastNoiseLite::GetNoise`; the lookup cache `m_biomeMap` only memoises
`getBiomeAt` and is left out. -/
structure BiomeManager where
  m_biomes : List Biome
  m_noise : ℚ → ℚ → ℚ

/-- The method `BiomeManager::initializeBiomes`: the five biomes pushed by the constructor. -/
def BiomeManager.initializeBiomes : List Biome :=
  [Biome.new .Plains 10 5, Biome.new .Desert 8 3, Biome.new .Mountains 20 15,
   Biome.new .Forest 12 7, Biome.new .Tundra 9 4]

/-- The constructor `BiomeManager::BiomeManager` over a given noise function. -/
def BiomeManager.new (noise : ℚ → ℚ → ℚ) : BiomeManager :=
  ⟨BiomeManager.initializeBiomes, noise⟩

/-- The method `BiomeManager::getBiomeAt`; `none` stands for a null pointer. -/
def BiomeManager.getBiomeAt (m : BiomeManager) (x z : Int) : Option Biome :=
  let moistureNoise := m.m_noise ((x : ℚ) * (1 / 2)) ((z : ℚ) * (1 / 2))
  let temperatureNoise := m.m_noise ((z : ℚ) * (1 / 2)) ((x : ℚ) * (1 / 2))
  let elevationNoise := m.m_noise ((x : ℚ) * (1 / 4)) ((z : ℚ) * (1 / 4))
  let biomeIndex : Nat :=
    if elevationNoise > 1 / 2 then 2
    else if temperatureNoise > 3 / 10 ∧ moistureNoise < -(3 / 10) then 1
    else if temperatureNoise < -(3 / 10) then 4
    else if moistureNoise > 1 / 5 then 3
    else 0
  m.m_biomes[biomeIndex]?

/-- The two `FastNoiseLite` generators that `generateTerrain` builds (seeds 42 and 43),
as the functions computed by their `GetNoise`. -/
structure TerrainNoise where
  baseNoise : ℚ → ℚ → ℚ
  detailNoise : ℚ → ℚ → ℚ

/-- The class `VoxelChunk`.  `m_size` is the constructor argument; the constructor resizes
`m_voxelData` to `size³` cells, so `m_voxelData.size()` is `m_size` and is not negative. -/
structure VoxelChunk where
  m_size : Nat
  m_voxelData : Int → Int → Int → Int
  m_vertices : List Vertex
  m_indices : List Nat
  m_indexCount : Nat
  m_needsMeshUpdate : Bool
  m_biomeManager : Option BiomeManager
  m_textureAtlas : Option TextureAtlas
  m_worldPosition : Int × Int

namespace VoxelChunk

/-- The constructor `VoxelChunk::VoxelChunk(int size)`: an all-air grid, no mesh, not dirty. -/
def new (size : Nat) : VoxelChunk :=
  { m_size := size
    m_voxelData := fun _ _ _ => 0
    m_vertices := []
    m_indices := []
    m_indexCount := 0
    m_needsMeshUpdate := false
    m_biomeManager := none
    m_textureAtlas := none
    m_worldPosition := (0, 0) }

/-- The bounds test `x >= 0 && x < m_size && y >= 0 && y < m_size && z >= 0 && z < m_size`. -/
def inRange (c : VoxelChunk) (x y z : Int) : Prop :=
  0 ≤ x ∧ x < c.m_size ∧ 0 ≤ y ∧ y < c.m_size ∧ 0 ≤ z ∧ z < c.m_size

instance (c : VoxelChunk) (x y z : Int) : Decidable (c.inRange x y z) := by
  unfold inRange
  infer_instance

/-- The method `VoxelChunk::getVoxel`. -/
def getVoxel (c : VoxelChunk) (x y z : Int) : Int :=
  if x < 0 ∨ x ≥ c.m_size ∨ y < 0 ∨ y ≥ c.m_size ∨ z < 0 ∨ z ≥ c.m_size then 0
  else c.m_voxelData x y z

/-- The assignment `m_voxelData[x][y][z] = type`. -/
def writeCell (d : Int → Int → Int → Int) (x y z type : Int) : Int → Int → Int → Int :=
  fun i j k => if i = x ∧ j = y ∧ k = z then type else d i j k

/-- The method `VoxelChunk::markForMeshUpdate`. -/
def markForMeshUpdate (c : VoxelChunk) (update : Bool) : VoxelChunk :=
  { c with m_needsMeshUpdate := update }

/-- The method `VoxelChunk::clearMeshUpdateFlag`. -/
def clearMeshUpdateFlag (c : VoxelChunk) : VoxelChunk :=
  { c with m_needsMeshUpdate := false }

/-- The method `VoxelChunk::needsMeshUpdate`. -/
def needsMeshUpdate (c : VoxelChunk) : Bool := c.m_needsMeshUpdate

/-- The method `VoxelChunk::setVoxel`. -/
def setVoxel (c : VoxelChunk) (x y z type : Int) : VoxelChunk :=
  if c.inRange x y z then
    if c.m_voxelData x y z ≠ type then
      markForMeshUpdate { c with m_voxelData := writeCell c.m_voxelData x y z type } true
    else c
  else c

/-- The method `VoxelChunk::setBiomeManager`. -/
def setBiomeManager (c : VoxelChunk) (biomeManager : Option BiomeManager) : VoxelChunk :=
  { c with m_biomeManager := biomeManager }

/-- The method `VoxelChunk::setWorldPosition`. -/
def setWorldPosition (c : VoxelChunk) (position : Int × Int) : VoxelChunk :=
  { c with m_worldPosition := position }

/-- The method `VoxelChunk::setTextureAtlas`. -/
def setTextureAtlas (c : VoxelChunk) (atlas : Option TextureAtlas) : VoxelChunk :=
  { c with m_textureAtlas := atlas }

/-- The lambda `is_air_or_outside` of `generateOptimizedMesh`. -/
def is_air_or_outside (size : Nat) (d : Int → Int → Int → Int) (x y z : Int) : Bool :=
  if x < 0 ∨ x ≥ size ∨ y < 0 ∨ y ≥ size ∨ z < 0 ∨ z ≥ size then true
  else d x y z == 0

/-! ## Greedy mesher -/

/-- Number of iterations of a loop `while (i < bound && ok(i)) i++` that is entered with
`bound - i = n`: the length of the run of consecutive indices `i, i+1, ...` on which `ok` holds. -/
def runLength (ok : Nat → Bool) : Nat → Nat → Nat
  | _, 0 => 0
  | i, n + 1 => if ok i then runLength ok (i + 1) n + 1 else 0

/-- One merge of a pass: origin `(a, b)` in the plane (`a` is the outer loop variable, `b` the
inner one), `width` along `a`, `height` along `b`, and the block type. -/
structure Rect where
  a : Nat
  b : Nat
  width : Nat
  height : Nat
  blockType : Int
  deriving DecidableEq

/-- The cells `processed[a + d1][b + d2]`, `d1 < width`, `d2 < height`, that a merge marks. -/
def Rect.contains (r : Rect) (i j : Nat) : Bool :=
  decide (r.a ≤ i ∧ i < r.a + r.width ∧ r.b ≤ j ∧ j < r.b + r.height)

/-- State of one plane of a pass: the `processed` grid and the merges made so far. -/
structure PlaneState where
  processed : Nat → Nat → Bool
  rects : List Rect

/-- The width loop of a pass at plane cell `(a, b)` with block type `typ a b`:
`width = 1; while (a + width < size && !processed[a + width][b] &&
typ[a + width][b] == blockType && exposed(a + width, b)) width++`. -/
def mergeWidth (size : Nat) (typ : Nat → Nat → Int) (exposed : Nat → Nat → Bool)
    (st : PlaneState) (a b : Nat) : Nat :=
  1 + runLength
    (fun i => !st.processed i b && typ i b == typ a b && exposed i b)
    (a + 1) (size - (a + 1))

/-- The height loop of a pass: `height = 1; while (canExpand && b + height < size)`, where a
row is accepted only when the inner `for (dx = 0; dx < width; dx++)` finds no cell that is
processed, of another type or not exposed. -/
def mergeHeight (size : Nat) (typ : Nat → Nat → Int) (exposed : Nat → Nat → Bool)
    (st : PlaneState) (a b width : Nat) : Nat :=
  1 + runLength
    (fun j => (List.range width).all fun dx =>
      !(st.processed (a + dx) j || typ (a + dx) j != typ a b || !exposed (a + dx) j))
    (b + 1) (size - (b + 1))

/-- The rectangle merged at plane cell `(a, b)`. -/
def mergeRect (size : Nat) (typ : Nat → Nat → Int) (exposed : Nat → Nat → Bool)
    (st : PlaneState) (a b : Nat) : Rect :=
  ⟨a, b, mergeWidth size typ exposed st a b,
    mergeHeight size typ exposed st a b (mergeWidth size typ exposed st a b), typ a b⟩

/-- Body of the two inner loops of a pass at plane cell `(a, b)`.  `typ a b` is
`m_voxelData` at that cell of the plane and `exposed a b` is `is_air_or_outside` of its
neighbour in the pass direction.  A cell that is processed, air or not exposed is skipped;
otherwise the rectangle is grown, its cells are marked processed and it is emitted. -/
def mergeCell (size : Nat) (typ : Nat → Nat → Int) (exposed : Nat → Nat → Bool)
    (st : PlaneState) (a b : Nat) : PlaneState :=
  if st.processed a b || typ a b == 0 || !exposed a b then st
  else
    { processed := fun i j => st.processed i j || (mergeRect size typ exposed st a b).contains i j
      rects := st.rects ++ [mergeRect size typ exposed st a b] }

/-- The raster scan of one plane: a fresh `processed` grid, then the two nested `for` loops. -/
def mergePlane (size : Nat) (typ : Nat → Nat → Int) (exposed : Nat → Nat → Bool) : List Rect :=
  ((List.range size).foldl
    (fun st a => (List.range size).foldl (fun st b => mergeCell size typ exposed st a b) st)
    ⟨fun _ _ => false, []⟩).rects

/-- The arguments of one call `addOptimizedFace(x, y, z, face, width, height, blockType)`. -/
structure FaceCall where
  x : Int
  y : Int
  z : Int
  face : Face
  width : Int
  height : Int
  voxelType : Int
  deriving DecidableEq

/-- The `-- TOP FACES (Y+) --` pass: planes `y = size-1 .. 0`, outer loop `x`, inner loop `z`. -/
def topPass (size : Nat) (d : Int → Int → Int → Int) : List FaceCall :=
  (List.range size).reverse.flatMap fun y =>
    (mergePlane size (fun x z => d x y z)
      (fun x z => is_air_or_outside size d x ((y : Int) + 1) z)).map
      fun r => ⟨r.a, y, r.b, Face.Top, r.width, r.height, r.blockType⟩

/-- The `-- BOTTOM FACES (Y-) --` pass: planes `y = 0 .. size-1`, outer loop `x`, inner loop `z`. -/
def bottomPass (size : Nat) (d : Int → Int → Int → Int) : List FaceCall :=
  (List.range size).flatMap fun y =>
    (mergePlane size (fun x z => d x y z)
      (fun x z => is_air_or_outside size d x ((y : Int) - 1) z)).map
      fun r => ⟨r.a, y, r.b, Face.Bottom, r.width, r.height, r.blockType⟩

/-- The `-- FRONT FACES (Z-) --` pass: planes `z = 0 .. size-1`, outer loop `x`, inner loop `y`. -/
def frontPass (size : Nat) (d : Int → Int → Int → Int) : List FaceCall :=
  (List.range size).flatMap fun z =>
    (mergePlane size (fun x y => d x y z)
      (fun x y => is_air_or_outside size d x y ((z : Int) - 1))).map
      fun r => ⟨r.a, r.b, z, Face.Front, r.width, r.height, r.blockType⟩

/-- The `-- BACK FACES (Z+) --` pass: planes `z = size-1 .. 0`, outer loop `x`, inner loop `y`. -/
def backPass (size : Nat) (d : Int → Int → Int → Int) : List FaceCall :=
  (List.range size).reverse.flatMap fun z =>
    (mergePlane size (fun x y => d x y z)
      (fun x y => is_air_or_outside size d x y ((z : Int) + 1))).map
      fun r => ⟨r.a, r.b, z, Face.Back, r.width, r.height, r.blockType⟩

/-- The `-- RIGHT FACES (X+) --` pass: planes `x = size-1 .. 0`, outer loop `y`, inner loop `z`;
`width` runs along `y` and `height` along `z`. -/
def rightPass (size : Nat) (d : Int → Int → Int → Int) : List FaceCall :=
  (List.range size).reverse.flatMap fun x =>
    (mergePlane size (fun y z => d x y z)
      (fun y z => is_air_or_outside size d ((x : Int) + 1) y z)).map
      fun r => ⟨x, r.a, r.b, Face.Right, r.width, r.height, r.blockType⟩

/-- The `-- LEFT FACES (X-) --` pass: planes `x = 0 .. size-1`, outer loop `y`, inner loop `z`;
`width` runs along `y` and `height` along `z`. -/
def leftPass (size : Nat) (d : Int → Int → Int → Int) : List FaceCall :=
  (List.range size).flatMap fun x =>
    (mergePlane size (fun y z => d x y z)
      (fun y z => is_air_or_outside size d ((x : Int) - 1) y z)).map
      fun r => ⟨x, r.a, r.b, Face.Left, r.width, r.height, r.blockType⟩

/-- The calls to `addOptimizedFace` made by the six passes of `generateOptimizedMesh`, in order. -/
def passCalls (size : Nat) (d : Int → Int → Int → Int) : List FaceCall :=
  topPass size d ++ bottomPass size d ++ frontPass size d ++ backPass size d ++
    rightPass size d ++ leftPass size d

/-- The texture lookup at the head of `addOptimizedFace` (and of `addFace`). -/
def texCoordsRect (atlas : Option TextureAtlas) (voxelType : Int) (face : Face) : TexRect :=
  match atlas with
  | some a => a.getTexCoords voxelType face.toInt
  | none => ⟨0, 0, 1, 1⟩

/-- The `switch (face)` of `addOptimizedFace`: the four corners `v1 .. v4` with the face
`normal` and the texture coordinates `uv1 .. uv4`. -/
def faceQuad (atlas : Option TextureAtlas) (x y z : Int) (face : Face)
    (width height voxelType : Int) : Quad :=
  let t := texCoordsRect atlas voxelType face
  let minU := t.x
  let minV := t.y
  let maxU := t.z
  let maxV := t.w
  match face with
  | .Front =>
    ⟨⟨x + width, y, z, 0, 0, -1, minU, minV⟩, ⟨x, y, z, 0, 0, -1, maxU, minV⟩,
     ⟨x, y + height, z, 0, 0, -1, maxU, maxV⟩, ⟨x + width, y + height, z, 0, 0, -1, minU, maxV⟩⟩
  | .Back =>
    ⟨⟨x, y, z + 1, 0, 0, 1, minU, minV⟩, ⟨x + width, y, z + 1, 0, 0, 1, maxU, minV⟩,
     ⟨x + width, y + height, z + 1, 0, 0, 1, maxU, maxV⟩, ⟨x, y + height, z + 1, 0, 0, 1, minU, maxV⟩⟩
  | .Right =>
    ⟨⟨x + 1, y, z, 1, 0, 0, minU, minV⟩, ⟨x + 1, y, z + width, 1, 0, 0, maxU, minV⟩,
     ⟨x + 1, y + height, z + width, 1, 0, 0, maxU, maxV⟩, ⟨x + 1, y + height, z, 1, 0, 0, minU, maxV⟩⟩
  | .Left =>
    ⟨⟨x, y, z + width, -1, 0, 0, minU, minV⟩, ⟨x, y, z, -1, 0, 0, maxU, minV⟩,
     ⟨x, y + height, z, -1, 0, 0, maxU, maxV⟩, ⟨x, y + height, z + width, -1, 0, 0, minU, maxV⟩⟩
  | .Top =>
    ⟨⟨x, y + 1, z, 0, 1, 0, minU, minV⟩, ⟨x + width, y + 1, z, 0, 1, 0, maxU, minV⟩,
     ⟨x + width, y + 1, z + height, 0, 1, 0, maxU, maxV⟩, ⟨x, y + 1, z + height, 0, 1, 0, minU, maxV⟩⟩
  | .Bottom =>
    ⟨⟨x, y, z + height, 0, -1, 0, minU, minV⟩, ⟨x + width, y, z + height, 0, -1, 0, maxU, minV⟩,
     ⟨x + width, y, z, 0, -1, 0, maxU, maxV⟩, ⟨x, y, z, 0, -1, 0, minU, maxV⟩⟩

/-- The quad computed by `addOptimizedFace` for the arguments of one call. -/
def callQuad (atlas : Option TextureAtlas) (f : FaceCall) : Quad :=
  faceQuad atlas f.x f.y f.z f.face f.width f.height f.voxelType

/-- The method `VoxelChunk::addOptimizedFace`.  `vertexOffset` is `m_vertices.size() / 8`,
the number of vertex records already stored. -/
def addOptimizedFace (c : VoxelChunk) (x y z : Int) (face : Face)
    (width height voxelType : Int) : VoxelChunk :=
  let vertexOffset := c.m_vertices.length
  { c with
    m_vertices := c.m_vertices ++
      (faceQuad c.m_textureAtlas x y z face width height voxelType).vertices
    m_indices := c.m_indices ++ [vertexOffset + 0, vertexOffset + 1, vertexOffset + 2,
      vertexOffset + 0, vertexOffset + 2, vertexOffset + 3]
    m_indexCount := c.m_indexCount + 6 }

/-- The method `VoxelChunk::generateOptimizedMesh`: clear the buffers, run the six passes
(the local `size = m_voxelData.size()` is `m_size`), and add the dummy face when nothing was
emitted. -/
def generateOptimizedMesh (c : VoxelChunk) : VoxelChunk :=
  let c0 : VoxelChunk := { c with m_vertices := [], m_indices := [], m_indexCount := 0 }
  let c1 := (passCalls c.m_size c.m_voxelData).foldl
    (fun acc f => addOptimizedFace acc f.x f.y f.z f.face f.width f.height f.voxelType) c0
  if c1.m_vertices.isEmpty then addOptimizedFace c1 0 0 0 Face.Top 1 1 0 else c1

/-! ## Terrain fill -/

/-- The conversion `static_cast<int>(f)` of a float: truncation toward zero. -/
def truncToInt (q : ℚ) : Int := if 0 ≤ q then ⌊q⌋ else ⌈q⌉

/-- Body of the `x`/`z` loops of `generateTerrain` for one column: biome lookup, height
computation and the `y` loop that writes the column.  The literals `0.2f` and `0.5f` are taken
as the rationals `1/5` and `1/2`. -/
def terrainColumn (N : TerrainNoise) (bm : BiomeManager) (m_size : Nat) (waterLevel : Int)
    (worldOffsetX worldOffsetZ : ℚ) (d : Int → Int → Int → Int) (x z : Nat) :
    Int → Int → Int → Int :=
  let worldX : ℚ := worldOffsetX + (x : ℚ)
  let worldZ : ℚ := worldOffsetZ + (z : ℚ)
  match bm.getBiomeAt (truncToInt worldX) (truncToInt worldZ) with
  | none => d
  | some biome =>
    let baseHeight : ℚ := biome.getBaseHeight * (m_size : ℚ)
    let heightVariation : ℚ := biome.getHeightVariation * (m_size : ℚ)
    let baseNoiseValue : ℚ := N.baseNoise worldX worldZ
    let detailNoiseValue : ℚ := N.detailNoise worldX worldZ * (1 / 5)
    let normalizedNoise : ℚ := (baseNoiseValue + detailNoiseValue + 1) * (1 / 2)
    let height0 : Int := truncToInt (baseHeight + normalizedNoise * heightVariation)
    let height1 : Int := min (max height0 1) ((m_size : Int) - 1)
    let height : Int :=
      if biome.getType = BiomeType.Ocean then min height1 (waterLevel - 3) else height1
    (List.range m_size).foldl
      (fun d (y : Nat) =>
        if (y : Int) < height then
          writeCell d x y z (biome.getVoxelType y height m_size)
        else if (y : Int) ≤ waterLevel ∧ biome.getType ≠ BiomeType.Desert then
          writeCell d x y z 3
        else
          writeCell d x y z 0)
      d

/-- The method `VoxelChunk::generateTerrain`. -/
def generateTerrain (N : TerrainNoise) (c : VoxelChunk) : VoxelChunk :=
  match c.m_biomeManager with
  | none => c
  | some bm =>
    let waterLevel : Int := Int.tdiv c.m_size 3
    let worldOffsetX : ℚ := ((c.m_worldPosition.1 * (c.m_size : Int) : Int) : ℚ)
    let worldOffsetZ : ℚ := ((c.m_worldPosition.2 * (c.m_size : Int) : Int) : ℚ)
    let data := (List.range c.m_size).foldl
      (fun d x => (List.range c.m_size).foldl
        (fun d z => terrainColumn N bm c.m_size waterLevel worldOffsetX worldOffsetZ d x z) d)
      c.m_voxelData
    markForMeshUpdate { c with m_voxelData := data } true

end VoxelChunk

/-! ## Chunk store and streaming -/

/-- The constant `Application::CHUNK_SIZE`. -/
def CHUNK_SIZE : Nat := 16

/-- The constant `Application::RENDER_DISTANCE`. -/
def RENDER_DISTANCE : Nat := 5

/-- The part of class `Application` that chunk streaming and world lookups use. -/
structure Application where
  m_cameraPosition : ℚ × ℚ × ℚ
  m_loadedChunks : Int × Int → Option VoxelChunk
  m_biomeManager : Option BiomeManager
  m_textureAtlas : Option TextureAtlas

/-- The viewer's chunk coordinate, `floor(m_cameraPosition.x / CHUNK_SIZE)` and the same on `z`. -/
def Application.playerChunk (app : Application) : Int × Int :=
  (⌊app.m_cameraPosition.1 / (CHUNK_SIZE : ℚ)⌋, ⌊app.m_cameraPosition.2.2 / (CHUNK_SIZE : ℚ)⌋)

/-- The test `glm::length(glm::vec2(dx, dz)) <= R`.  The float square root is monotone and
correctly rounded, so for the small integers involved it agrees with `dx² + dz² ≤ R²`. -/
def withinRenderDistance (R : Nat) (dx dz : Int) : Bool :=
  decide (dx * dx + dz * dz ≤ (R : Int) * (R : Int))

/-- The chunk built by `updateChunks` for a missing coordinate: construct, set position,
attach the biome manager and atlas when present, fill terrain, build the mesh. -/
def Application.loadChunk (N : TerrainNoise) (app : Application) (chunkPos : Int × Int) :
    VoxelChunk :=
  let chunk := VoxelChunk.new CHUNK_SIZE
  let chunk := chunk.setWorldPosition chunkPos
  let chunk := if app.m_biomeManager.isSome then chunk.setBiomeManager app.m_biomeManager else chunk
  let chunk := if app.m_textureAtlas.isSome then chunk.setTextureAtlas app.m_textureAtlas else chunk
  let chunk := chunk.generateTerrain N
  chunk.generateOptimizedMesh

/-- Loop state of the first part of `updateChunks`: the set `chunksToKeep` and the store. -/
structure StreamState where
  chunksToKeep : List (Int × Int)
  m_loadedChunks : Int × Int → Option VoxelChunk

/-- Body of the two nested loops of `updateChunks` at coordinate `(x, z)`. -/
def Application.keepOrLoad (N : TerrainNoise) (app : Application) (R : Nat)
    (playerChunkX playerChunkZ : Int) (s : StreamState) (x z : Int) : StreamState :=
  if withinRenderDistance R (x - playerChunkX) (z - playerChunkZ) then
    let keep := s.chunksToKeep ++ [(x, z)]
    if (s.m_loadedChunks (x, z)).isNone then
      ⟨keep, fun k => if k = (x, z) then some (app.loadChunk N (x, z)) else s.m_loadedChunks k⟩
    else ⟨keep, s.m_loadedChunks⟩
  else s

/-- The values `lo, lo+1, .., lo+n-1` of a loop `for (int v = lo; v <= hi; v++)`. -/
def intRange (lo : Int) (n : Nat) : List Int := (List.range n).map fun (i : Nat) => lo + (i : Int)

/-- First part of `updateChunks`: the nested loops over
`x = playerChunkX - R .. playerChunkX + R` and `z = playerChunkZ - R .. playerChunkZ + R`
that fill `chunksToKeep` and create the missing chunks. -/
def Application.scanRenderArea (R : Nat) (N : TerrainNoise) (app : Application) : StreamState :=
  let playerChunkX := app.playerChunk.1
  let playerChunkZ := app.playerChunk.2
  (intRange (playerChunkX - R) (2 * R + 1)).foldl
    (fun s x => (intRange (playerChunkZ - R) (2 * R + 1)).foldl
      (fun s z => app.keepOrLoad N R playerChunkX playerChunkZ s x z) s)
    ⟨[], app.m_loadedChunks⟩

/-- The method `Application::updateChunks` with the render distance as a parameter: scan the
render area, erase the chunks that are not in `chunksToKeep`, rebuild the dirty meshes. -/
def Application.updateChunksWith (R : Nat) (N : TerrainNoise) (app : Application) : Application :=
  let s := app.scanRenderArea R N
  let unloaded : Int × Int → Option VoxelChunk :=
    fun k => if k ∈ s.chunksToKeep then s.m_loadedChunks k else none
  let remeshed : Int × Int → Option VoxelChunk :=
    fun k => (unloaded k).map fun chunk =>
      if chunk.needsMeshUpdate then chunk.generateOptimizedMesh.clearMeshUpdateFlag else chunk
  { app with m_loadedChunks := remeshed }

/-- The method `Application::updateChunks`. -/
def Application.updateChunks (N : TerrainNoise) (app : Application) : Application :=
  app.updateChunksWith RENDER_DISTANCE N

/-- The conversion `static_cast<float>(n)` of an `int`, as the integer the float holds:
exact below `2^24`, otherwise rounded to 24 significant bits, ties to even. -/
def floatOfInt (n : Int) : Int :=
  let a := n.natAbs
  if a < 2 ^ 24 then n
  else
    let e := Nat.log2 a - 23
    let q := a / 2 ^ e
    let r := a % 2 ^ e
    let half := 2 ^ (e - 1)
    let q1 := if r > half ∨ (r = half ∧ q % 2 = 1) then q + 1 else q
    Int.sign n * ((q1 * 2 ^ e : Nat) : Int)

/-- The chunk index `std::floor(static_cast<float>(w) / CHUNK_SIZE)`; dividing a float by 16
is exact, so the floor is the floor division of the converted integer. -/
def worldToChunk (w : Int) : Int := Int.fdiv (floatOfInt w) (CHUNK_SIZE : Int)

/-- The local index `((w % CHUNK_SIZE) + CHUNK_SIZE) % CHUNK_SIZE`, with the truncating `%`. -/
def worldToLocal (w : Int) : Int :=
  Int.tmod (Int.tmod w (CHUNK_SIZE : Int) + (CHUNK_SIZE : Int)) (CHUNK_SIZE : Int)

/-- The result of `getChunkFromWorldPos`: the returned chunk pointer (`none` for null), the
chunk coordinate `chunkPos = (chunkX, chunkZ)` it computed, and the out-parameter `localPos`. -/
structure ChunkLookup where
  chunk : Option VoxelChunk
  chunkPos : Int × Int
  localPos : Int × Int × Int

/-- The method `Application::getChunkFromWorldPos`. -/
def Application.getChunkFromWorldPos (app : Application) (worldPos : Int × Int × Int) :
    ChunkLookup :=
  let chunkX := worldToChunk worldPos.1
  let chunkZ := worldToChunk worldPos.2.2
  let localPos : Int × Int × Int :=
    (worldToLocal worldPos.1, worldPos.2.1, worldToLocal worldPos.2.2)
  if localPos.2.1 < 0 ∨ localPos.2.1 ≥ (CHUNK_SIZE : Int) then ⟨none, (chunkX, chunkZ), localPos⟩
  else ⟨app.m_loadedChunks (chunkX, chunkZ), (chunkX, chunkZ), localPos⟩

/-- The coordinates visited by the nested loops of `updateChunks`, in loop order. -/
def renderSquare (R : Nat) (px pz : Int) : List (Int × Int) :=
  (intRange (px - R) (2 * R + 1)).flatMap fun x =>
    (intRange (pz - R) (2 * R + 1)).map fun z => (x, z)

/-- The thirteen chunk coordinates `(x, z)` with `x² + z² ≤ 4`. -/
def disc13 : List (Int × Int) :=
  [(0, 0), (1, 0), (-1, 0), (0, 1), (0, -1), (1, 1), (1, -1), (-1, 1), (-1, -1),
   (2, 0), (-2, 0), (0, 2), (0, -2)]

/-- An application with the camera at the origin and an empty chunk store. -/
def emptyApp : Application :=
  { m_cameraPosition := (0, 0, 0)
    m_loadedChunks := fun _ => none
    m_biomeManager := none
    m_textureAtlas := none }

/-- A noise source that is constantly zero. -/
def zeroNoise : TerrainNoise := ⟨fun _ _ => 0, fun _ _ => 0⟩

namespace VoxelChunk

/-- Invariant of the raster scan of one plane: a processed cell lies in the plane and is an
exposed solid cell, and a cell lies in exactly one merged rectangle when it is processed and in
none otherwise. -/
def PlaneInv (size : Nat) (typ : Nat → Nat → Int) (exposed : Nat → Nat → Bool)
    (st : PlaneState) : Prop :=
  (∀ i j, st.processed i j = true → i < size ∧ j < size ∧ typ i j ≠ 0 ∧ exposed i j = true) ∧
    (∀ i j, st.rects.countP (fun r => r.contains i j) = if st.processed i j = true then 1 else 0)

/-- The cells of a plane in raster order: outer loop first. -/
def planeCells (size : Nat) : List (Nat × Nat) :=
  (List.range size).flatMap fun a => (List.range size).map fun b => (a, b)

end VoxelChunk

/-! ## Dirty-flag bookkeeping -/

/-- A chunk together with the grid content its current mesh was built from. -/
structure Tracked where
  chunk : VoxelChunk
  meshGrid : Int → Int → Int → Int

/-- The chunk states reachable from a newly constructed chunk through voxel writes, terrain
fills, configuration setters and mesh builds. -/
inductive Reachable (N : TerrainNoise) : Tracked → Prop where
  | construct (size : Nat) : Reachable N ⟨VoxelChunk.new size, fun _ _ _ => 0⟩
  | setVoxel (s : Tracked) (x y z type : Int) :
      Reachable N s → Reachable N ⟨s.chunk.setVoxel x y z type, s.meshGrid⟩
  | generateTerrain (s : Tracked) :
      Reachable N s → Reachable N ⟨s.chunk.generateTerrain N, s.meshGrid⟩
  | setBiomeManager (s : Tracked) (bm : Option BiomeManager) :
      Reachable N s → Reachable N ⟨s.chunk.setBiomeManager bm, s.meshGrid⟩
  | setWorldPosition (s : Tracked) (p : Int × Int) :
      Reachable N s → Reachable N ⟨s.chunk.setWorldPosition p, s.meshGrid⟩
  | setTextureAtlas (s : Tracked) (a : Option TextureAtlas) :
      Reachable N s → Reachable N ⟨s.chunk.setTextureAtlas a, s.meshGrid⟩
  | buildMesh (s : Tracked) :
      Reachable N s → Reachable N ⟨s.chunk.generateOptimizedMesh, s.chunk.m_voxelData⟩
  | rebuild (s : Tracked) :
      Reachable N s →
        Reachable N ⟨s.chunk.generateOptimizedMesh.clearMeshUpdateFlag, s.chunk.m_voxelData⟩

/-! ## Reading quads back from the vertex buffer -/

/-- Smallest of four integers. -/
def min4 (a b c d : Int) : Int := min (min a b) (min c d)

/-- Largest of four integers. -/
def max4 (a b c d : Int) : Int := max (max a b) (max c d)

/-- The outward unit normal of a face direction. -/
def Face.normal : Face → Int × Int × Int
  | .Top => (0, 1, 0)
  | .Bottom => (0, -1, 0)
  | .Right => (1, 0, 0)
  | .Left => (-1, 0, 0)
  | .Back => (0, 0, 1)
  | .Front => (0, 0, -1)

/-- Lower corner of the unit face of cell `(x, y, z)` in direction `d`. -/
def Face.cellLo (d : Face) (x y z : Int) : Int × Int × Int :=
  match d with
  | .Top => (x, y + 1, z)
  | .Right => (x + 1, y, z)
  | .Back => (x, y, z + 1)
  | .Bottom => (x, y, z)
  | .Left => (x, y, z)
  | .Front => (x, y, z)

/-- Upper corner of the unit face of cell `(x, y, z)` in direction `d`. -/
def Face.cellHi (d : Face) (x y z : Int) : Int × Int × Int :=
  match d with
  | .Top => (x + 1, y + 1, z + 1)
  | .Right => (x + 1, y + 1, z + 1)
  | .Back => (x + 1, y + 1, z + 1)
  | .Bottom => (x + 1, y, z + 1)
  | .Left => (x, y + 1, z + 1)
  | .Front => (x + 1, y + 1, z)

/-- Rasterisation of a quad: it covers the face `d` of cell `(x, y, z)` when its normal is the
outward normal of `d` and the unit face lies inside the rectangle spanned by its four vertex
positions. -/
def Quad.covers (q : Quad) (x y z : Int) (d : Face) : Bool :=
  decide ((q.v1.nx, q.v1.ny, q.v1.nz) = d.normal ∧
    min4 q.v1.px q.v2.px q.v3.px q.v4.px ≤ (d.cellLo x y z).1 ∧
    (d.cellHi x y z).1 ≤ max4 q.v1.px q.v2.px q.v3.px q.v4.px ∧
    min4 q.v1.py q.v2.py q.v3.py q.v4.py ≤ (d.cellLo x y z).2.1 ∧
    (d.cellHi x y z).2.1 ≤ max4 q.v1.py q.v2.py q.v3.py q.v4.py ∧
    min4 q.v1.pz q.v2.pz q.v3.pz q.v4.pz ≤ (d.cellLo x y z).2.2 ∧
    (d.cellHi x y z).2.2 ≤ max4 q.v1.pz q.v2.pz q.v3.pz q.v4.pz)

/-- The neighbour of cell `(x, y, z)` in direction `d`. -/
def Face.neighbour (d : Face) (x y z : Int) : Int × Int × Int :=
  (x + d.normal.1, y + d.normal.2.1, z + d.normal.2.2)

/-- The exposure rule: the cell is solid and its neighbour in direction `d` is air or outside
the grid. -/
def exposedFace (c : VoxelChunk) (x y z : Int) (d : Face) : Prop :=
  c.m_voxelData x y z ≠ 0 ∧
    VoxelChunk.is_air_or_outside c.m_size c.m_voxelData (d.neighbour x y z).1
      (d.neighbour x y z).2.1 (d.neighbour x y z).2.2 = true

instance (c : VoxelChunk) (x y z : Int) (d : Face) : Decidable (exposedFace c x y z d) := by
  unfold exposedFace
  infer_instance

/-- How many quads of the mesh built by `generateOptimizedMesh` cover face `d` of a cell. -/
def coverCount (c : VoxelChunk) (x y z : Int) (d : Face) : Nat :=
  (quadsOf c.generateOptimizedMesh.m_vertices).countP fun q => q.covers x y z d

/-- A quad of direction `d`: the normal written into its vertices is the outward normal of `d`. -/
def Quad.facing (q : Quad) (d : Face) : Bool :=
  decide ((q.v1.nx, q.v1.ny, q.v1.nz) = d.normal)

/-- The four vertex positions of a quad, in buffer order. -/
def Quad.positions (q : Quad) : List (Int × Int × Int) :=
  [(q.v1.px, q.v1.py, q.v1.pz), (q.v2.px, q.v2.py, q.v2.pz), (q.v3.px, q.v3.py, q.v3.pz),
   (q.v4.px, q.v4.py, q.v4.pz)]

/-! ## Example grids -/

/-- A chunk of size 2 built by three voxel writes: block type 1 at `(1,0,0)` and `(1,1,0)`,
block type 2 at `(1,0,1)`, air elsewhere. -/
def chunkA : VoxelChunk :=
  (((VoxelChunk.new 2).setVoxel 1 0 0 1).setVoxel 1 1 0 1).setVoxel 1 0 1 2

/-- A chunk of size `S` holding block type `T` on layer `y0` and air elsewhere. -/
def layerChunk (S : Nat) (y0 T : Int) : VoxelChunk :=
  { VoxelChunk.new S with m_voxelData := fun _ y _ => if y = y0 then T else 0 }

/-! ## The per-cell mesher path and triangle winding -/

namespace VoxelChunk

/-- The `switch (face)` of `addFace`: the four vertex records of the unit face of cell
`(x, y, z)`, with `fx, fy, fz` the cell coordinates converted to `float`. -/
def addFaceQuad (atlas : Option TextureAtlas) (x y z : Int) (face : Face) (voxelType : Int) :
    Quad :=
  let t := texCoordsRect atlas voxelType face
  let minU := t.x
  let minV := t.y
  let maxU := t.z
  let maxV := t.w
  match face with
  | .Top =>
    ⟨⟨x, y + 1, z, 0, 1, 0, minU, minV⟩, ⟨x + 1, y + 1, z, 0, 1, 0, maxU, minV⟩,
     ⟨x + 1, y + 1, z + 1, 0, 1, 0, maxU, maxV⟩, ⟨x, y + 1, z + 1, 0, 1, 0, minU, maxV⟩⟩
  | .Bottom =>
    ⟨⟨x, y, z, 0, -1, 0, minU, minV⟩, ⟨x + 1, y, z, 0, -1, 0, maxU, minV⟩,
     ⟨x + 1, y, z + 1, 0, -1, 0, maxU, maxV⟩, ⟨x, y, z + 1, 0, -1, 0, minU, maxV⟩⟩
  | .Right =>
    ⟨⟨x + 1, y, z, 1, 0, 0, minU, minV⟩, ⟨x + 1, y + 1, z, 1, 0, 0, minU, maxV⟩,
     ⟨x + 1, y + 1, z + 1, 1, 0, 0, maxU, maxV⟩, ⟨x + 1, y, z + 1, 1, 0, 0, maxU, minV⟩⟩
  | .Left =>
    ⟨⟨x, y, z + 1, -1, 0, 0, minU, minV⟩, ⟨x, y + 1, z + 1, -1, 0, 0, minU, maxV⟩,
     ⟨x, y + 1, z, -1, 0, 0, maxU, maxV⟩, ⟨x, y, z, -1, 0, 0, maxU, minV⟩⟩
  | .Back =>
    ⟨⟨x, y, z + 1, 0, 0, 1, minU, minV⟩, ⟨x + 1, y, z + 1, 0, 0, 1, maxU, minV⟩,
     ⟨x + 1, y + 1, z + 1, 0, 0, 1, maxU, maxV⟩, ⟨x, y + 1, z + 1, 0, 0, 1, minU, maxV⟩⟩
  | .Front =>
    ⟨⟨x + 1, y, z, 0, 0, -1, minU, minV⟩, ⟨x, y, z, 0, 0, -1, maxU, minV⟩,
     ⟨x, y + 1, z, 0, 0, -1, maxU, maxV⟩, ⟨x + 1, y + 1, z, 0, 0, -1, minU, maxV⟩⟩

/-- The method `VoxelChunk::addFace`.  `baseIndex` is `m_vertices.size() / 8`; the block type
for the texture lookup is read from `m_voxelData[x][y][z]`. -/
def addFace (c : VoxelChunk) (x y z : Int) (face : Face) : VoxelChunk :=
  let baseIndex := c.m_vertices.length
  let voxelType := c.m_voxelData x y z
  { c with
    m_vertices := c.m_vertices ++ (addFaceQuad c.m_textureAtlas x y z face voxelType).vertices
    m_indices := c.m_indices ++ [baseIndex + 0, baseIndex + 1, baseIndex + 2,
      baseIndex + 2, baseIndex + 3, baseIndex + 0]
    m_indexCount := c.m_indexCount + 6 }

end VoxelChunk

/-- A triangle: three vertex records in index-buffer order. -/
structure Triangle where
  a : Vertex
  b : Vertex
  c : Vertex
  deriving DecidableEq

/-- The triangles drawn by `glDrawElements(GL_TRIANGLES, ..)`: consecutive index triples looked
up in the vertex buffer (a triple with an index out of range is skipped). -/
def trianglesOf (vs : List Vertex) : List Nat → List Triangle
  | i :: j :: k :: rest =>
    match vs[i]?, vs[j]?, vs[k]? with
    | some a, some b, some c => ⟨a, b, c⟩ :: trianglesOf vs rest
    | _, _, _ => trianglesOf vs rest
  | _ => []

/-- The triangles that a call added: those of the indices appended to `before.m_indices`. -/
def emittedTriangles (before after : VoxelChunk) : List Triangle :=
  trianglesOf after.m_vertices (after.m_indices.drop before.m_indices.length)

/-- The right-hand-rule normal of a triangle: the cross product `(b - a) × (c - a)` of its
vertex positions. -/
def Triangle.cross (t : Triangle) : Int × Int × Int :=
  let ux := t.b.px - t.a.px
  let uy := t.b.py - t.a.py
  let uz := t.b.pz - t.a.pz
  let vx := t.c.px - t.a.px
  let vy := t.c.py - t.a.py
  let vz := t.c.pz - t.a.pz
  (uy * vz - uz * vy, uz * vx - ux * vz, ux * vy - uy * vx)

/-- The normal written into the first vertex of a triangle. -/
def Triangle.storedNormal (t : Triangle) : Int × Int × Int := (t.a.nx, t.a.ny, t.a.nz)

/-- Two vectors point in the same direction: one is a positive multiple of the other. -/
def sameDirection (u v : Int × Int × Int) : Prop :=
  ∃ k m : Int, 0 < k ∧ 0 < m ∧ (k * u.1, k * u.2.1, k * u.2.2) = (m * v.1, m * v.2.1, m * v.2.2)

/-- Scalar multiple of an integer vector. -/
def scaleVec (k : Int) (v : Int × Int × Int) : Int × Int × Int := (k * v.1, k * v.2.1, k * v.2.2)

/-- The orientation of the triangles that `addOptimizedFace` emits relative to the outward
normal of the face, as computed from its vertex order: `1` for Front and Back, `-1` for the
other four faces. -/
def optimizedWindingSign : Face → Int
  | .Front => 1
  | .Back => 1
  | .Right => -1
  | .Left => -1
  | .Top => -1
  | .Bottom => -1

/-- The orientation of the triangles that `addFace` emits relative to the outward normal of the
face, as computed from its vertex order: `-1` for Top, `1` for the other five faces. -/
def addFaceWindingSign : Face → Int
  | .Top => -1
  | .Bottom => 1
  | .Right => 1
  | .Left => 1
  | .Back => 1
  | .Front => 1

/-- A chunk of size 1 whose only cell holds block type 1. -/
def unitChunk : VoxelChunk := (VoxelChunk.new 1).setVoxel 0 0 0 1

/-! ## Terrain columns -/

/-- The value `normalizedNoise` of `generateTerrain` at a column:
`(baseNoiseValue + detailNoiseValue + 1.0f) * 0.5f` with `detailNoiseValue` already scaled by
`0.2f`. -/
def normalizedNoise (N : TerrainNoise) (worldX worldZ : ℚ) : ℚ :=
  (N.baseNoise worldX worldZ + N.detailNoise worldX worldZ * (1 / 5) + 1) * (1 / 2)

/-- The column height that `generateTerrain` computes for a biome and a normalised noise value
`n` in a chunk of size `m_size`: lines 748-760 of `VoxelChunk.cpp`. -/
def terrainHeight (biome : Biome) (m_size : Nat) (n : ℚ) : Int :=
  let baseHeight : ℚ := biome.getBaseHeight * (m_size : ℚ)
  let heightVariation : ℚ := biome.getHeightVariation * (m_size : ℚ)
  let height0 : Int := VoxelChunk.truncToInt (baseHeight + n * heightVariation)
  let height1 : Int := min (max height0 1) ((m_size : Int) - 1)
  if biome.getType = BiomeType.Ocean then min height1 (Int.tdiv m_size 3 - 3) else height1

/-- The value that the `y` loop of `generateTerrain` writes at height `y` of a column with
biome `biome` and column height `height`: lines 763-769 of `VoxelChunk.cpp`. -/
def terrainCell (biome : Biome) (m_size : Nat) (height : Int) (y : Nat) : Int :=
  if (y : Int) < height then biome.getVoxelType y height m_size
  else if (y : Int) ≤ Int.tdiv m_size 3 ∧ biome.getType ≠ BiomeType.Desert then 3
  else 0

/-- The biome that `generateTerrain` looks up for column `(x, z)` of a chunk. -/
def columnBiome (bm : BiomeManager) (c : VoxelChunk) (x z : Nat) : Option Biome :=
  bm.getBiomeAt
    (VoxelChunk.truncToInt (((c.m_worldPosition.1 * (c.m_size : Int) : Int) : ℚ) + (x : ℚ)))
    (VoxelChunk.truncToInt (((c.m_worldPosition.2 * (c.m_size : Int) : Int) : ℚ) + (z : ℚ)))

/-- The normalised noise that `generateTerrain` uses for column `(x, z)` of a chunk. -/
def columnNoise (N : TerrainNoise) (c : VoxelChunk) (x z : Nat) : ℚ :=
  normalizedNoise N (((c.m_worldPosition.1 * (c.m_size : Int) : Int) : ℚ) + (x : ℚ))
    (((c.m_worldPosition.2 * (c.m_size : Int) : Int) : ℚ) + (z : ℚ))

/-- The stratification stated for a column of height `h`: bedrock below `h - 3`, subsurface
for `h - 3 ≤ y < h - 1`, surface at `y = h - 1`. -/
def specStratum (biome : Biome) (h : Int) (y : Int) : Int :=
  if y < h - 3 then biome.m_bedrockBlock
  else if y < h - 1 then biome.m_subsurfaceBlock
  else biome.m_surfaceBlock

/-- The column height as the specification states it: `baseHeight + n * heightVariation` with
the biome's own parameters, truncated and clamped to `[1, chunkSize - 1]`. -/
def specHeight (biome : Biome) (chunkSize : Nat) (n : ℚ) : Int :=
  min (max (VoxelChunk.truncToInt (biome.getBaseHeight + n * biome.getHeightVariation)) 1)
    ((chunkSize : Int) - 1)

/-- A chunk of size 16 at world position `(0, 0)` with a biome manager whose noise is
constantly zero, so that every column is Plains. -/
def plainsChunk : VoxelChunk :=
  (VoxelChunk.new 16).setBiomeManager (some (BiomeManager.new fun _ _ => 0))

/-! ## Texture atlas registration -/

/-- The constructor `TextureAtlas::TextureAtlas`: tile size and dimensions `0`, no block
registered. -/
def TextureAtlas.new : TextureAtlas := ⟨0, 0, 0, fun _ => none⟩

/-- The atlas fields after a successful `TextureAtlas::initialize(path, tileSize)` that loaded
an image of `width × height` pixels. -/
def TextureAtlas.initializeLoaded (a : TextureAtlas) (tileSize width height : Int) :
    TextureAtlas :=
  { a with m_tileSize := tileSize, m_atlasWidth := width, m_atlasHeight := height }

/-- The method `TextureAtlas::registerBlock`: an empty list is refused, otherwise the list is
stored under the block type. -/
def TextureAtlas.registerBlock (a : TextureAtlas) (blockType : Int) (tileIndices : List Int) :
    TextureAtlas :=
  if tileIndices.isEmpty then a
  else { a with m_blockTiles := fun b => if b = blockType then some tileIndices
                                         else a.m_blockTiles b }

/-- The texture coordinates of the four corners of a quad, in buffer order. -/
def Quad.uvs (q : Quad) : List (ℚ × ℚ) :=
  [(q.v1.u, q.v1.v), (q.v2.u, q.v2.v), (q.v3.u, q.v3.v), (q.v4.u, q.v4.v)]

/-- An atlas of `32 × 16` pixels with tile size 16 (two tiles in one row) in which block type 9
is registered with the two tile indices `[0, 1]`. -/
def atlasTwoTiles : TextureAtlas :=
  (TextureAtlas.new.initializeLoaded 16 32 16).registerBlock 9 [0, 1]

/-! ## View frustum -/

/-- A `glm::vec3`. -/
structure Vec3 where
  x : ℚ
  y : ℚ
  z : ℚ
  deriving DecidableEq

/-- A `glm::vec4`; for a frustum plane, `(x, y, z)` is the normal and `w` the offset. -/
structure Vec4 where
  x : ℚ
  y : ℚ
  z : ℚ
  w : ℚ
  deriving DecidableEq

/-- The enum value `Frustum::Planes::Left`. -/
def Planes.Left : Nat := 0

/-- The enum value `Frustum::Planes::Right`. -/
def Planes.Right : Nat := 1

/-- The enum value `Frustum::Planes::Bottom`. -/
def Planes.Bottom : Nat := 2

/-- The enum value `Frustum::Planes::Top`. -/
def Planes.Top : Nat := 3

/-- The enum value `Frustum::Planes::Near`. -/
def Planes.Near : Nat := 4

/-- The enum value `Frustum::Planes::Count`. -/
def Planes.Count : Nat := 6

/-- The class `Frustum`: the array `m_planes[Planes::Count]`, read at the indices `0 .. 5`. -/
structure Frustum where
  m_planes : Nat → Vec4

/-- The expression `plane.x * v.x + plane.y * v.y + plane.z * v.z + plane.w`: the signed
distance of `v` to the plane (the planes are normalised). -/
def planeDistance (plane : Vec4) (v : Vec3) : ℚ :=
  plane.x * v.x + plane.y * v.y + plane.z * v.z + plane.w

/-- The positive vertex `pVertex` that the loop body of `isAABBVisible` selects: it starts as
`min` and takes the `max` coordinate on every axis where the plane normal is `>= 0`. -/
def pVertex (plane : Vec4) (min max : Vec3) : Vec3 :=
  ⟨if plane.x ≥ 0 then max.x else min.x, if plane.y ≥ 0 then max.y else min.y,
    if plane.z ≥ 0 then max.z else min.z⟩

/-- The method `Frustum::isAABBVisible`: the loop returns `false` at the first plane with
`dp < 0` and `true` when no plane rejects. -/
def Frustum.isAABBVisible (f : Frustum) (min max : Vec3) : Bool :=
  (List.range Planes.Count).all fun i =>
    !decide (planeDistance (f.m_planes i) (pVertex (f.m_planes i) min max) < 0)

/-- A frustum whose six planes bound the cube `[-1, 1]³`. -/
def cubeFrustum : Frustum :=
  ⟨fun i =>
    if i = 0 then ⟨1, 0, 0, 1⟩
    else if i = 1 then ⟨-1, 0, 0, 1⟩
    else if i = 2 then ⟨0, 1, 0, 1⟩
    else if i = 3 then ⟨0, -1, 0, 1⟩
    else if i = 4 then ⟨0, 0, 1, 1⟩
    else ⟨0, 0, -1, 1⟩⟩

/-! ## Single-precision arithmetic -/

/-- Rounding of a rational to the nearest integer, ties to the even one. -/
def roundHalfEven (y : ℚ) : Int :=
  if y - (⌊y⌋ : ℚ) < 1 / 2 then ⌊y⌋
  else if y - (⌊y⌋ : ℚ) > 1 / 2 then ⌊y⌋ + 1
  else if ⌊y⌋ % 2 = 0 then ⌊y⌋ else ⌊y⌋ + 1

/-- The spacing of the `float` values (IEEE 754 binary32) around `x`: `2^(e-23)` for
`2^e ≤ |x| < 2^(e+1)`, and `2^(-149)` in the subnormal range. -/
def floatUlp (x : ℚ) : ℚ := (2 : ℚ) ^ max (Int.log 2 |x| - 23) (-149)

/-- The `float` nearest to `x`, ties to the even significand: the rounding that every `float`
operation applies to its exact result.  Overflow to infinity is not modelled. -/
def roundFloat (x : ℚ) : ℚ := (roundHalfEven (x / floatUlp x) : ℚ) * floatUlp x

/-- The `float` sum `a + b`. -/
def fadd (a b : ℚ) : ℚ := roundFloat (a + b)

/-- The `float` difference `a - b`. -/
def fsub (a b : ℚ) : ℚ := roundFloat (a - b)

/-- The `float` product `a * b`. -/
def fmul (a b : ℚ) : ℚ := roundFloat (a * b)

/-! ## Voxel raycast and edit -/

/-- The struct `Application::RaycastResult`. -/
structure RaycastResult where
  voxelPos : Int × Int × Int
  faceNormal : Int × Int × Int
  deriving DecidableEq

/-- The local `stepSize = 0.1f` of `raycastVoxel`: the `float` nearest to one tenth. -/
def stepSize : ℚ := 13421773 / 134217728

/-- The expression `start + rayDir * dist` on `glm::vec3`: on each component a `float`
product and a `float` sum. -/
def rayPoint (start rayDir : Vec3) (dist : ℚ) : Vec3 :=
  ⟨fadd start.x (fmul rayDir.x dist), fadd start.y (fmul rayDir.y dist),
    fadd start.z (fmul rayDir.z dist)⟩

/-- The conversion of a sample to voxel coordinates: `static_cast<int>(std::floor(..))` on each
component. -/
def voxelOf (rayPos : Vec3) : Int × Int × Int := (⌊rayPos.x⌋, ⌊rayPos.y⌋, ⌊rayPos.z⌋)

/-- The difference `a - b` of two `glm::vec3`: a `float` difference on each component. -/
def Vec3.sub (a b : Vec3) : Vec3 := ⟨fsub a.x b.x, fsub a.y b.y, fsub a.z b.z⟩

/-- The face normal that `raycastVoxel` computes from `delta = rayPos - prevPos`: the
`if / else if / else` over the axes, each with `(delta > 0) ? -1 : 1`. -/
def hitFaceNormal (delta : Vec3) : Int × Int × Int :=
  if |delta.x| ≥ |delta.y| ∧ |delta.x| ≥ |delta.z| then (if delta.x > 0 then -1 else 1, 0, 0)
  else if |delta.y| ≥ |delta.x| ∧ |delta.y| ≥ |delta.z| then
    (0, if delta.y > 0 then -1 else 1, 0)
  else (0, 0, if delta.z > 0 then -1 else 1)

/-- The test of the loop body of `raycastVoxel` at voxel `voxelPos`: `getChunkFromWorldPos`
returns a chunk and `getVoxel` at the local position is not `0`. -/
def Application.hitsVoxel (app : Application) (voxelPos : Int × Int × Int) : Bool :=
  match (app.getChunkFromWorldPos voxelPos).chunk with
  | some chunk =>
    chunk.getVoxel (app.getChunkFromWorldPos voxelPos).localPos.1
      (app.getChunkFromWorldPos voxelPos).localPos.2.1
      (app.getChunkFromWorldPos voxelPos).localPos.2.2 != 0
  | none => false

/-- The loop `for (float dist = 0.0f; dist < maxDist; dist += stepSize)` of `raycastVoxel`,
entered with the current `dist` and `prevPos`; `dist += stepSize` is a `float` sum.  `fuel`
bounds the number of evaluations of the loop condition; the outer `none` means that the bound
was reached with the loop still running, `some none` is the `return std::nullopt` after the
loop. -/
def Application.raycastLoop (app : Application) (start rayDir : Vec3) (maxDist : ℚ) :
    Nat → ℚ → Vec3 → Option (Option RaycastResult)
  | 0, _, _ => none
  | fuel + 1, dist, prevPos =>
    if dist < maxDist then
      let rayPos := rayPoint start rayDir dist
      let voxelPos := voxelOf rayPos
      if app.hitsVoxel voxelPos then
        some (some ⟨voxelPos, hitFaceNormal (rayPos.sub prevPos)⟩)
      else Application.raycastLoop app start rayDir maxDist fuel (fadd dist stepSize) rayPos
    else some none

/-- A number of condition tests within which the loop of `raycastVoxel` finishes when
`maxDist ≤ 2^20 - 1`: below `2^20` every `dist += stepSize` adds at least `1/16`. -/
def raycastFuel (maxDist : ℚ) : Nat := ⌈maxDist * 16⌉.toNat + 1

/-- The method `Application::raycastVoxel`.  `normalize` is `glm::normalize`.  The loop is run
with the bound `raycastFuel maxDist`, which lets it finish when `maxDist ≤ 2^20 - 1` (the edit
code calls it with `maxDist = 10`); for a larger `maxDist` the `float` counter can stop growing
and the loop of the program need not end, and this function then has the value `none`. -/
def Application.raycastVoxel (normalize : Vec3 → Vec3) (app : Application)
    (start direction : Vec3) (maxDist : ℚ) : Option RaycastResult :=
  (app.raycastLoop start (normalize direction) maxDist (raycastFuel maxDist) 0 start).join

/-- The world voxel `p` is solid, in the words of the specification: its chunk
`(floor(x / 16), floor(z / 16))` is loaded, `0 ≤ y < 16`, and the cell
`(x mod 16, y, z mod 16)` of that chunk is not `0`. -/
def specSolidVoxel (app : Application) (p : Int × Int × Int) : Prop :=
  match app.m_loadedChunks (p.1 / 16, p.2.2 / 16) with
  | some chunk => 0 ≤ p.2.1 ∧ p.2.1 < 16 ∧ chunk.getVoxel (p.1 % 16) p.2.1 (p.2.2 % 16) ≠ 0
  | none => False

instance (app : Application) (p : Int × Int × Int) : Decidable (specSolidVoxel app p) := by
  unfold specSolidVoxel
  split <;> infer_instance

/-- The value of the loop counter `dist` at the `k`-th test of the loop condition, counted
from `0`: it starts at `0.0f` and grows by the `float` sum `dist += stepSize`. -/
def distAt : Nat → ℚ
  | 0 => 0
  | k + 1 => fadd (distAt k) stepSize

/-- The `k`-th sample `rayPos` of the loop, at the counter value `distAt k`. -/
def raySample (start rayDir : Vec3) (k : Nat) : Vec3 := rayPoint start rayDir (distAt k)

/-- The value of `prevPos` when the loop body runs for sample `k`: the start position at the
first sample, the previous sample afterwards. -/
def prevSample (start rayDir : Vec3) : Nat → Vec3
  | 0 => start
  | k + 1 => raySample start rayDir k

/-- The step vector `delta = rayPos - prevPos` when the loop body runs for sample `k`. -/
def stepVector (start rayDir : Vec3) (k : Nat) : Vec3 :=
  (raySample start rayDir k).sub (prevSample start rayDir k)

/-- The sample point `start + dir * d` at `d = k / 10`, in the words of the specification
(exact arithmetic). -/
def specSample (start dir : Vec3) (k : Nat) : Vec3 :=
  ⟨start.x + dir.x * ((k : ℚ) / 10), start.y + dir.y * ((k : ℚ) / 10),
    start.z + dir.z * ((k : ℚ) / 10)⟩

/-- A world with one loaded chunk, at `(0, 0)`, of side 16, holding block type 1 at `(1,1,0)`
and block type 2 at `(0,1,0)`; the camera is at `(1.5f, 0.95f, 0.5f)`. -/
def twoBlockApp : Application :=
  { m_cameraPosition := (3 / 2, 15938355 / 16777216, 1 / 2)
    m_loadedChunks := fun k =>
      if k = (0, 0) then some (((VoxelChunk.new 16).setVoxel 1 1 0 1).setVoxel 0 1 0 2) else none
    m_biomeManager := none
    m_textureAtlas := none }

/-- A world with one loaded chunk, at `(0, 0)`, of side 16, holding block type 1 at `(3,0,0)`
and air elsewhere. -/
def farBlockApp : Application :=
  { m_cameraPosition := (13421773 / 268435456, 1 / 2, 1 / 2)
    m_loadedChunks := fun k =>
      if k = (0, 0) then some ((VoxelChunk.new 16).setVoxel 3 0 0 1) else none
    m_biomeManager := none
    m_textureAtlas := none }

/-- The sum `a + b` of two `glm::ivec3`. -/
def addIVec3 (a b : Int × Int × Int) : Int × Int × Int :=
  (a.1 + b.1, a.2.1 + b.2.1, a.2.2 + b.2.2)

/-- The members `m_leftMouseDown` and `m_rightMouseDown` of `Application`. -/
structure MouseState where
  m_leftMouseDown : Bool
  m_rightMouseDown : Bool
  deriving DecidableEq

/-- What one call of `handleVoxelManipulation` reads from outside the modelled state: whether
`m_Window` is set, the two `glfwGetMouseButton` results, the look vector
`(cos yaw * cos pitch, sin pitch, sin yaw * cos pitch)`, and the value of
`std::stoi(m_inventory->getSelectedItem())` (`none` without inventory or when `stoi` throws). -/
structure EditInput where
  hasWindow : Bool
  leftMousePressed : Bool
  rightMousePressed : Bool
  lookDir : Vec3
  selectedItem : Option Int

/-- The `collides` test of the place branch: the unit cube of `placePos` against the player box
from `m_cameraPosition - (0.3, 1.7, 0.3)` to `m_cameraPosition + (0.3, 0.3, 0.3)`. -/
def playerCollides (cameraPosition : ℚ × ℚ × ℚ) (placePos : Int × Int × Int) : Bool :=
  let playerMin : Vec3 :=
    ⟨cameraPosition.1 - 3 / 10, cameraPosition.2.1 - 17 / 10, cameraPosition.2.2 - 3 / 10⟩
  let playerMax : Vec3 :=
    ⟨cameraPosition.1 + 3 / 10, cameraPosition.2.1 + 3 / 10, cameraPosition.2.2 + 3 / 10⟩
  let blockPos : Vec3 :=
    ⟨(placePos.1 : ℚ) + 1 / 2, (placePos.2.1 : ℚ) + 1 / 2, (placePos.2.2 : ℚ) + 1 / 2⟩
  !(decide (blockPos.x - 1 / 2 > playerMax.x) || decide (blockPos.x + 1 / 2 < playerMin.x) ||
    decide (blockPos.y - 1 / 2 > playerMax.y) || decide (blockPos.y + 1 / 2 < playerMin.y) ||
    decide (blockPos.z - 1 / 2 > playerMax.z) || decide (blockPos.z + 1 / 2 < playerMin.z))

/-- The block type of a placement: `1`, or the selected item when it parses to a positive
number. -/
def placedVoxelType (selectedItem : Option Int) : Int :=
  match selectedItem with
  | some n => if n > 0 then n else 1
  | none => 1

/-- The effect on the store of a mutation through the chunk pointer that
`getChunkFromWorldPos` returned for chunk coordinate `chunkPos`. -/
def Application.writeChunk (app : Application) (chunkPos : Int × Int) (chunk : VoxelChunk) :
    Application :=
  { app with m_loadedChunks := fun k => if k = chunkPos then some chunk else app.m_loadedChunks k }

/-- The place branch of `handleVoxelManipulation` for a hit `raycastResult`. -/
def Application.placeVoxel (app : Application) (raycastResult : RaycastResult)
    (selectedItem : Option Int) : Application :=
  let placePos := addIVec3 raycastResult.voxelPos raycastResult.faceNormal
  let lookup := app.getChunkFromWorldPos placePos
  match lookup.chunk with
  | some chunk =>
    if !playerCollides app.m_cameraPosition placePos then
      app.writeChunk lookup.chunkPos
        (chunk.setVoxel lookup.localPos.1 lookup.localPos.2.1 lookup.localPos.2.2
          (placedVoxelType selectedItem))
    else app
  | none => app

/-- The break branch of `handleVoxelManipulation` for a hit `raycastResult`. -/
def Application.breakVoxel (app : Application) (raycastResult : RaycastResult) : Application :=
  let lookup := app.getChunkFromWorldPos raycastResult.voxelPos
  match lookup.chunk with
  | some chunk =>
    app.writeChunk lookup.chunkPos
      (chunk.setVoxel lookup.localPos.1 lookup.localPos.2.1 lookup.localPos.2.2 0)
  | none => app

/-- The method `Application::handleVoxelManipulation`. -/
def Application.handleVoxelManipulation (normalize : Vec3 → Vec3) (app : Application)
    (mouse : MouseState) (inp : EditInput) : Application × MouseState :=
  if !inp.hasWindow then (app, mouse)
  else
    let leftMouseClick := inp.leftMousePressed && !mouse.m_leftMouseDown
    let rightMouseClick := inp.rightMousePressed && !mouse.m_rightMouseDown
    let mouse1 : MouseState := ⟨inp.leftMousePressed, inp.rightMousePressed⟩
    if !leftMouseClick && !rightMouseClick then (app, mouse1)
    else
      let rayDir := normalize inp.lookDir
      let maxDist : ℚ := 10
      match app.raycastVoxel normalize
        ⟨app.m_cameraPosition.1, app.m_cameraPosition.2.1, app.m_cameraPosition.2.2⟩
        rayDir maxDist with
      | some raycastResult =>
        if leftMouseClick then (app.breakVoxel raycastResult, mouse1)
        else if rightMouseClick then (app.placeVoxel raycastResult inp.selectedItem, mouse1)
        else (app, mouse1)
      | none => (app, mouse1)

/-- The voxel at a world position as the edit code reads it: `getChunkFromWorldPos`, then
`getVoxel` at the local position; `none` when no chunk is returned. -/
def Application.readVoxel (app : Application) (worldPos : Int × Int × Int) : Option Int :=
  (app.getChunkFromWorldPos worldPos).chunk.map fun chunk =>
    chunk.getVoxel (app.getChunkFromWorldPos worldPos).localPos.1
      (app.getChunkFromWorldPos worldPos).localPos.2.1
      (app.getChunkFromWorldPos worldPos).localPos.2.2

/-- The method `Application::isChunkInView`.  A chunk pointer is identified with the key under
which the store holds it (the store owns its chunks through `unique_ptr`, one key each): the
search loop sets `chunkPos` to that key when the store has an entry there and leaves the
default `(-1, -1)` otherwise. -/
def Application.isChunkInView (app : Application) (m_viewFrustum : Frustum)
    (chunk : Int × Int) : Bool :=
  let chunkPos : Int × Int := if (app.m_loadedChunks chunk).isSome then chunk else (-1, -1)
  if chunkPos.1 = -1 ∧ chunkPos.2 = -1 then false
  else
    let chunkWorldX : ℚ := ((chunkPos.1 * (CHUNK_SIZE : Int) : Int) : ℚ)
    let chunkWorldZ : ℚ := ((chunkPos.2 * (CHUNK_SIZE : Int) : Int) : ℚ)
    m_viewFrustum.isAABBVisible ⟨chunkWorldX, 0, chunkWorldZ⟩
      ⟨chunkWorldX + (CHUNK_SIZE : ℚ), (CHUNK_SIZE : ℚ), chunkWorldZ + (CHUNK_SIZE : ℚ)⟩

/-- The box of the chunk at coordinate `(cx, cz)`: from `(cx*16, 0, cz*16)` to
`(cx*16 + 16, 16, cz*16 + 16)`. -/
def specChunkBox (c : Int × Int) : Vec3 × Vec3 :=
  (⟨(c.1 : ℚ) * 16, 0, (c.2 : ℚ) * 16⟩, ⟨(c.1 : ℚ) * 16 + 16, 16, (c.2 : ℚ) * 16 + 16⟩)

namespace VoxelChunk

/-- The merges of one plane of one pass of `generateOptimizedMesh`: plane `p` along the normal
axis of the face direction, with the cell type and the exposure test of that pass. -/
def planeRects (size : Nat) (d : Int → Int → Int → Int) : Face → Nat → List Rect
  | .Top, y => mergePlane size (fun x z => d x y z)
      (fun x z => is_air_or_outside size d x ((y : Int) + 1) z)
  | .Bottom, y => mergePlane size (fun x z => d x y z)
      (fun x z => is_air_or_outside size d x ((y : Int) - 1) z)
  | .Front, z => mergePlane size (fun x y => d x y z)
      (fun x y => is_air_or_outside size d x y ((z : Int) - 1))
  | .Back, z => mergePlane size (fun x y => d x y z)
      (fun x y => is_air_or_outside size d x y ((z : Int) + 1))
  | .Right, x => mergePlane size (fun y z => d x y z)
      (fun y z => is_air_or_outside size d ((x : Int) + 1) y z)
  | .Left, x => mergePlane size (fun y z => d x y z)
      (fun y z => is_air_or_outside size d ((x : Int) - 1) y z)

/-- The cell at in-plane position `(a, b)` of plane `p` of a pass (`a` is the outer loop
variable of the pass, `b` the inner one). -/
def planeCell : Face → Nat → Nat → Nat → Int × Int × Int
  | .Top, y, x, z => (x, y, z)
  | .Bottom, y, x, z => (x, y, z)
  | .Front, z, x, y => (x, y, z)
  | .Back, z, x, y => (x, y, z)
  | .Right, x, y, z => (x, y, z)
  | .Left, x, y, z => (x, y, z)

/-- The call `addOptimizedFace(x, y, z, face, width, height, blockType)` that a pass makes for
a merged rectangle of plane `p`. -/
def rectCall (face : Face) (p : Nat) (r : Rect) : FaceCall :=
  ⟨(planeCell face p r.a r.b).1, (planeCell face p r.a r.b).2.1, (planeCell face p r.a r.b).2.2,
    face, r.width, r.height, r.blockType⟩

/-- The planes of a pass in the order the pass visits them: descending for Top, Back and
Right, ascending for Bottom, Front and Left. -/
def passPlanes (size : Nat) : Face → List Nat
  | .Top => (List.range size).reverse
  | .Back => (List.range size).reverse
  | .Right => (List.range size).reverse
  | .Bottom => List.range size
  | .Front => List.range size
  | .Left => List.range size

/-- The pass of `generateOptimizedMesh` for one face direction. -/
def facePass (size : Nat) (d : Int → Int → Int → Int) : Face → List FaceCall
  | .Top => topPass size d
  | .Bottom => bottomPass size d
  | .Front => frontPass size d
  | .Back => backPass size d
  | .Right => rightPass size d
  | .Left => leftPass size d

/-- The cells that the marking loops of a merge set to processed, as a set of plane cells, given
the cells processed before. -/
def processedBy (rects : List Rect) (i j : Nat) : Bool := rects.any fun r => r.contains i j

end VoxelChunk

/-- An application whose store holds one empty chunk, at coordinate `(-1, -1)`. -/
def minusOneApp : Application :=
  { m_cameraPosition := (0, 0, 0)
    m_loadedChunks := fun k => if k = (-1, -1) then some (VoxelChunk.new 16) else none
    m_biomeManager := none
    m_textureAtlas := none }

namespace VoxelChunk

/-- The block type `m_voxelData[x][y][z]` that a pass reads at in-plane position `(a, b)` of
plane `p`. -/
def planeType (d : Int → Int → Int → Int) (face : Face) (p a b : Nat) : Int :=
  d (planeCell face p a b).1 (planeCell face p a b).2.1 (planeCell face p a b).2.2

/-- The exposure test `is_air_or_outside` that a pass applies at in-plane position `(a, b)` of
plane `p`: on the neighbour of the cell in the face direction. -/
def planeExposed (size : Nat) (d : Int → Int → Int → Int) (face : Face) (p a b : Nat) : Bool :=
  is_air_or_outside size d
    (face.neighbour (planeCell face p a b).1 (planeCell face p a b).2.1
      (planeCell face p a b).2.2).1
    (face.neighbour (planeCell face p a b).1 (planeCell face p a b).2.1
      (planeCell face p a b).2.2).2.1
    (face.neighbour (planeCell face p a b).1 (planeCell face p a b).2.1
      (planeCell face p a b).2.2).2.2

/-- The test that the width and height loops of a pass apply to a cell before they take it
into a rectangle of block type `blockType`: not processed, of that block type, and with the
neighbour in the face direction air or outside the grid. -/
def cellMatches (size : Nat) (d : Int → Int → Int → Int) (face : Face) (p : Nat)
    (processed : Nat → Nat → Bool) (blockType : Int) (a b : Nat) : Bool :=
  !processed a b && planeType d face p a b == blockType && planeExposed size d face p a b

end VoxelChunk

end TerraVecta

/-! # Theorems -/

namespace TerraVecta

open VoxelChunk

/-! ## Voxel access -/

theorem inRange_iff_not_outside (c : VoxelChunk) (x y z : Int) :
    c.inRange x y z ↔
      ¬ (x < 0 ∨ x ≥ c.m_size ∨ y < 0 ∨ y ≥ c.m_size ∨ z < 0 ∨ z ≥ c.m_size) := by
  unfold VoxelChunk.inRange
  omega

theorem getVoxel_of_inRange (c : VoxelChunk) (x y z : Int) (h : c.inRange x y z) :
    c.getVoxel x y z = c.m_voxelData x y z := by
  have h1 := (inRange_iff_not_outside c x y z).1 h
  simp only [VoxelChunk.getVoxel, if_neg h1]

theorem setVoxel_size (c : VoxelChunk) (x y z t : Int) : (c.setVoxel x y z t).m_size = c.m_size := by
  unfold VoxelChunk.setVoxel VoxelChunk.markForMeshUpdate
  split_ifs <;> rfl

theorem setVoxel_data_at (c : VoxelChunk) (x y z t : Int) (h : c.inRange x y z) :
    (c.setVoxel x y z t).m_voxelData x y z = t := by
  unfold VoxelChunk.setVoxel VoxelChunk.markForMeshUpdate
  rw [if_pos h]
  by_cases hv : c.m_voxelData x y z = t
  · simp [hv]
  · simp [hv, VoxelChunk.writeCell]

/-- C4: in range, `getVoxel` after `setVoxel(x,y,z,T)` with `T ≠ 0` returns `T`, and after a
further `setVoxel(x,y,z,0)` it returns `0`. -/
theorem setVoxel_getVoxel_roundtrip (c : VoxelChunk) (x y z T : Int)
    (h : c.inRange x y z) (hT : T ≠ 0) :
    (c.setVoxel x y z T).getVoxel x y z = T ∧
      ((c.setVoxel x y z T).setVoxel x y z 0).getVoxel x y z = 0 := by
  have _ := hT
  have h1 : (c.setVoxel x y z T).inRange x y z := by
    unfold VoxelChunk.inRange at h ⊢
    rw [setVoxel_size]
    exact h
  have h2 : ((c.setVoxel x y z T).setVoxel x y z 0).inRange x y z := by
    unfold VoxelChunk.inRange at h1 ⊢
    rw [setVoxel_size]
    exact h1
  constructor
  · rw [getVoxel_of_inRange _ _ _ _ h1, setVoxel_data_at c x y z T h]
  · rw [getVoxel_of_inRange _ _ _ _ h2, setVoxel_data_at _ x y z 0 h1]

theorem setVoxel_getVoxel_roundtrip_witness :
    (VoxelChunk.new 16).inRange 3 4 5 ∧ (7 : Int) ≠ 0 ∧
      ((VoxelChunk.new 16).setVoxel 3 4 5 7).getVoxel 3 4 5 = 7 ∧
      (((VoxelChunk.new 16).setVoxel 3 4 5 7).setVoxel 3 4 5 0).getVoxel 3 4 5 = 0 :=
  ⟨by decide, by decide,
    setVoxel_getVoxel_roundtrip (VoxelChunk.new 16) 3 4 5 7 (by decide) (by decide)⟩

/-- C5: in range, `setVoxel` with the value already stored returns the chunk unchanged (grid,
dirty flag and everything else); a chunk that is not dirty stays not dirty. -/
theorem setVoxel_same_value_unchanged (c : VoxelChunk) (x y z type : Int)
    (h : c.inRange x y z) (hsame : c.getVoxel x y z = type) :
    c.setVoxel x y z type = c ∧
      (c.setVoxel x y z type).m_voxelData = c.m_voxelData ∧
      (c.setVoxel x y z type).needsMeshUpdate = c.needsMeshUpdate ∧
      (c.needsMeshUpdate = false → (c.setVoxel x y z type).needsMeshUpdate = false) := by
  rw [getVoxel_of_inRange c x y z h] at hsame
  have e : c.setVoxel x y z type = c := by
    unfold VoxelChunk.setVoxel
    rw [if_pos h, if_neg (not_not.mpr hsame)]
  rw [e]
  exact ⟨rfl, rfl, rfl, id⟩

theorem setVoxel_same_value_unchanged_witness :
    ((VoxelChunk.new 16).setVoxel 1 2 3 9).inRange 1 2 3 ∧
      ((VoxelChunk.new 16).setVoxel 1 2 3 9).getVoxel 1 2 3 = 9 ∧
      ((VoxelChunk.new 16).setVoxel 1 2 3 9).setVoxel 1 2 3 9 = (VoxelChunk.new 16).setVoxel 1 2 3 9 :=
  ⟨by decide, by decide,
    (setVoxel_same_value_unchanged ((VoxelChunk.new 16).setVoxel 1 2 3 9) 1 2 3 9
      (by decide) (by decide)).1⟩

/-- C6: for a coordinate with a component outside `[0, size)`, `getVoxel` returns `0` and
`setVoxel` with any type returns the chunk unchanged (grid and dirty flag included). -/
theorem out_of_range_access_inert (c : VoxelChunk) (x y z : Int)
    (h : x < 0 ∨ x ≥ c.m_size ∨ y < 0 ∨ y ≥ c.m_size ∨ z < 0 ∨ z ≥ c.m_size) :
    c.getVoxel x y z = 0 ∧
      ∀ type : Int, c.setVoxel x y z type = c ∧
        (c.setVoxel x y z type).m_voxelData = c.m_voxelData ∧
        (c.setVoxel x y z type).needsMeshUpdate = c.needsMeshUpdate := by
  constructor
  · simp only [VoxelChunk.getVoxel, if_pos h]
  · intro type
    have hn : ¬ c.inRange x y z := fun hr => (inRange_iff_not_outside c x y z).1 hr h
    have e : c.setVoxel x y z type = c := by
      unfold VoxelChunk.setVoxel
      rw [if_neg hn]
    rw [e]
    exact ⟨rfl, rfl, rfl⟩

theorem out_of_range_access_inert_witness :
    ((-1 : Int) < 0 ∨ (-1 : Int) ≥ (VoxelChunk.new 16).m_size ∨ (0 : Int) < 0 ∨
        (0 : Int) ≥ (VoxelChunk.new 16).m_size ∨ (16 : Int) < 0 ∨
        (16 : Int) ≥ (VoxelChunk.new 16).m_size) ∧
      (VoxelChunk.new 16).getVoxel (-1) 0 16 = 0 ∧
      (VoxelChunk.new 16).setVoxel (-1) 0 16 5 = VoxelChunk.new 16 :=
  ⟨by decide,
    (out_of_range_access_inert (VoxelChunk.new 16) (-1) 0 16 (by decide)).1,
    ((out_of_range_access_inert (VoxelChunk.new 16) (-1) 0 16 (by decide)).2 5).1⟩

/-! ## World to chunk conversion -/

theorem worldToLocal_eq_emod (w : Int) : worldToLocal w = w % 16 := by
  unfold worldToLocal CHUNK_SIZE
  rcases le_or_lt 0 w with h | h
  · rw [Int.tmod_eq_emod h (by norm_num)]
    rw [Int.tmod_eq_emod (by omega) (by norm_num)]
    omega
  · obtain ⟨n, rfl⟩ := Int.eq_negSucc_of_lt_zero h
    have h1 : Int.tmod (Int.negSucc n) ((16 : Nat) : Int) = -(((n + 1) % 16 : Nat) : Int) := rfl
    have h2 : Int.negSucc n = -((n : Int) + 1) := Int.negSucc_eq n
    rw [h1, Int.tmod_eq_emod (by omega) (by norm_num)]
    omega

theorem floatOfInt_exact (w : Int) (h : |w| < 2 ^ 24) : floatOfInt w = w := by
  have h1 : w.natAbs < 2 ^ 24 := by
    rw [abs_lt] at h
    omega
  unfold floatOfInt
  simp only [if_pos h1]

theorem worldToChunk_eq_ediv (w : Int) (h : |w| < 2 ^ 24) : worldToChunk w = w / 16 := by
  unfold worldToChunk CHUNK_SIZE
  rw [floatOfInt_exact w h, Int.fdiv_eq_ediv _ (by norm_num)]
  rfl

theorem floor_div_sixteen (w : Int) : ⌊(w : ℚ) / 16⌋ = w / 16 := by
  have h := Rat.floor_intCast_div_natCast w 16
  simpa using h

/-- C10: for world coordinates with `|x|, |z| < 2^24`, `getChunkFromWorldPos` computes the chunk
index `floor(w / 16)` on each axis and writes the local index `l` with `0 ≤ l < 16` and
`c * 16 + l = w`, and for `0 ≤ y < 16` it returns the chunk stored at that index; world position
`(-1,-1,-1)` gives chunk index `(-1,-1)` and local `x = z = 15`, not chunk `(0,0)`. -/
theorem getChunkFromWorldPos_floor (app : Application) (x y z : Int)
    (hx : |x| < 2 ^ 24) (hz : |z| < 2 ^ 24) :
    (app.getChunkFromWorldPos (x, y, z)).chunkPos = (⌊(x : ℚ) / 16⌋, ⌊(z : ℚ) / 16⌋) ∧
      (0 ≤ (app.getChunkFromWorldPos (x, y, z)).localPos.1 ∧
        (app.getChunkFromWorldPos (x, y, z)).localPos.1 < 16 ∧
        (app.getChunkFromWorldPos (x, y, z)).chunkPos.1 * 16 +
          (app.getChunkFromWorldPos (x, y, z)).localPos.1 = x) ∧
      (0 ≤ (app.getChunkFromWorldPos (x, y, z)).localPos.2.2 ∧
        (app.getChunkFromWorldPos (x, y, z)).localPos.2.2 < 16 ∧
        (app.getChunkFromWorldPos (x, y, z)).chunkPos.2 * 16 +
          (app.getChunkFromWorldPos (x, y, z)).localPos.2.2 = z) ∧
      ((0 ≤ y ∧ y < 16) → (app.getChunkFromWorldPos (x, y, z)).chunk =
        app.m_loadedChunks (⌊(x : ℚ) / 16⌋, ⌊(z : ℚ) / 16⌋)) ∧
      ((app.getChunkFromWorldPos (-1, -1, -1)).chunkPos = (-1, -1) ∧
        (app.getChunkFromWorldPos (-1, -1, -1)).localPos.1 = 15 ∧
        (app.getChunkFromWorldPos (-1, -1, -1)).localPos.2.2 = 15 ∧
        (app.getChunkFromWorldPos (-1, -1, -1)).chunkPos ≠ (0, 0) ∧
        (app.getChunkFromWorldPos (-1, 0, -1)).chunk = app.m_loadedChunks (-1, -1)) := by
  have hc : ∀ p : Int × Int × Int,
      (app.getChunkFromWorldPos p).chunkPos = (worldToChunk p.1, worldToChunk p.2.2) := by
    intro p
    simp only [Application.getChunkFromWorldPos]
    split_ifs <;> rfl
  have hl : ∀ p : Int × Int × Int,
      (app.getChunkFromWorldPos p).localPos = (worldToLocal p.1, p.2.1, worldToLocal p.2.2) := by
    intro p
    simp only [Application.getChunkFromWorldPos]
    split_ifs <;> rfl
  have hk : ∀ p : Int × Int × Int, 0 ≤ p.2.1 ∧ p.2.1 < 16 →
      (app.getChunkFromWorldPos p).chunk =
        app.m_loadedChunks (worldToChunk p.1, worldToChunk p.2.2) := by
    intro p hp
    simp only [Application.getChunkFromWorldPos, CHUNK_SIZE]
    rw [if_neg]
    simp only [Nat.cast_ofNat]
    omega
  have hm : |(-1 : Int)| < 2 ^ 24 := by norm_num
  rw [hc, hl, hc, hl, hk (-1, 0, -1) (by decide)]
  simp only [worldToChunk_eq_ediv x hx, worldToChunk_eq_ediv z hz, worldToChunk_eq_ediv (-1) hm,
    worldToLocal_eq_emod, floor_div_sixteen]
  refine ⟨trivial, ⟨by omega, by omega, by omega⟩, ⟨by omega, by omega, by omega⟩, ?_, ?_⟩
  · intro hy
    rw [hk (x, y, z) hy]
    simp only [worldToChunk_eq_ediv x hx, worldToChunk_eq_ediv z hz]
  · exact ⟨by decide, by decide, by decide, by decide, rfl⟩

theorem getChunkFromWorldPos_floor_witness :
    |(-17 : Int)| < 2 ^ 24 ∧ |(40 : Int)| < 2 ^ 24 ∧
      ((⟨(0, 0, 0), fun _ => none, none, none⟩ : Application).getChunkFromWorldPos
        (-17, 3, 40)).chunkPos = (⌊((-17 : Int) : ℚ) / 16⌋, ⌊((40 : Int) : ℚ) / 16⌋) :=
  ⟨by norm_num, by norm_num,
    (getChunkFromWorldPos_floor ⟨(0, 0, 0), fun _ => none, none, none⟩ (-17) 3 40
      (by norm_num) (by norm_num)).1⟩

/-! ## Frame of the mesher and the dirty flag -/

/-- The fold of `addOptimizedFace` over a list of calls. -/
theorem foldl_addOptimizedFace_frame (calls : List FaceCall) (c : VoxelChunk) :
    (calls.foldl (fun acc f => addOptimizedFace acc f.x f.y f.z f.face f.width f.height
        f.voxelType) c).m_voxelData = c.m_voxelData ∧
      (calls.foldl (fun acc f => addOptimizedFace acc f.x f.y f.z f.face f.width f.height
        f.voxelType) c).m_needsMeshUpdate = c.m_needsMeshUpdate ∧
      (calls.foldl (fun acc f => addOptimizedFace acc f.x f.y f.z f.face f.width f.height
        f.voxelType) c).m_size = c.m_size ∧
      (calls.foldl (fun acc f => addOptimizedFace acc f.x f.y f.z f.face f.width f.height
        f.voxelType) c).m_textureAtlas = c.m_textureAtlas ∧
      (calls.foldl (fun acc f => addOptimizedFace acc f.x f.y f.z f.face f.width f.height
        f.voxelType) c).m_vertices =
        c.m_vertices ++ calls.flatMap (fun f =>
          (faceQuad c.m_textureAtlas f.x f.y f.z f.face f.width f.height f.voxelType).vertices) := by
  induction calls generalizing c with
  | nil => simp
  | cons f rest ih =>
    obtain ⟨h1, h2, h3, h4, h5⟩ :=
      ih (addOptimizedFace c f.x f.y f.z f.face f.width f.height f.voxelType)
    simp only [List.foldl_cons, List.flatMap_cons]
    refine ⟨h1, h2, h3, h4, ?_⟩
    rw [h5]
    simp [addOptimizedFace]

theorem generateOptimizedMesh_voxelData (c : VoxelChunk) :
    c.generateOptimizedMesh.m_voxelData = c.m_voxelData := by
  simp only [generateOptimizedMesh]
  split_ifs
  · simp only [addOptimizedFace]
    exact (foldl_addOptimizedFace_frame _ _).1
  · exact (foldl_addOptimizedFace_frame _ _).1

theorem generateOptimizedMesh_needsMeshUpdate (c : VoxelChunk) :
    c.generateOptimizedMesh.m_needsMeshUpdate = c.m_needsMeshUpdate := by
  simp only [generateOptimizedMesh]
  split_ifs
  · simp only [addOptimizedFace]
    exact (foldl_addOptimizedFace_frame _ _).2.1
  · exact (foldl_addOptimizedFace_frame _ _).2.1

theorem setVoxel_clean_grid (c : VoxelChunk) (x y z t : Int)
    (h : (c.setVoxel x y z t).m_needsMeshUpdate = false) : c.setVoxel x y z t = c := by
  unfold VoxelChunk.setVoxel at h ⊢
  by_cases hr : c.inRange x y z
  · by_cases hv : c.m_voxelData x y z = t
    · simp [hr, hv]
    · simp [hr, hv, VoxelChunk.markForMeshUpdate] at h
  · simp [hr]

theorem generateTerrain_clean_grid (N : TerrainNoise) (c : VoxelChunk)
    (h : (c.generateTerrain N).m_needsMeshUpdate = false) : c.generateTerrain N = c := by
  unfold VoxelChunk.generateTerrain at h ⊢
  cases hb : c.m_biomeManager with
  | none => rfl
  | some bm =>
    rw [hb] at h
    simp [VoxelChunk.markForMeshUpdate] at h

theorem reachable_clean_grid (N : TerrainNoise) (s : Tracked) (hr : Reachable N s) :
    s.chunk.m_needsMeshUpdate = false → s.chunk.m_voxelData = s.meshGrid := by
  induction hr with
  | construct size => intro _; rfl
  | setVoxel s x y z t _ ih =>
    intro h
    have e := setVoxel_clean_grid s.chunk x y z t h
    simp only at h ⊢
    rw [e] at h ⊢
    exact ih h
  | generateTerrain s _ ih =>
    intro h
    have e := generateTerrain_clean_grid N s.chunk h
    simp only at h ⊢
    rw [e] at h ⊢
    exact ih h
  | setBiomeManager s bm _ ih => exact ih
  | setWorldPosition s p _ ih => exact ih
  | setTextureAtlas s a _ ih => exact ih
  | buildMesh s _ _ => intro _; exact generateOptimizedMesh_voxelData s.chunk
  | rebuild s _ _ => intro _; exact generateOptimizedMesh_voxelData s.chunk

/-- C7: in every chunk state reachable from a newly constructed chunk through `setVoxel`,
`generateTerrain`, the configuration setters and mesh builds (with or without the following
`clearMeshUpdateFlag`), the dirty flag is true whenever the voxel grid differs from the grid the
current mesh was built from. -/
theorem dirty_when_grid_differs (N : TerrainNoise) (s : Tracked) (hr : Reachable N s)
    (hd : s.chunk.m_voxelData ≠ s.meshGrid) : s.chunk.needsMeshUpdate = true := by
  unfold VoxelChunk.needsMeshUpdate
  cases hf : s.chunk.m_needsMeshUpdate with
  | true => rfl
  | false => exact absurd (reachable_clean_grid N s hr hf) hd

theorem dirty_when_grid_differs_witness :
    Reachable ⟨fun _ _ => 0, fun _ _ => 0⟩
        ⟨((VoxelChunk.new 2).generateOptimizedMesh.clearMeshUpdateFlag).setVoxel 0 0 0 1,
          (VoxelChunk.new 2).m_voxelData⟩ ∧
      (((VoxelChunk.new 2).generateOptimizedMesh.clearMeshUpdateFlag).setVoxel 0 0 0 1).m_voxelData
        ≠ (VoxelChunk.new 2).m_voxelData ∧
      (((VoxelChunk.new 2).generateOptimizedMesh.clearMeshUpdateFlag).setVoxel 0 0 0
        1).needsMeshUpdate = true :=
  have hr : Reachable ⟨fun _ _ => 0, fun _ _ => 0⟩
      ⟨((VoxelChunk.new 2).generateOptimizedMesh.clearMeshUpdateFlag).setVoxel 0 0 0 1,
        (VoxelChunk.new 2).m_voxelData⟩ :=
    Reachable.setVoxel
      ⟨(VoxelChunk.new 2).generateOptimizedMesh.clearMeshUpdateFlag, (VoxelChunk.new 2).m_voxelData⟩
      0 0 0 1 (Reachable.rebuild ⟨VoxelChunk.new 2, fun _ _ _ => 0⟩ (Reachable.construct 2))
  have hd : (((VoxelChunk.new 2).generateOptimizedMesh.clearMeshUpdateFlag).setVoxel 0 0 0
      1).m_voxelData ≠ (VoxelChunk.new 2).m_voxelData := fun h => by
    have h0 := congrFun (congrFun (congrFun h 0) 0) 0
    revert h0
    decide
  ⟨hr, hd, dirty_when_grid_differs _ _ hr hd⟩

/-! ## Chunk streaming -/

theorem mem_intRange (lo x : Int) (n : Nat) : x ∈ intRange lo n ↔ lo ≤ x ∧ x < lo + n := by
  unfold intRange
  rw [List.mem_map]
  constructor
  · rintro ⟨i, hi, rfl⟩
    rw [List.mem_range] at hi
    omega
  · rintro ⟨h1, h2⟩
    refine ⟨(x - lo).toNat, ?_, ?_⟩
    · rw [List.mem_range]
      omega
    · omega

theorem mem_renderSquare (R : Nat) (px pz : Int) (k : Int × Int) :
    k ∈ renderSquare R px pz ↔
      (px - R ≤ k.1 ∧ k.1 ≤ px + R) ∧ (pz - R ≤ k.2 ∧ k.2 ≤ pz + R) := by
  obtain ⟨x, z⟩ := k
  unfold renderSquare
  simp only [List.mem_flatMap, List.mem_map, mem_intRange, Prod.mk.injEq]
  constructor
  · rintro ⟨a, ha, b, hb, rfl, rfl⟩
    constructor <;> constructor <;> omega
  · rintro ⟨h1, h2⟩
    refine ⟨x, ?_, z, ?_, rfl, rfl⟩ <;> constructor <;> omega

theorem nested_foldl_eq_pairs {σ : Type} (f : σ → Int → Int → σ) (xs zs : List Int) (s0 : σ) :
    xs.foldl (fun s x => zs.foldl (fun s z => f s x z) s) s0 =
      (xs.flatMap fun x => zs.map fun z => (x, z)).foldl (fun s p => f s p.1 p.2) s0 := by
  induction xs generalizing s0 with
  | nil => rfl
  | cons x rest ih =>
    simp only [List.foldl_cons, List.flatMap_cons, List.foldl_append, List.foldl_map]
    exact ih _

theorem scanRenderArea_eq (R : Nat) (N : TerrainNoise) (app : Application) :
    app.scanRenderArea R N =
      (renderSquare R app.playerChunk.1 app.playerChunk.2).foldl
        (fun s p => app.keepOrLoad N R app.playerChunk.1 app.playerChunk.2 s p.1 p.2)
        ⟨[], app.m_loadedChunks⟩ := by
  unfold Application.scanRenderArea renderSquare
  exact nested_foldl_eq_pairs _ _ _ _

theorem keepOrLoad_foldl_keep (N : TerrainNoise) (app : Application) (R : Nat) (px pz : Int)
    (ps : List (Int × Int)) (s0 : StreamState) :
    (ps.foldl (fun s p => app.keepOrLoad N R px pz s p.1 p.2) s0).chunksToKeep =
      s0.chunksToKeep ++ ps.filter fun p => withinRenderDistance R (p.1 - px) (p.2 - pz) := by
  induction ps generalizing s0 with
  | nil => simp
  | cons p rest ih =>
    rw [List.foldl_cons, ih]
    by_cases hw : withinRenderDistance R (p.1 - px) (p.2 - pz) = true
    · by_cases hn : (s0.m_loadedChunks (p.1, p.2)).isNone = true <;>
        simp [Application.keepOrLoad, hw, hn, List.filter_cons]
    · simp [Application.keepOrLoad, hw, List.filter_cons]

theorem keepOrLoad_foldl_isSome (N : TerrainNoise) (app : Application) (R : Nat) (px pz : Int)
    (ps : List (Int × Int)) (s0 : StreamState) (k : Int × Int) :
    ((ps.foldl (fun s p => app.keepOrLoad N R px pz s p.1 p.2) s0).m_loadedChunks k).isSome = true ↔
      ((s0.m_loadedChunks k).isSome = true ∨
        (k ∈ ps ∧ withinRenderDistance R (k.1 - px) (k.2 - pz) = true)) := by
  induction ps generalizing s0 with
  | nil => simp
  | cons p rest ih =>
    rw [List.foldl_cons, ih]
    by_cases hw : withinRenderDistance R (p.1 - px) (p.2 - pz) = true
    · by_cases hn : (s0.m_loadedChunks (p.1, p.2)).isNone = true
      · simp only [Application.keepOrLoad, hw, hn, if_true, List.mem_cons]
        by_cases hk : k = p
        · subst hk
          simp [hw]
        · have hk2 : ¬ k = (p.1, p.2) := hk
          simp [hk, hk2]
      · simp only [Application.keepOrLoad, hw, hn, if_true, List.mem_cons]
        by_cases hk : k = p
        · subst hk
          have : (s0.m_loadedChunks k).isSome = true := by
            cases h : s0.m_loadedChunks k with
            | none => exact absurd (by simp [h] : (s0.m_loadedChunks (k.1, k.2)).isNone = true) hn
            | some c => rfl
          simp [this]
        · simp [hk]
    · simp only [Application.keepOrLoad, hw, List.mem_cons]
      by_cases hk : k = p
      · subst hk
        simp [hw]
      · simp [hk]

theorem keepOrLoad_foldl_stable (N : TerrainNoise) (app : Application) (R : Nat) (px pz : Int)
    (ps : List (Int × Int)) (s0 : StreamState)
    (h : ∀ p ∈ ps, withinRenderDistance R (p.1 - px) (p.2 - pz) = true →
      (s0.m_loadedChunks p).isSome = true) :
    (ps.foldl (fun s p => app.keepOrLoad N R px pz s p.1 p.2) s0).m_loadedChunks =
      s0.m_loadedChunks := by
  induction ps generalizing s0 with
  | nil => rfl
  | cons p rest ih =>
    rw [List.foldl_cons]
    have hstep : (app.keepOrLoad N R px pz s0 p.1 p.2).m_loadedChunks = s0.m_loadedChunks := by
      by_cases hw : withinRenderDistance R (p.1 - px) (p.2 - pz) = true
      · have hs := h p (List.mem_cons_self _ _) hw
        have hn : ¬ (s0.m_loadedChunks (p.1, p.2)).isNone = true := by
          show ¬ (s0.m_loadedChunks p).isNone = true
          cases hc : s0.m_loadedChunks p with
          | none => rw [hc] at hs; simp at hs
          | some c => simp
        simp [Application.keepOrLoad, hw, hn]
      · simp [Application.keepOrLoad, hw]
    rw [ih]
    · exact hstep
    · intro q hq hwq
      rw [hstep]
      exact h q (List.mem_cons_of_mem _ hq) hwq

theorem within_imp_square (R : Nat) (px pz : Int) (k : Int × Int)
    (h : withinRenderDistance R (k.1 - px) (k.2 - pz) = true) : k ∈ renderSquare R px pz := by
  rw [mem_renderSquare]
  unfold withinRenderDistance at h
  have h1 := of_decide_eq_true h
  have hx : (k.1 - px) * (k.1 - px) ≤ (R : Int) * R := by nlinarith [mul_self_nonneg (k.2 - pz)]
  have hz : (k.2 - pz) * (k.2 - pz) ≤ (R : Int) * R := by nlinarith [mul_self_nonneg (k.1 - px)]
  have hR : (0 : Int) ≤ R := Int.ofNat_nonneg R
  have ax := abs_le_of_sq_le_sq' (by nlinarith : (k.1 - px) ^ 2 ≤ (R : Int) ^ 2) hR
  have az := abs_le_of_sq_le_sq' (by nlinarith : (k.2 - pz) ^ 2 ≤ (R : Int) ^ 2) hR
  constructor <;> constructor <;> omega

theorem scanRenderArea_mem_keep (R : Nat) (N : TerrainNoise) (app : Application) (k : Int × Int) :
    k ∈ (app.scanRenderArea R N).chunksToKeep ↔
      withinRenderDistance R (k.1 - app.playerChunk.1) (k.2 - app.playerChunk.2) = true := by
  rw [scanRenderArea_eq, keepOrLoad_foldl_keep]
  simp only [List.nil_append, List.mem_filter]
  constructor
  · exact fun h => h.2
  · exact fun h => ⟨within_imp_square R _ _ k h, h⟩

theorem scanRenderArea_isSome (R : Nat) (N : TerrainNoise) (app : Application) (k : Int × Int)
    (h : withinRenderDistance R (k.1 - app.playerChunk.1) (k.2 - app.playerChunk.2) = true) :
    ((app.scanRenderArea R N).m_loadedChunks k).isSome = true := by
  rw [scanRenderArea_eq, keepOrLoad_foldl_isSome]
  exact Or.inr ⟨within_imp_square R _ _ k h, h⟩

theorem updateChunksWith_loaded (R : Nat) (N : TerrainNoise) (app : Application) (k : Int × Int) :
    (app.updateChunksWith R N).m_loadedChunks k =
      (if k ∈ (app.scanRenderArea R N).chunksToKeep then (app.scanRenderArea R N).m_loadedChunks k
        else none).map fun chunk =>
          if chunk.needsMeshUpdate then chunk.generateOptimizedMesh.clearMeshUpdateFlag
          else chunk := rfl

theorem updateChunksWith_isSome (R : Nat) (N : TerrainNoise) (app : Application) (k : Int × Int) :
    ((app.updateChunksWith R N).m_loadedChunks k).isSome = true ↔
      withinRenderDistance R (k.1 - app.playerChunk.1) (k.2 - app.playerChunk.2) = true := by
  rw [updateChunksWith_loaded, Option.isSome_map']
  by_cases hk : k ∈ (app.scanRenderArea R N).chunksToKeep
  · have hw := (scanRenderArea_mem_keep R N app k).1 hk
    simp only [if_pos hk, scanRenderArea_isSome R N app k hw, hw]
  · have hw : ¬ withinRenderDistance R (k.1 - app.playerChunk.1) (k.2 - app.playerChunk.2) = true :=
      fun h => hk ((scanRenderArea_mem_keep R N app k).2 h)
    simp [if_neg hk, hw]

theorem updateChunksWith_clean (R : Nat) (N : TerrainNoise) (app : Application) (k : Int × Int)
    (c : VoxelChunk) (h : (app.updateChunksWith R N).m_loadedChunks k = some c) :
    c.needsMeshUpdate = false := by
  rw [updateChunksWith_loaded, Option.map_eq_some'] at h
  obtain ⟨c0, _, rfl⟩ := h
  by_cases hd : c0.needsMeshUpdate = true
  · rw [if_pos hd]
    rfl
  · rw [if_neg hd]
    exact Bool.eq_false_iff.mpr hd

theorem disc13_iff (x z : Int) : x * x + z * z ≤ 2 * 2 ↔ (x, z) ∈ disc13 := by
  constructor
  · intro h
    have hx : x * x ≤ 4 := by nlinarith [mul_self_nonneg z]
    have hz : z * z ≤ 4 := by nlinarith [mul_self_nonneg x]
    have hx1 : -2 ≤ x := by nlinarith
    have hx2 : x ≤ 2 := by nlinarith
    have hz1 : -2 ≤ z := by nlinarith
    have hz2 : z ≤ 2 := by nlinarith
    interval_cases x <;> interval_cases z <;> first | decide | omega
  · intro h
    simp only [disc13, List.mem_cons, Prod.mk.injEq, List.mem_singleton, List.not_mem_nil,
      or_false] at h
    rcases h with h | h | h | h | h | h | h | h | h | h | h | h | h <;>
      (obtain ⟨rfl, rfl⟩ := h; decide)

/-- C8: after one `updateChunks` tick with render radius `R`, the store holds a chunk at `(x, z)`
exactly when `(x - px)² + (z - pz)² ≤ R²`, where `(px, pz)` is the viewer's chunk coordinate,
whatever the store held before; this holds in particular for the built-in radius, and with the
viewer at chunk `(0, 0)` and `R = 2` the stored coordinates are the 13 coordinates of `disc13`. -/
theorem updateChunks_store_is_disc (R : Nat) (N : TerrainNoise) (app : Application) :
    (∀ x z : Int, ((app.updateChunksWith R N).m_loadedChunks (x, z)).isSome = true ↔
        (x - app.playerChunk.1) ^ 2 + (z - app.playerChunk.2) ^ 2 ≤ (R : Int) ^ 2) ∧
      (∀ x z : Int, ((app.updateChunks N).m_loadedChunks (x, z)).isSome = true ↔
        (x - app.playerChunk.1) ^ 2 + (z - app.playerChunk.2) ^ 2 ≤ (RENDER_DISTANCE : Int) ^ 2) ∧
      (app.playerChunk = (0, 0) →
        ∀ k : Int × Int, ((app.updateChunksWith 2 N).m_loadedChunks k).isSome = true ↔
          k ∈ disc13) ∧
      disc13.length = 13 ∧ disc13.Nodup := by
  have key : ∀ (R : Nat) (x z : Int),
      ((app.updateChunksWith R N).m_loadedChunks (x, z)).isSome = true ↔
        (x - app.playerChunk.1) ^ 2 + (z - app.playerChunk.2) ^ 2 ≤ (R : Int) ^ 2 := by
    intro R x z
    rw [updateChunksWith_isSome]
    unfold withinRenderDistance
    rw [decide_eq_true_iff]
    simp only [sq]
  refine ⟨key R, key RENDER_DISTANCE, ?_, by decide, by decide⟩
  intro hp k
  obtain ⟨x, z⟩ := k
  rw [updateChunksWith_isSome, hp]
  unfold withinRenderDistance
  rw [decide_eq_true_iff]
  simp only [sub_zero, Nat.cast_ofNat]
  exact disc13_iff x z

theorem updateChunks_store_is_disc_witness :
    emptyApp.playerChunk = (0, 0) ∧
      ((emptyApp.updateChunksWith 2 zeroNoise).m_loadedChunks (1, -1)).isSome = true ∧
      ((emptyApp.updateChunksWith 2 zeroNoise).m_loadedChunks (2, 1)).isSome = false :=
  have hp : emptyApp.playerChunk = (0, 0) := by
    simp [Application.playerChunk, emptyApp]
  ⟨hp,
    (((updateChunks_store_is_disc 2 zeroNoise emptyApp).2.2.1 hp) (1, -1)).2 (by decide),
    by
      have h := ((updateChunks_store_is_disc 2 zeroNoise emptyApp).2.2.1 hp) (2, 1)
      cases hs : ((emptyApp.updateChunksWith 2 zeroNoise).m_loadedChunks (2, 1)).isSome with
      | false => rfl
      | true => exact absurd (h.1 hs) (by decide)⟩

theorem updateChunksWith_playerChunk (R : Nat) (N : TerrainNoise) (app : Application) :
    (app.updateChunksWith R N).playerChunk = app.playerChunk := rfl

theorem second_scan_loaded (R : Nat) (N : TerrainNoise) (app : Application) :
    ((app.updateChunksWith R N).scanRenderArea R N).m_loadedChunks =
      (app.updateChunksWith R N).m_loadedChunks := by
  rw [scanRenderArea_eq]
  apply keepOrLoad_foldl_stable
  intro p _ hw
  rw [updateChunksWith_playerChunk] at hw
  exact (updateChunksWith_isSome R N app p).2 hw

/-- C9: with an unchanged viewer position, a second `updateChunks` tick creates no chunk (the
scan leaves the store as it is), removes no chunk (every stored coordinate is in `chunksToKeep`)
and returns the application state of the first tick unchanged, chunks and voxel grids
included. -/
theorem updateChunks_second_tick_stable (R : Nat) (N : TerrainNoise) (app : Application) :
    ((app.updateChunksWith R N).scanRenderArea R N).m_loadedChunks =
        (app.updateChunksWith R N).m_loadedChunks ∧
      (∀ k : Int × Int, (app.updateChunksWith R N).m_loadedChunks k ≠ none →
        k ∈ ((app.updateChunksWith R N).scanRenderArea R N).chunksToKeep) ∧
      (app.updateChunksWith R N).updateChunksWith R N = app.updateChunksWith R N ∧
      (app.updateChunks N).updateChunks N = app.updateChunks N := by
  have hkeep : ∀ (R : Nat) (k : Int × Int), (app.updateChunksWith R N).m_loadedChunks k ≠ none →
      k ∈ ((app.updateChunksWith R N).scanRenderArea R N).chunksToKeep := by
    intro R k hk
    rw [scanRenderArea_mem_keep, updateChunksWith_playerChunk, ← updateChunksWith_isSome R N app k]
    cases hc : (app.updateChunksWith R N).m_loadedChunks k with
    | none => exact absurd hc hk
    | some c => rfl
  have hfix : ∀ R : Nat,
      (app.updateChunksWith R N).updateChunksWith R N = app.updateChunksWith R N := by
    intro R
    have hl : ((app.updateChunksWith R N).updateChunksWith R N).m_loadedChunks =
        (app.updateChunksWith R N).m_loadedChunks := by
      funext k
      rw [updateChunksWith_loaded R N (app.updateChunksWith R N), second_scan_loaded]
      cases hc : (app.updateChunksWith R N).m_loadedChunks k with
      | none => simp
      | some c =>
        have hk := hkeep R k (by rw [hc]; simp)
        have hclean := updateChunksWith_clean R N app k c hc
        simp [hk, hclean]
    show ({ (app.updateChunksWith R N) with
      m_loadedChunks := ((app.updateChunksWith R N).updateChunksWith R N).m_loadedChunks } :
        Application) = _
    rw [hl]
  exact ⟨second_scan_loaded R N app, hkeep R, hfix R, hfix RENDER_DISTANCE⟩

/-! ## Greedy merge of one plane -/

theorem runLength_le (ok : Nat → Bool) (i n : Nat) : runLength ok i n ≤ n := by
  induction n generalizing i with
  | zero => simp [runLength]
  | succ n ih =>
    unfold runLength
    split_ifs
    · exact Nat.succ_le_succ (ih (i + 1))
    · exact Nat.zero_le _

theorem runLength_ok (ok : Nat → Bool) (i n k : Nat) (h : k < runLength ok i n) :
    ok (i + k) = true := by
  induction n generalizing i k with
  | zero => simp [runLength] at h
  | succ n ih =>
    unfold runLength at h
    split_ifs at h with hok
    · cases k with
      | zero => simpa using hok
      | succ k =>
        have := ih (i + 1) k (by omega)
        rw [show i + (k + 1) = i + 1 + k by omega]
        exact this
    · omega

theorem runLength_full (ok : Nat → Bool) (i n : Nat) (h : ∀ k, k < n → ok (i + k) = true) :
    runLength ok i n = n := by
  induction n generalizing i with
  | zero => simp [runLength]
  | succ n ih =>
    unfold runLength
    have h0 : ok i = true := by simpa using h 0 (Nat.succ_pos n)
    rw [if_pos h0, ih (i + 1)]
    intro k hk
    rw [show i + 1 + k = i + (k + 1) by omega]
    exact h (k + 1) (by omega)

theorem nested_foldl_pairs {α β σ : Type} (f : σ → α → β → σ) (xs : List α) (zs : List β)
    (s0 : σ) :
    xs.foldl (fun s x => zs.foldl (fun s z => f s x z) s) s0 =
      (xs.flatMap fun x => zs.map fun z => (x, z)).foldl (fun s p => f s p.1 p.2) s0 := by
  induction xs generalizing s0 with
  | nil => rfl
  | cons x rest ih =>
    simp only [List.foldl_cons, List.flatMap_cons, List.foldl_append, List.foldl_map]
    exact ih _

theorem mergePlane_eq (size : Nat) (typ : Nat → Nat → Int) (exposed : Nat → Nat → Bool) :
    mergePlane size typ exposed =
      ((planeCells size).foldl (fun st p => mergeCell size typ exposed st p.1 p.2)
        ⟨fun _ _ => false, []⟩).rects := by
  unfold mergePlane planeCells
  rw [nested_foldl_pairs]

theorem mem_planeCells (size : Nat) (p : Nat × Nat) :
    p ∈ planeCells size ↔ p.1 < size ∧ p.2 < size := by
  obtain ⟨a, b⟩ := p
  unfold planeCells
  simp only [List.mem_flatMap, List.mem_map, List.mem_range, Prod.mk.injEq]
  constructor
  · rintro ⟨a1, ha, b1, hb, rfl, rfl⟩
    exact ⟨ha, hb⟩
  · rintro ⟨ha, hb⟩
    exact ⟨a, ha, b, hb, rfl, rfl⟩

theorem mergeCell_skip (size : Nat) (typ : Nat → Nat → Int) (exposed : Nat → Nat → Bool)
    (st : PlaneState) (a b : Nat)
    (h : st.processed a b = true ∨ typ a b = 0 ∨ exposed a b = false) :
    mergeCell size typ exposed st a b = st := by
  unfold mergeCell
  rw [if_pos]
  rcases h with h | h | h <;> simp [h]

/-- Every cell of a merged rectangle is unprocessed, of the origin's block type, exposed and
inside the plane. -/
theorem merged_rect_cells (size : Nat) (typ : Nat → Nat → Int) (exposed : Nat → Nat → Bool)
    (st : PlaneState) (a b : Nat) (ha : a < size) (hb : b < size)
    (h0 : st.processed a b = false) (h2 : exposed a b = true)
    (i j : Nat) (hc : (mergeRect size typ exposed st a b).contains i j = true) :
    st.processed i j = false ∧ typ i j = typ a b ∧ exposed i j = true ∧ i < size ∧ j < size := by
  simp only [Rect.contains, mergeRect, decide_eq_true_eq] at hc
  obtain ⟨hi1, hi2, hj1, hj2⟩ := hc
  have hwle := runLength_le
    (fun i => !st.processed i b && typ i b == typ a b && exposed i b) (a + 1) (size - (a + 1))
  have hhle := runLength_le
    (fun j => (List.range (mergeWidth size typ exposed st a b)).all fun dx =>
      !(st.processed (a + dx) j || typ (a + dx) j != typ a b || !exposed (a + dx) j))
    (b + 1) (size - (b + 1))
  have hisz : i < size := by
    unfold mergeWidth at hi2
    omega
  have hjsz : j < size := by
    unfold mergeHeight at hj2
    omega
  by_cases hjb : j = b
  · subst hjb
    by_cases hia : i = a
    · subst hia
      exact ⟨h0, rfl, h2, hisz, hjsz⟩
    · have hk := runLength_ok
        (fun i => !st.processed i j && typ i j == typ a j && exposed i j) (a + 1)
        (size - (a + 1)) (i - (a + 1)) (by unfold mergeWidth at hi2; omega)
      rw [show a + 1 + (i - (a + 1)) = i by omega] at hk
      simp only [Bool.and_eq_true, Bool.not_eq_true', beq_iff_eq] at hk
      exact ⟨hk.1.1, hk.1.2, hk.2, hisz, hjsz⟩
  · have hk := runLength_ok
      (fun j => (List.range (mergeWidth size typ exposed st a b)).all fun dx =>
        !(st.processed (a + dx) j || typ (a + dx) j != typ a b || !exposed (a + dx) j))
      (b + 1) (size - (b + 1)) (j - (b + 1)) (by unfold mergeHeight at hj2; omega)
    rw [show b + 1 + (j - (b + 1)) = j by omega] at hk
    rw [List.all_eq_true] at hk
    have hd := hk (i - a) (List.mem_range.mpr (by omega))
    rw [show a + (i - a) = i by omega] at hd
    simp only [Bool.not_eq_true', Bool.or_eq_false_iff, bne_eq_false_iff_eq,
      Bool.not_eq_false'] at hd
    exact ⟨hd.1.1, hd.1.2, hd.2, hisz, hjsz⟩

theorem mergeRect_contains_origin (size : Nat) (typ : Nat → Nat → Int)
    (exposed : Nat → Nat → Bool) (st : PlaneState) (a b : Nat) :
    (mergeRect size typ exposed st a b).contains a b = true := by
  simp only [Rect.contains, mergeRect, mergeWidth, mergeHeight, decide_eq_true_eq]
  omega

theorem mergeCell_merge (size : Nat) (typ : Nat → Nat → Int) (exposed : Nat → Nat → Bool)
    (st : PlaneState) (a b : Nat)
    (h0 : st.processed a b = false) (h1 : typ a b ≠ 0) (h2 : exposed a b = true) :
    mergeCell size typ exposed st a b =
      { processed := fun i j =>
          st.processed i j || (mergeRect size typ exposed st a b).contains i j
        rects := st.rects ++ [mergeRect size typ exposed st a b] } := by
  unfold mergeCell
  rw [if_neg]
  simp [h0, h1, h2]

/-- One step of the raster scan keeps the plane invariant, never clears a processed mark, and
leaves the visited cell processed when it is an exposed solid cell. -/
theorem mergeCell_inv (size : Nat) (typ : Nat → Nat → Int) (exposed : Nat → Nat → Bool)
    (st : PlaneState) (a b : Nat) (ha : a < size) (hb : b < size)
    (hinv : PlaneInv size typ exposed st) :
    PlaneInv size typ exposed (mergeCell size typ exposed st a b) ∧
      (∀ i j, st.processed i j = true →
        (mergeCell size typ exposed st a b).processed i j = true) ∧
      (typ a b ≠ 0 → exposed a b = true →
        (mergeCell size typ exposed st a b).processed a b = true) := by
  by_cases hskip : st.processed a b = true ∨ typ a b = 0 ∨ exposed a b = false
  · rw [mergeCell_skip size typ exposed st a b hskip]
    refine ⟨hinv, fun _ _ h => h, ?_⟩
    intro h1 h2
    rcases hskip with h | h | h
    · exact h
    · exact absurd h h1
    · rw [h2] at h
      exact absurd h (by decide)
  · have h0 : st.processed a b = false := by
      cases hp : st.processed a b with
      | false => rfl
      | true => exact absurd (Or.inl hp) hskip
    have h1 : typ a b ≠ 0 := fun h => hskip (Or.inr (Or.inl h))
    have h2 : exposed a b = true := by
      cases he : exposed a b with
      | true => rfl
      | false => exact absurd (Or.inr (Or.inr he)) hskip
    rw [mergeCell_merge size typ exposed st a b h0 h1 h2]
    have hcells := merged_rect_cells size typ exposed st a b ha hb h0 h2
    refine ⟨⟨?_, ?_⟩, ?_, ?_⟩
    · intro i j hp
      simp only [Bool.or_eq_true] at hp
      rcases hp with hp | hp
      · exact hinv.1 i j hp
      · obtain ⟨_, e2, e3, e4, e5⟩ := hcells i j hp
        exact ⟨e4, e5, by rw [e2]; exact h1, e3⟩
    · intro i j
      simp only [List.countP_append, List.countP_cons, List.countP_nil, Bool.or_eq_true]
      rw [hinv.2 i j]
      by_cases hc : (mergeRect size typ exposed st a b).contains i j = true
      · have hf := (hcells i j hc).1
        simp [hc, hf]
      · simp [hc]
    · intro i j hp
      simp only [Bool.or_eq_true]
      exact Or.inl hp
    · intro _ _
      simp only [Bool.or_eq_true]
      exact Or.inr (mergeRect_contains_origin size typ exposed st a b)

/-- The scan over a list of in-plane cells keeps the invariant, keeps processed marks, and
leaves every visited exposed solid cell processed. -/
theorem mergeCell_foldl_inv (size : Nat) (typ : Nat → Nat → Int) (exposed : Nat → Nat → Bool)
    (ps : List (Nat × Nat)) (hps : ∀ p ∈ ps, p.1 < size ∧ p.2 < size) (st : PlaneState)
    (hinv : PlaneInv size typ exposed st) :
    PlaneInv size typ exposed
        (ps.foldl (fun st p => mergeCell size typ exposed st p.1 p.2) st) ∧
      (∀ i j, st.processed i j = true →
        (ps.foldl (fun st p => mergeCell size typ exposed st p.1 p.2) st).processed i j = true) ∧
      (∀ p ∈ ps, typ p.1 p.2 ≠ 0 → exposed p.1 p.2 = true →
        (ps.foldl (fun st p => mergeCell size typ exposed st p.1 p.2) st).processed p.1 p.2
          = true) := by
  induction ps generalizing st with
  | nil =>
    refine ⟨hinv, fun _ _ h => h, ?_⟩
    intro p hp
    exact absurd hp (List.not_mem_nil p)
  | cons q rest ih =>
    have hq := hps q (List.mem_cons_self _ _)
    obtain ⟨s1, s2, s3⟩ := mergeCell_inv size typ exposed st q.1 q.2 hq.1 hq.2 hinv
    obtain ⟨r1, r2, r3⟩ := ih (fun p hp => hps p (List.mem_cons_of_mem _ hp))
      (mergeCell size typ exposed st q.1 q.2) s1
    rw [List.foldl_cons]
    refine ⟨r1, fun i j h => r2 i j (s2 i j h), ?_⟩
    intro p hp h1 h2
    rcases List.mem_cons.mp hp with rfl | hp
    · exact r2 _ _ (s3 h1 h2)
    · exact r3 p hp h1 h2

/-- Coverage of one plane: a plane cell lies in exactly one merged rectangle when it is an
exposed solid cell of the plane, and in none otherwise. -/
theorem mergePlane_count (size : Nat) (typ : Nat → Nat → Int) (exposed : Nat → Nat → Bool)
    (i j : Nat) :
    (mergePlane size typ exposed).countP (fun r => r.contains i j) =
      if i < size ∧ j < size ∧ typ i j ≠ 0 ∧ exposed i j = true then 1 else 0 := by
  have hinit : PlaneInv size typ exposed ⟨fun _ _ => false, []⟩ := by
    constructor
    · intro i j h
      exact absurd h (by simp)
    · intro i j
      simp
  obtain ⟨r1, _, r3⟩ := mergeCell_foldl_inv size typ exposed (planeCells size)
    (fun p hp => (mem_planeCells size p).1 hp) _ hinit
  rw [mergePlane_eq, r1.2 i j]
  by_cases hc : i < size ∧ j < size ∧ typ i j ≠ 0 ∧ exposed i j = true
  · have hp := r3 (i, j) ((mem_planeCells size (i, j)).2 ⟨hc.1, hc.2.1⟩) hc.2.2.1 hc.2.2.2
    rw [if_pos hc, if_pos hp]
  · rw [if_neg hc, if_neg]
    intro hp
    exact hc (r1.1 i j hp)

/-! ## From merged rectangles to quads -/

theorem quadsOf_flatMap_vertices (qs : List Quad) : quadsOf (qs.flatMap Quad.vertices) = qs := by
  induction qs with
  | nil => rfl
  | cons q rest ih =>
    rw [List.flatMap_cons]
    show quadsOf (q.v1 :: q.v2 :: q.v3 :: q.v4 :: (rest.flatMap Quad.vertices)) = q :: rest
    rw [quadsOf, ih]

theorem min4_le_iff (a b c d x : Int) : min4 a b c d ≤ x ↔ a ≤ x ∨ b ≤ x ∨ c ≤ x ∨ d ≤ x := by
  unfold min4
  rw [min_le_iff, min_le_iff, min_le_iff]
  tauto

theorem le_max4_iff (a b c d x : Int) : x ≤ max4 a b c d ↔ x ≤ a ∨ x ≤ b ∨ x ≤ c ∨ x ≤ d := by
  unfold max4
  rw [le_max_iff, le_max_iff, le_max_iff]
  tauto

theorem topCall_covers (atlas : Option TextureAtlas) (r : Rect) (y i j k : Nat) (d : Face) :
    (callQuad atlas ⟨r.a, y, r.b, Face.Top, r.width, r.height, r.blockType⟩).covers i j k d =
      (decide (d = Face.Top) && decide (j = y) && r.contains i k) := by
  rw [Bool.eq_iff_iff]
  cases d <;>
    simp only [callQuad, faceQuad, Quad.covers, Face.normal, Face.cellLo, Face.cellHi,
      min4_le_iff, le_max4_iff,
      Rect.contains, decide_eq_true_eq, Bool.and_eq_true, Prod.mk.injEq, reduceCtorEq,
      false_and, and_false, true_and] <;>
    first | omega | simp

theorem bottomCall_covers (atlas : Option TextureAtlas) (r : Rect) (y i j k : Nat) (d : Face) :
    (callQuad atlas ⟨r.a, y, r.b, Face.Bottom, r.width, r.height, r.blockType⟩).covers i j k d =
      (decide (d = Face.Bottom) && decide (j = y) && r.contains i k) := by
  rw [Bool.eq_iff_iff]
  cases d <;>
    simp only [callQuad, faceQuad, Quad.covers, Face.normal, Face.cellLo, Face.cellHi,
      min4_le_iff, le_max4_iff,
      Rect.contains, decide_eq_true_eq, Bool.and_eq_true, Prod.mk.injEq, reduceCtorEq,
      false_and, and_false, true_and]
  omega

theorem frontCall_covers (atlas : Option TextureAtlas) (r : Rect) (z i j k : Nat) (d : Face) :
    (callQuad atlas ⟨r.a, r.b, z, Face.Front, r.width, r.height, r.blockType⟩).covers i j k d =
      (decide (d = Face.Front) && decide (k = z) && r.contains i j) := by
  rw [Bool.eq_iff_iff]
  cases d <;>
    simp only [callQuad, faceQuad, Quad.covers, Face.normal, Face.cellLo, Face.cellHi,
      min4_le_iff, le_max4_iff,
      Rect.contains, decide_eq_true_eq, Bool.and_eq_true, Prod.mk.injEq, reduceCtorEq,
      false_and, and_false, true_and]
  omega

theorem backCall_covers (atlas : Option TextureAtlas) (r : Rect) (z i j k : Nat) (d : Face) :
    (callQuad atlas ⟨r.a, r.b, z, Face.Back, r.width, r.height, r.blockType⟩).covers i j k d =
      (decide (d = Face.Back) && decide (k = z) && r.contains i j) := by
  rw [Bool.eq_iff_iff]
  cases d <;>
    simp only [callQuad, faceQuad, Quad.covers, Face.normal, Face.cellLo, Face.cellHi,
      min4_le_iff, le_max4_iff,
      Rect.contains, decide_eq_true_eq, Bool.and_eq_true, Prod.mk.injEq, reduceCtorEq,
      false_and, and_false, true_and] <;>
    first | omega | simp

/-- A quad only covers faces of the direction it was emitted for. -/
theorem callQuad_covers_face (atlas : Option TextureAtlas) (f : FaceCall) (x y z : Int)
    (d : Face) (h : (callQuad atlas f).covers x y z d = true) : d = f.face := by
  obtain ⟨fx, fy, fz, face, w, hgt, t⟩ := f
  simp only [Quad.covers, decide_eq_true_eq] at h
  have hn := h.1
  cases face <;> cases d <;>
    first
    | rfl
    | (simp [callQuad, faceQuad, Face.normal] at hn)

theorem countP_flatMap_single {α : Type} (planes : List Nat) (hnd : planes.Nodup)
    (g : Nat → List α) (P : α → Bool) (p0 : Nat)
    (hother : ∀ p ∈ planes, p ≠ p0 → (g p).countP P = 0) :
    (planes.flatMap g).countP P = if p0 ∈ planes then (g p0).countP P else 0 := by
  induction planes with
  | nil => simp
  | cons q rest ih =>
    rw [List.flatMap_cons, List.countP_append]
    have hnd2 := List.nodup_cons.mp hnd
    rw [ih hnd2.2 (fun p hp hne => hother p (List.mem_cons_of_mem _ hp) hne)]
    by_cases hq : q = p0
    · subst hq
      simp [hnd2.1]
    · have h0 := hother q (List.mem_cons_self _ _) hq
      have hq2 : ¬ p0 = q := fun h => hq h.symm
      simp [h0, hq2]

/-- Coverage count of one pass whose quads cover a cell face exactly when the direction and
the plane match and the merged rectangle contains the in-plane cell. -/
theorem pass_count (atlas : Option TextureAtlas) (size : Nat) (planes : List Nat)
    (hnd : planes.Nodup) (hmem : ∀ p, p ∈ planes ↔ p < size)
    (typ : Nat → Nat → Nat → Int) (exposed : Nat → Nat → Nat → Bool)
    (mk : Nat → Rect → FaceCall) (face : Face) (x y z : Int) (d : Face) (p0 a0 b0 : Nat)
    (hcov : ∀ p r, (callQuad atlas (mk p r)).covers x y z d =
      (decide (d = face) && decide (p0 = p) && r.contains a0 b0)) :
    ((planes.flatMap fun p => (mergePlane size (typ p) (exposed p)).map (mk p)).countP
        fun f => (callQuad atlas f).covers x y z d) =
      if d = face ∧ p0 < size ∧ a0 < size ∧ b0 < size ∧ typ p0 a0 b0 ≠ 0 ∧
        exposed p0 a0 b0 = true then 1 else 0 := by
  have hplane : ∀ p, ((mergePlane size (typ p) (exposed p)).map (mk p)).countP
      (fun f => (callQuad atlas f).covers x y z d) =
      if d = face ∧ p0 = p then (mergePlane size (typ p) (exposed p)).countP
        (fun r => r.contains a0 b0) else 0 := by
    intro p
    rw [List.countP_map]
    have hfun : ((fun f => (callQuad atlas f).covers x y z d) ∘ mk p) =
        fun r => (decide (d = face) && decide (p0 = p) && r.contains a0 b0) := by
      funext r
      exact hcov p r
    rw [hfun]
    by_cases hc : d = face ∧ p0 = p
    · rw [if_pos hc]
      simp [hc.1, hc.2]
    · rw [if_neg hc]
      rw [List.countP_eq_zero]
      intro r _
      rcases not_and_or.mp hc with h | h <;> simp [h]
  rw [countP_flatMap_single planes hnd _ _ p0]
  · rw [hplane p0, mergePlane_count]
    have hm := hmem p0
    by_cases h1 : d = face <;> by_cases h2 : p0 < size <;>
      by_cases h3 : a0 < size ∧ b0 < size ∧ typ p0 a0 b0 ≠ 0 ∧ exposed p0 a0 b0 = true <;>
      simp [h1, h2, h3, hm]
  · intro p _ hne
    rw [hplane p, if_neg]
    exact fun h => hne h.2.symm

theorem range_reverse_nodup (n : Nat) : (List.range n).reverse.Nodup :=
  List.nodup_reverse.mpr (List.nodup_range n)

theorem mem_range_reverse (n p : Nat) : p ∈ (List.range n).reverse ↔ p < n := by
  rw [List.mem_reverse, List.mem_range]

/-! ## The quads of the whole mesh -/

/-- The quads in the vertex buffer after `generateOptimizedMesh`: one per call of the six
passes, or the single dummy quad when the passes made no call. -/
theorem generateOptimizedMesh_quads (c : VoxelChunk) :
    quadsOf c.generateOptimizedMesh.m_vertices =
      if passCalls c.m_size c.m_voxelData = [] then
        [faceQuad c.m_textureAtlas 0 0 0 Face.Top 1 1 0]
      else (passCalls c.m_size c.m_voxelData).map (callQuad c.m_textureAtlas) := by
  have hframe := foldl_addOptimizedFace_frame (passCalls c.m_size c.m_voxelData)
    { c with m_vertices := [], m_indices := [], m_indexCount := 0 }
  obtain ⟨_, _, _, hatlas, hverts⟩ := hframe
  have hv : ((passCalls c.m_size c.m_voxelData).foldl
      (fun acc f => addOptimizedFace acc f.x f.y f.z f.face f.width f.height f.voxelType)
      { c with m_vertices := [], m_indices := [], m_indexCount := 0 }).m_vertices =
      ((passCalls c.m_size c.m_voxelData).map (callQuad c.m_textureAtlas)).flatMap
        Quad.vertices := by
    rw [hverts, List.flatMap_map]
    rfl
  simp only [generateOptimizedMesh]
  by_cases hnil : passCalls c.m_size c.m_voxelData = []
  · rw [if_pos hnil]
    rw [hnil]
    rfl
  · rw [if_neg hnil, if_neg]
    · rw [hv, quadsOf_flatMap_vertices]
    · rw [hv]
      obtain ⟨f, rest, hfr⟩ := List.exists_cons_of_ne_nil hnil
      rw [hfr]
      simp [Quad.vertices]

theorem coverCount_eq (c : VoxelChunk) (x y z : Int) (d : Face) :
    coverCount c x y z d =
      if passCalls c.m_size c.m_voxelData = [] then
        (if (faceQuad c.m_textureAtlas 0 0 0 Face.Top 1 1 0).covers x y z d = true then 1 else 0)
      else (passCalls c.m_size c.m_voxelData).countP
        (fun f => (callQuad c.m_textureAtlas f).covers x y z d) := by
  unfold coverCount
  rw [generateOptimizedMesh_quads]
  split_ifs with h1 h2
  · simp [h2]
  · simp [h2]
  · rw [List.countP_map]
    rfl

theorem foldl_fixed {α σ : Type} (f : σ → α → σ) (ps : List α) (s : σ)
    (h : ∀ p ∈ ps, f s p = s) : ps.foldl f s = s := by
  induction ps with
  | nil => rfl
  | cons q rest ih =>
    rw [List.foldl_cons, h q (List.mem_cons_self _ _)]
    exact ih (fun p hp => h p (List.mem_cons_of_mem _ hp))

theorem mergePlane_nil (size : Nat) (typ : Nat → Nat → Int) (exposed : Nat → Nat → Bool)
    (h : ∀ a b, a < size → b < size → typ a b = 0) : mergePlane size typ exposed = [] := by
  rw [mergePlane_eq, foldl_fixed]
  intro p hp
  have hr := (mem_planeCells size p).1 hp
  exact mergeCell_skip size typ exposed _ p.1 p.2 (Or.inr (Or.inl (h p.1 p.2 hr.1 hr.2)))

theorem pass_nil (size : Nat) (planes : List Nat) (typ : Nat → Nat → Nat → Int)
    (exposed : Nat → Nat → Nat → Bool) (mk : Nat → Rect → FaceCall)
    (h : ∀ p a b, p ∈ planes → a < size → b < size → typ p a b = 0) :
    (planes.flatMap fun p => (mergePlane size (typ p) (exposed p)).map (mk p)) = [] := by
  rw [List.flatMap_eq_nil_iff]
  intro p hp
  rw [mergePlane_nil size (typ p) (exposed p) (fun a b ha hb => h p a b hp ha hb)]
  rfl

/-- On a grid whose in-range cells are all air the six passes make no call. -/
theorem passCalls_all_air (size : Nat) (data : Int → Int → Int → Int)
    (h : ∀ i j k : Nat, i < size → j < size → k < size → data i j k = 0) :
    passCalls size data = [] := by
  unfold passCalls
  have h1 : topPass size data = [] :=
    pass_nil size _ (fun y x z => data x y z) _ _
      (fun p a b hp ha hb => h a p b ha ((mem_range_reverse size p).1 hp) hb)
  have h2 : bottomPass size data = [] :=
    pass_nil size _ (fun y x z => data x y z) _ _
      (fun p a b hp ha hb => h a p b ha (List.mem_range.1 hp) hb)
  have h3 : frontPass size data = [] :=
    pass_nil size _ (fun z x y => data x y z) _ _
      (fun p a b hp ha hb => h a b p ha hb (List.mem_range.1 hp))
  have h4 : backPass size data = [] :=
    pass_nil size _ (fun z x y => data x y z) _ _
      (fun p a b hp ha hb => h a b p ha hb ((mem_range_reverse size p).1 hp))
  have h5 : rightPass size data = [] :=
    pass_nil size _ (fun x y z => data x y z) _ _
      (fun p a b hp ha hb => h p a b ((mem_range_reverse size p).1 hp) ha hb)
  have h6 : leftPass size data = [] :=
    pass_nil size _ (fun x y z => data x y z) _ _
      (fun p a b hp ha hb => h p a b (List.mem_range.1 hp) ha hb)
  rw [h1, h2, h3, h4, h5, h6]
  rfl

theorem topPass_count (atlas : Option TextureAtlas) (size : Nat) (data : Int → Int → Int → Int)
    (i j k : Nat) (d : Face) :
    (topPass size data).countP (fun f => (callQuad atlas f).covers i j k d) =
      if d = Face.Top ∧ j < size ∧ i < size ∧ k < size ∧ data i j k ≠ 0 ∧
        is_air_or_outside size data i ((j : Int) + 1) k = true then 1 else 0 :=
  pass_count atlas size _ (range_reverse_nodup size) (mem_range_reverse size)
    (fun y x z => data x y z) (fun y x z => is_air_or_outside size data x ((y : Int) + 1) z)
    _ Face.Top i j k d j i k (fun p r => topCall_covers atlas r p i j k d)

theorem bottomPass_count (atlas : Option TextureAtlas) (size : Nat)
    (data : Int → Int → Int → Int) (i j k : Nat) (d : Face) :
    (bottomPass size data).countP (fun f => (callQuad atlas f).covers i j k d) =
      if d = Face.Bottom ∧ j < size ∧ i < size ∧ k < size ∧ data i j k ≠ 0 ∧
        is_air_or_outside size data i ((j : Int) - 1) k = true then 1 else 0 :=
  pass_count atlas size _ (List.nodup_range size) (fun _ => List.mem_range)
    (fun y x z => data x y z) (fun y x z => is_air_or_outside size data x ((y : Int) - 1) z)
    _ Face.Bottom i j k d j i k (fun p r => bottomCall_covers atlas r p i j k d)

theorem frontPass_count (atlas : Option TextureAtlas) (size : Nat)
    (data : Int → Int → Int → Int) (i j k : Nat) (d : Face) :
    (frontPass size data).countP (fun f => (callQuad atlas f).covers i j k d) =
      if d = Face.Front ∧ k < size ∧ i < size ∧ j < size ∧ data i j k ≠ 0 ∧
        is_air_or_outside size data i j ((k : Int) - 1) = true then 1 else 0 :=
  pass_count atlas size _ (List.nodup_range size) (fun _ => List.mem_range)
    (fun z x y => data x y z) (fun z x y => is_air_or_outside size data x y ((z : Int) - 1))
    _ Face.Front i j k d k i j (fun p r => frontCall_covers atlas r p i j k d)

theorem backPass_count (atlas : Option TextureAtlas) (size : Nat)
    (data : Int → Int → Int → Int) (i j k : Nat) (d : Face) :
    (backPass size data).countP (fun f => (callQuad atlas f).covers i j k d) =
      if d = Face.Back ∧ k < size ∧ i < size ∧ j < size ∧ data i j k ≠ 0 ∧
        is_air_or_outside size data i j ((k : Int) + 1) = true then 1 else 0 :=
  pass_count atlas size _ (range_reverse_nodup size) (mem_range_reverse size)
    (fun z x y => data x y z) (fun z x y => is_air_or_outside size data x y ((z : Int) + 1))
    _ Face.Back i j k d k i j (fun p r => backCall_covers atlas r p i j k d)

theorem rightPass_face (size : Nat) (data : Int → Int → Int → Int) (f : FaceCall)
    (h : f ∈ rightPass size data) : f.face = Face.Right := by
  unfold rightPass at h
  simp only [List.mem_flatMap, List.mem_map] at h
  obtain ⟨_, _, _, _, rfl⟩ := h
  rfl

theorem leftPass_face (size : Nat) (data : Int → Int → Int → Int) (f : FaceCall)
    (h : f ∈ leftPass size data) : f.face = Face.Left := by
  unfold leftPass at h
  simp only [List.mem_flatMap, List.mem_map] at h
  obtain ⟨_, _, _, _, rfl⟩ := h
  rfl

/-- Coverage count over the calls of all six passes, for the four directions whose passes and
`addOptimizedFace` cases agree on the axes of `width` and `height`. -/
theorem passCalls_count (atlas : Option TextureAtlas) (size : Nat)
    (data : Int → Int → Int → Int) (i j k : Nat) (d : Face)
    (hd : d = Face.Top ∨ d = Face.Bottom ∨ d = Face.Front ∨ d = Face.Back) :
    (passCalls size data).countP (fun f => (callQuad atlas f).covers i j k d) =
      if i < size ∧ j < size ∧ k < size ∧ data i j k ≠ 0 ∧
        is_air_or_outside size data (d.neighbour i j k).1 (d.neighbour i j k).2.1
          (d.neighbour i j k).2.2 = true then 1 else 0 := by
  have hr : (rightPass size data).countP (fun f => (callQuad atlas f).covers i j k d) = 0 := by
    rw [List.countP_eq_zero]
    intro f hf hc
    have h1 := callQuad_covers_face atlas f i j k d hc
    rw [rightPass_face size data f hf] at h1
    rcases hd with h | h | h | h <;> rw [h] at h1 <;> exact absurd h1 (by decide)
  have hl : (leftPass size data).countP (fun f => (callQuad atlas f).covers i j k d) = 0 := by
    rw [List.countP_eq_zero]
    intro f hf hc
    have h1 := callQuad_covers_face atlas f i j k d hc
    rw [leftPass_face size data f hf] at h1
    rcases hd with h | h | h | h <;> rw [h] at h1 <;> exact absurd h1 (by decide)
  unfold passCalls
  simp only [List.countP_append, hr, hl, topPass_count, bottomPass_count, frontPass_count,
    backPass_count]
  rcases hd with h | h | h | h <;> subst h <;>
    simp only [Face.neighbour, Face.normal, reduceCtorEq, false_and, if_false, true_and,
      add_zero, zero_add, Int.add_neg_one] <;>
    congr 1 <;> apply propext <;> constructor <;> intro hh <;>
    exact ⟨by tauto, by tauto, by tauto, by tauto, by tauto⟩

/-! ## Coverage of exposed faces -/

theorem exists_exposed_top (size : Nat) (data : Int → Int → Int → Int) (i k n : Nat) :
    ∀ j : Nat, size - j ≤ n → j < size → data i j k ≠ 0 →
      ∃ j1 : Nat, j1 < size ∧ data i j1 k ≠ 0 ∧
        is_air_or_outside size data i ((j1 : Int) + 1) k = true := by
  induction n with
  | zero =>
    intro j h1 h2 _
    omega
  | succ n ih =>
    intro j h1 h2 hs
    by_cases hnext : j + 1 < size ∧ data i ((j + 1 : Nat) : Int) k ≠ 0
    · exact ih (j + 1) (by omega) hnext.1 hnext.2
    · refine ⟨j, h2, hs, ?_⟩
      unfold is_air_or_outside
      by_cases hout : j + 1 < size
      · have hz : data i ((j + 1 : Nat) : Int) k = 0 := by
          by_contra hne
          exact hnext ⟨hout, hne⟩
        have hz2 : data (i : Int) ((j : Int) + 1) k = 0 := by
          simpa using hz
        simp [hz2]
      · rw [if_pos]
        omega

theorem passCalls_ne_nil_of_solid (size : Nat) (data : Int → Int → Int → Int) (i j k : Nat)
    (hi : i < size) (hj : j < size) (hk : k < size) (hs : data i j k ≠ 0) :
    passCalls size data ≠ [] := by
  obtain ⟨j1, h1, h2, h3⟩ := exists_exposed_top size data i k (size - j) j (le_refl _) hj hs
  intro hnil
  have hc := passCalls_count none size data i j1 k Face.Top (Or.inl rfl)
  rw [hnil] at hc
  have h4 : is_air_or_outside size data (Face.Top.neighbour i j1 k).1
      (Face.Top.neighbour i j1 k).2.1 (Face.Top.neighbour i j1 k).2.2 = true := by
    simpa [Face.neighbour, Face.normal] using h3
  rw [if_pos ⟨hi, h1, hk, h2, h4⟩] at hc
  simp at hc

theorem dummy_quad_covers (atlas : Option TextureAtlas) (x y z : Int) (d : Face) :
    (faceQuad atlas 0 0 0 Face.Top 1 1 0).covers x y z d = true ↔
      x = 0 ∧ y = 0 ∧ z = 0 ∧ d = Face.Top := by
  cases d <;>
    simp only [faceQuad, Quad.covers, Face.normal, Face.cellLo, Face.cellHi,
      min4_le_iff, le_max4_iff, decide_eq_true_eq, Prod.mk.injEq, reduceCtorEq,
      false_and, and_false, true_and, and_true] <;>
    first | omega | simp

/-- C1 (amended): on a grid with at least one solid cell, for every in-grid cell and each of
the directions Top, Bottom, Front and Back, the cell face lies in exactly one quad of the mesh
when the cell is solid and its neighbour in that direction is air or outside the grid, and in
no quad otherwise; on an all-air grid the mesh is the single dummy Top quad at cell `(0,0,0)`,
so the only cell face covered is the top face of `(0,0,0)`. -/
theorem mesh_covers_exposed_faces (c : VoxelChunk) (x y z : Int) (d : Face)
    (hr : c.inRange x y z)
    (hd : d = Face.Top ∨ d = Face.Bottom ∨ d = Face.Front ∨ d = Face.Back) :
    ((∃ i j k : Int, c.inRange i j k ∧ c.m_voxelData i j k ≠ 0) →
        coverCount c x y z d = if exposedFace c x y z d then 1 else 0) ∧
      ((∀ i j k : Int, c.inRange i j k → c.m_voxelData i j k = 0) →
        quadsOf c.generateOptimizedMesh.m_vertices =
            [faceQuad c.m_textureAtlas 0 0 0 Face.Top 1 1 0] ∧
          coverCount c x y z d = if x = 0 ∧ y = 0 ∧ z = 0 ∧ d = Face.Top then 1 else 0) := by
  constructor
  · rintro ⟨i, j, k, hin, hs⟩
    unfold VoxelChunk.inRange at hin hr
    obtain ⟨i, rfl⟩ := Int.eq_ofNat_of_zero_le hin.1
    obtain ⟨j, rfl⟩ := Int.eq_ofNat_of_zero_le hin.2.2.1
    obtain ⟨k, rfl⟩ := Int.eq_ofNat_of_zero_le hin.2.2.2.2.1
    obtain ⟨x, rfl⟩ := Int.eq_ofNat_of_zero_le hr.1
    obtain ⟨y, rfl⟩ := Int.eq_ofNat_of_zero_le hr.2.2.1
    obtain ⟨z, rfl⟩ := Int.eq_ofNat_of_zero_le hr.2.2.2.2.1
    have hne := passCalls_ne_nil_of_solid c.m_size c.m_voxelData i j k (by omega) (by omega)
      (by omega) hs
    rw [coverCount_eq, if_neg hne, passCalls_count c.m_textureAtlas c.m_size c.m_voxelData x y z d hd]
    unfold exposedFace
    have hx : x < c.m_size := by omega
    have hy : y < c.m_size := by omega
    have hz : z < c.m_size := by omega
    simp only [hx, hy, hz, true_and]
  · intro hair
    have hnil : passCalls c.m_size c.m_voxelData = [] := by
      apply passCalls_all_air
      intro i j k hi hj hk
      apply hair
      unfold VoxelChunk.inRange
      omega
    constructor
    · rw [generateOptimizedMesh_quads, if_pos hnil]
    · rw [coverCount_eq, if_pos hnil]
      by_cases hc : x = 0 ∧ y = 0 ∧ z = 0 ∧ d = Face.Top
      · rw [if_pos hc, if_pos ((dummy_quad_covers _ x y z d).2 hc)]
      · rw [if_neg hc, if_neg (fun h => hc ((dummy_quad_covers _ x y z d).1 h))]

theorem mesh_covers_exposed_faces_witness :
    chunkA.inRange 1 1 0 ∧ (chunkA.inRange 1 0 0 ∧ chunkA.m_voxelData 1 0 0 ≠ 0) ∧
      exposedFace chunkA 1 1 0 Face.Top ∧
      coverCount chunkA 1 1 0 Face.Top = if exposedFace chunkA 1 1 0 Face.Top then 1 else 0 :=
  ⟨by decide, by decide, by decide,
    (mesh_covers_exposed_faces chunkA 1 1 0 Face.Top (by decide) (Or.inl rfl)).1
      ⟨1, 0, 0, by decide, by decide⟩⟩

/-- C1 (as stated) fails: on the all-air grid of side 1 the top face of cell `(0,0,0)` is not
exposed, yet the dummy quad that `generateOptimizedMesh` adds to an empty mesh covers it. -/
theorem mesh_coverage_fails_on_empty_grid :
    (VoxelChunk.new 1).inRange 0 0 0 ∧
      ¬ exposedFace (VoxelChunk.new 1) 0 0 0 Face.Top ∧
      coverCount (VoxelChunk.new 1) 0 0 0 Face.Top = 1 ∧
      ¬ (∀ (c : VoxelChunk) (x y z : Int) (d : Face), c.inRange x y z →
        coverCount c x y z d = if exposedFace c x y z d then 1 else 0) := by
  refine ⟨by decide, by decide, by decide, ?_⟩
  intro h
  have h1 := h (VoxelChunk.new 1) 0 0 0 Face.Top (by decide)
  revert h1
  decide

/-- C2 (failing input): on `chunkA` the Right pass merges `(1,0,0)` with `(1,1,0)` (`width = 2`
along `y`, `height = 1` along `z`) and then emits `(1,0,1)` on its own; `addOptimizedFace` lays
`width` along `z`, so both Right quads cover the right face of cell `(1,0,1)` and none covers
the exposed right face of cell `(1,1,0)`. -/
theorem right_quads_overlap :
    rightPass chunkA.m_size chunkA.m_voxelData =
        [⟨1, 0, 0, Face.Right, 2, 1, 1⟩, ⟨1, 0, 1, Face.Right, 1, 1, 2⟩] ∧
      (callQuad none ⟨1, 0, 0, Face.Right, 2, 1, 1⟩).positions =
        [(2, 0, 0), (2, 0, 2), (2, 1, 2), (2, 1, 0)] ∧
      (callQuad none ⟨1, 0, 1, Face.Right, 1, 1, 2⟩).positions =
        [(2, 0, 1), (2, 0, 2), (2, 1, 2), (2, 1, 1)] ∧
      (callQuad none ⟨1, 0, 0, Face.Right, 2, 1, 1⟩).covers 1 0 1 Face.Right = true ∧
      (callQuad none ⟨1, 0, 1, Face.Right, 1, 1, 2⟩).covers 1 0 1 Face.Right = true ∧
      coverCount chunkA 1 0 1 Face.Right = 2 ∧
      exposedFace chunkA 1 1 0 Face.Right ∧
      coverCount chunkA 1 1 0 Face.Right = 0 := by
  decide

/-! ## A uniformly filled layer -/

theorem planeCells_succ (n : Nat) : ∃ tl, planeCells (n + 1) = (0, 0) :: tl := by
  unfold planeCells
  rw [List.range_succ_eq_map]
  simp only [List.flatMap_cons, List.map_cons, List.cons_append]
  exact ⟨_, rfl⟩

/-- On a plane whose cells all hold the same solid type and are all exposed, the scan merges
the whole plane into one rectangle at the first cell. -/
theorem mergePlane_uniform (size : Nat) (typ : Nat → Nat → Int) (exposed : Nat → Nat → Bool)
    (T : Int) (hsize : 0 < size) (hT : T ≠ 0)
    (h : ∀ a b, a < size → b < size → typ a b = T ∧ exposed a b = true) :
    mergePlane size typ exposed = [⟨0, 0, size, size, T⟩] := by
  obtain ⟨n, rfl⟩ : ∃ n, size = n + 1 := ⟨size - 1, by omega⟩
  obtain ⟨tl, htl⟩ := planeCells_succ n
  have h00 := h 0 0 hsize hsize
  have hw : mergeWidth (n + 1) typ exposed ⟨fun _ _ => false, []⟩ 0 0 = n + 1 := by
    unfold mergeWidth
    rw [runLength_full]
    · omega
    · intro k hk
      have hk1 := h (0 + 1 + k) 0 (by omega) hsize
      simp [hk1.1, hk1.2, h00.1]
  have hh : mergeHeight (n + 1) typ exposed ⟨fun _ _ => false, []⟩ 0 0 (n + 1) = n + 1 := by
    unfold mergeHeight
    rw [runLength_full]
    · omega
    · intro k hk
      rw [List.all_eq_true]
      intro dx hdx
      have hk1 := h (0 + dx) (0 + 1 + k) (by have := List.mem_range.1 hdx; omega) (by omega)
      rw [hk1.1, hk1.2, h00.1]
      simp
  have hrect : mergeRect (n + 1) typ exposed ⟨fun _ _ => false, []⟩ 0 0 =
      ⟨0, 0, n + 1, n + 1, T⟩ := by
    unfold mergeRect
    rw [hw, hh, h00.1]
  rw [mergePlane_eq, htl, List.foldl_cons]
  have hfirst : mergeCell (n + 1) typ exposed ⟨fun _ _ => false, []⟩ 0 0 =
      { processed := fun i j => false || (⟨0, 0, n + 1, n + 1, T⟩ : Rect).contains i j
        rects := [] ++ [⟨0, 0, n + 1, n + 1, T⟩] } := by
    rw [mergeCell_merge _ _ _ _ 0 0 rfl (by rw [h00.1]; exact hT) h00.2, hrect]
  show (tl.foldl (fun st p => mergeCell (n + 1) typ exposed st p.1 p.2)
    (mergeCell (n + 1) typ exposed ⟨fun _ _ => false, []⟩ 0 0)).rects = _
  rw [hfirst, foldl_fixed]
  · rfl
  · intro p hp
    have hmem : p ∈ planeCells (n + 1) := by
      rw [htl]
      exact List.mem_cons_of_mem _ hp
    have hr := (mem_planeCells (n + 1) p).1 hmem
    apply mergeCell_skip
    left
    simp only [Rect.contains, Bool.false_or, decide_eq_true_eq]
    omega

theorem flatMap_single {α : Type} (planes : List Nat) (hnd : planes.Nodup) (g : Nat → List α)
    (p0 : Nat) (hmem : p0 ∈ planes) (hother : ∀ p ∈ planes, p ≠ p0 → g p = []) :
    planes.flatMap g = g p0 := by
  induction planes with
  | nil => exact absurd hmem (List.not_mem_nil p0)
  | cons q rest ih =>
    have hnd2 := List.nodup_cons.mp hnd
    rw [List.flatMap_cons]
    by_cases hq : q = p0
    · subst hq
      have hrest : rest.flatMap g = [] := by
        rw [List.flatMap_eq_nil_iff]
        intro p hp
        exact hother p (List.mem_cons_of_mem _ hp) (fun h => hnd2.1 (h ▸ hp))
      rw [hrest, List.append_nil]
    · rw [hother q (List.mem_cons_self _ _) hq, List.nil_append]
      apply ih hnd2.2
      · rcases List.mem_cons.mp hmem with h | h
        · exact absurd h.symm hq
        · exact h
      · exact fun p hp hne => hother p (List.mem_cons_of_mem _ hp) hne

theorem topPass_face (size : Nat) (data : Int → Int → Int → Int) (f : FaceCall)
    (h : f ∈ topPass size data) : f.face = Face.Top := by
  unfold topPass at h
  simp only [List.mem_flatMap, List.mem_map] at h
  obtain ⟨_, _, _, _, rfl⟩ := h
  rfl

theorem bottomPass_face (size : Nat) (data : Int → Int → Int → Int) (f : FaceCall)
    (h : f ∈ bottomPass size data) : f.face = Face.Bottom := by
  unfold bottomPass at h
  simp only [List.mem_flatMap, List.mem_map] at h
  obtain ⟨_, _, _, _, rfl⟩ := h
  rfl

theorem frontPass_face (size : Nat) (data : Int → Int → Int → Int) (f : FaceCall)
    (h : f ∈ frontPass size data) : f.face = Face.Front := by
  unfold frontPass at h
  simp only [List.mem_flatMap, List.mem_map] at h
  obtain ⟨_, _, _, _, rfl⟩ := h
  rfl

theorem backPass_face (size : Nat) (data : Int → Int → Int → Int) (f : FaceCall)
    (h : f ∈ backPass size data) : f.face = Face.Back := by
  unfold backPass at h
  simp only [List.mem_flatMap, List.mem_map] at h
  obtain ⟨_, _, _, _, rfl⟩ := h
  rfl

theorem callQuad_facing (atlas : Option TextureAtlas) (f : FaceCall) (d : Face) :
    (callQuad atlas f).facing d = decide (f.face = d) := by
  obtain ⟨fx, fy, fz, face, w, hgt, t⟩ := f
  cases face <;> cases d <;> simp [callQuad, faceQuad, Quad.facing, Face.normal]

theorem filter_facing_of_face (atlas : Option TextureAtlas) (calls : List FaceCall)
    (face d : Face) (h : ∀ f ∈ calls, f.face = face) :
    (calls.map (callQuad atlas)).filter (fun q => q.facing d) =
      if face = d then calls.map (callQuad atlas) else [] := by
  split_ifs with hfd
  · rw [List.filter_eq_self]
    intro q hq
    obtain ⟨f, hf, rfl⟩ := List.mem_map.1 hq
    rw [callQuad_facing, h f hf]
    exact decide_eq_true hfd
  · rw [List.filter_eq_nil_iff]
    intro q hq
    obtain ⟨f, hf, rfl⟩ := List.mem_map.1 hq
    rw [callQuad_facing, h f hf]
    simpa using hfd

/-- The Top pass on a grid that holds `T` on layer `y0` and air elsewhere makes one call, for
the whole plane. -/
theorem topPass_single_layer (size : Nat) (data : Int → Int → Int → Int) (y0 : Nat) (T : Int)
    (hy : y0 < size) (hT : T ≠ 0)
    (hgrid : ∀ i j k : Nat, i < size → j < size → k < size →
      data i j k = if j = y0 then T else 0) :
    topPass size data = [⟨0, y0, 0, Face.Top, size, size, T⟩] := by
  unfold topPass
  rw [flatMap_single _ (range_reverse_nodup size) _ y0 ((mem_range_reverse size y0).2 hy)]
  · rw [mergePlane_uniform size _ _ T (by omega) hT]
    · rfl
    · intro a b ha hb
      constructor
      · rw [hgrid a y0 b ha hy hb, if_pos rfl]
      · unfold is_air_or_outside
        by_cases hout : y0 + 1 < size
        · have hz := hgrid a (y0 + 1) b ha hout hb
          rw [if_neg (by omega)] at hz
          have hz2 : data (a : Int) ((y0 : Int) + 1) b = 0 := by simpa using hz
          simp [hz2]
        · rw [if_pos]
          omega
  · intro p hp hne
    have hps := (mem_range_reverse size p).1 hp
    rw [mergePlane_nil]
    · rfl
    · intro a b ha hb
      rw [hgrid a p b ha hps hb, if_neg hne]

/-- C3: for a chunk of size `S ≥ 1` whose grid holds the nonzero type `T` at every cell of
layer `y` (`0 ≤ y < S`) and air at every other cell, the mesh built by `generateOptimizedMesh`
contains exactly one Top quad, and its four vertex positions are `(0,y+1,0)`, `(S,y+1,0)`,
`(S,y+1,S)`, `(0,y+1,S)`. -/
theorem single_layer_one_top_quad (c : VoxelChunk) (y T : Int)
    (hS : 1 ≤ c.m_size) (hy0 : 0 ≤ y) (hy1 : y < c.m_size) (hT : T ≠ 0)
    (hgrid : ∀ i j k : Int, c.inRange i j k → c.m_voxelData i j k = if j = y then T else 0) :
    ∃ q : Quad,
      (quadsOf c.generateOptimizedMesh.m_vertices).filter (fun q => q.facing Face.Top) = [q] ∧
        q.positions = [(0, y + 1, 0), ((c.m_size : Int), y + 1, 0),
          ((c.m_size : Int), y + 1, (c.m_size : Int)), (0, y + 1, (c.m_size : Int))] := by
  have _ := hS
  obtain ⟨y0, rfl⟩ := Int.eq_ofNat_of_zero_le hy0
  have hy : y0 < c.m_size := by omega
  have hg : ∀ i j k : Nat, i < c.m_size → j < c.m_size → k < c.m_size →
      c.m_voxelData i j k = if j = y0 then T else 0 := by
    intro i j k hi hj hk
    rw [hgrid i j k (by unfold VoxelChunk.inRange; omega)]
    by_cases hjy : j = y0
    · simp [hjy]
    · have : ¬ (j : Int) = (y0 : Int) := by omega
      simp [hjy, this]
  have htop := topPass_single_layer c.m_size c.m_voxelData y0 T hy hT hg
  have hne : passCalls c.m_size c.m_voxelData ≠ [] := by
    unfold passCalls
    rw [htop]
    simp
  refine ⟨callQuad c.m_textureAtlas ⟨0, y0, 0, Face.Top, c.m_size, c.m_size, T⟩, ?_, ?_⟩
  · rw [generateOptimizedMesh_quads, if_neg hne]
    unfold passCalls
    simp only [List.map_append, List.filter_append]
    rw [filter_facing_of_face _ _ Face.Top Face.Top (topPass_face _ _),
      filter_facing_of_face _ _ Face.Bottom Face.Top (bottomPass_face _ _),
      filter_facing_of_face _ _ Face.Front Face.Top (frontPass_face _ _),
      filter_facing_of_face _ _ Face.Back Face.Top (backPass_face _ _),
      filter_facing_of_face _ _ Face.Right Face.Top (rightPass_face _ _),
      filter_facing_of_face _ _ Face.Left Face.Top (leftPass_face _ _), htop]
    simp
  · simp [callQuad, faceQuad, Quad.positions]

theorem single_layer_one_top_quad_witness :
    ∃ q : Quad,
      (quadsOf (layerChunk 3 1 7).generateOptimizedMesh.m_vertices).filter
          (fun q => q.facing Face.Top) = [q] ∧
        q.positions = [(0, 1 + 1, 0), (((layerChunk 3 1 7).m_size : Int), 1 + 1, 0),
          (((layerChunk 3 1 7).m_size : Int), 1 + 1, ((layerChunk 3 1 7).m_size : Int)),
          (0, 1 + 1, ((layerChunk 3 1 7).m_size : Int))] :=
  single_layer_one_top_quad (layerChunk 3 1 7) 1 7 (by decide) (by decide) (by decide)
    (by decide) (fun _ _ _ _ => rfl)

/-! ## Frustum culling -/

theorem isAABBVisible_eq_true_iff (f : Frustum) (min max : Vec3) :
    f.isAABBVisible min max = true ↔
      ∀ i, i < Planes.Count →
        0 ≤ planeDistance (f.m_planes i) (pVertex (f.m_planes i) min max) := by
  unfold Frustum.isAABBVisible
  rw [List.all_eq_true]
  constructor
  · intro h i hi
    have := h i (List.mem_range.2 hi)
    simpa using this
  · intro h i hi
    have := h i (List.mem_range.1 hi)
    simpa using this

theorem trianglesOf_appended (vs : List Vertex) (q : Quad) (i j k : Nat) (rest : List Nat)
    (a b c : Vertex) (hi : (q.vertices)[i]? = some a) (hj : (q.vertices)[j]? = some b)
    (hk : (q.vertices)[k]? = some c) :
    trianglesOf (vs ++ q.vertices)
        ((vs.length + i) :: (vs.length + j) :: (vs.length + k) :: rest) =
      ⟨a, b, c⟩ :: trianglesOf (vs ++ q.vertices) rest := by
  have e : ∀ n, (vs ++ q.vertices)[vs.length + n]? = (q.vertices)[n]? := by
    intro n
    rw [List.getElem?_append_right (Nat.le_add_right _ _)]
    simp
  rw [trianglesOf, e i, e j, e k, hi, hj, hk]

/-- The two triangles that `addOptimizedFace` emits: `(v1, v2, v3)` and `(v1, v3, v4)`. -/
theorem addOptimizedFace_triangles (c : VoxelChunk) (x y z : Int) (face : Face)
    (width height voxelType : Int) :
    emittedTriangles c (c.addOptimizedFace x y z face width height voxelType) =
      [⟨(faceQuad c.m_textureAtlas x y z face width height voxelType).v1,
        (faceQuad c.m_textureAtlas x y z face width height voxelType).v2,
        (faceQuad c.m_textureAtlas x y z face width height voxelType).v3⟩,
       ⟨(faceQuad c.m_textureAtlas x y z face width height voxelType).v1,
        (faceQuad c.m_textureAtlas x y z face width height voxelType).v3,
        (faceQuad c.m_textureAtlas x y z face width height voxelType).v4⟩] := by
  unfold emittedTriangles addOptimizedFace
  simp only [List.drop_left]
  rw [trianglesOf_appended _ _ 0 1 2 _ _ _ _ rfl rfl rfl,
    trianglesOf_appended _ _ 0 2 3 _ _ _ _ rfl rfl rfl]
  rfl

/-- The two triangles that `addFace` emits: `(v1, v2, v3)` and `(v3, v4, v1)`. -/
theorem addFace_triangles (c : VoxelChunk) (x y z : Int) (face : Face) :
    emittedTriangles c (c.addFace x y z face) =
      [⟨(addFaceQuad c.m_textureAtlas x y z face (c.m_voxelData x y z)).v1,
        (addFaceQuad c.m_textureAtlas x y z face (c.m_voxelData x y z)).v2,
        (addFaceQuad c.m_textureAtlas x y z face (c.m_voxelData x y z)).v3⟩,
       ⟨(addFaceQuad c.m_textureAtlas x y z face (c.m_voxelData x y z)).v3,
        (addFaceQuad c.m_textureAtlas x y z face (c.m_voxelData x y z)).v4,
        (addFaceQuad c.m_textureAtlas x y z face (c.m_voxelData x y z)).v1⟩] := by
  unfold emittedTriangles addFace
  simp only [List.drop_left]
  rw [trianglesOf_appended _ _ 0 1 2 _ _ _ _ rfl rfl rfl,
    trianglesOf_appended _ _ 2 3 0 _ _ _ _ rfl rfl rfl]
  rfl

/-- Winding of `addOptimizedFace`: every emitted triangle has cross product
`sign * width * height` times the outward normal of the face, with `sign = 1` for Front and
Back and `sign = -1` for Right, Left, Top and Bottom; the stored normal is the outward one. -/
theorem addOptimizedFace_winding (c : VoxelChunk) (x y z : Int) (face : Face)
    (width height voxelType : Int) :
    ∀ t ∈ emittedTriangles c (c.addOptimizedFace x y z face width height voxelType),
      t.cross = scaleVec (optimizedWindingSign face * (width * height)) face.normal ∧
        t.storedNormal = face.normal := by
  intro t ht
  rw [addOptimizedFace_triangles] at ht
  simp only [List.mem_cons, List.mem_singleton, List.not_mem_nil, or_false] at ht
  rcases ht with rfl | rfl <;> cases face <;>
    simp only [faceQuad, Triangle.cross, Triangle.storedNormal, scaleVec, Face.normal,
      optimizedWindingSign, Prod.mk.injEq] <;>
    refine ⟨⟨?_, ?_, ?_⟩, trivial⟩ <;> ring_nf

/-- Winding of `addFace`: every emitted triangle has cross product `sign` times the outward
normal of the face, with `sign = -1` for Top and `sign = 1` for the other five faces. -/
theorem addFace_winding (c : VoxelChunk) (x y z : Int) (face : Face) :
    ∀ t ∈ emittedTriangles c (c.addFace x y z face),
      t.cross = scaleVec (addFaceWindingSign face) face.normal ∧
        t.storedNormal = face.normal := by
  intro t ht
  rw [addFace_triangles] at ht
  simp only [List.mem_cons, List.mem_singleton, List.not_mem_nil, or_false] at ht
  rcases ht with rfl | rfl <;> cases face <;>
    simp only [addFaceQuad, Triangle.cross, Triangle.storedNormal, scaleVec, Face.normal,
      addFaceWindingSign, Prod.mk.injEq] <;>
    refine ⟨⟨?_, ?_, ?_⟩, trivial⟩ <;> ring_nf

theorem not_sameDirection_neg (u : Int × Int × Int) (k : Int) (hk : 0 < k)
    (hu : u ≠ (0, 0, 0)) : ¬ sameDirection (scaleVec (-k) u) u := by
  rintro ⟨a, b, ha, hb, h⟩
  simp only [scaleVec, Prod.mk.injEq] at h
  obtain ⟨h1, h2, h3⟩ := h
  have hpos : 0 < a * k + b := by positivity
  have e1 : (a * k + b) * u.1 = 0 := by linear_combination -h1
  have e2 : (a * k + b) * u.2.1 = 0 := by linear_combination -h2
  have e3 : (a * k + b) * u.2.2 = 0 := by linear_combination -h3
  have z1 : u.1 = 0 := by
    rcases mul_eq_zero.mp e1 with h | h
    · omega
    · exact h
  have z2 : u.2.1 = 0 := by
    rcases mul_eq_zero.mp e2 with h | h
    · omega
    · exact h
  have z3 : u.2.2 = 0 := by
    rcases mul_eq_zero.mp e3 with h | h
    · omega
    · exact h
  exact hu (Prod.ext z1 (Prod.ext z2 z3))

/-- C13 (failing input): for the Right face of cell `(0,0,0)` both triangles of `addFace` have
right-hand-rule normal `(1,0,0)` and both triangles of `addOptimizedFace(0,0,0,Right,1,1,1)`
have `(-1,0,0)`; the same opposition holds for Left and Bottom, so the two mesher paths do not
emit the same winding. -/
theorem addFace_addOptimizedFace_winding_differs :
    (emittedTriangles unitChunk (unitChunk.addFace 0 0 0 Face.Right)).map Triangle.cross =
        [(1, 0, 0), (1, 0, 0)] ∧
      (emittedTriangles unitChunk (unitChunk.addOptimizedFace 0 0 0 Face.Right 1 1 1)).map
        Triangle.cross = [(-1, 0, 0), (-1, 0, 0)] ∧
      (emittedTriangles unitChunk (unitChunk.addFace 0 0 0 Face.Left)).map Triangle.cross =
        [(-1, 0, 0), (-1, 0, 0)] ∧
      (emittedTriangles unitChunk (unitChunk.addOptimizedFace 0 0 0 Face.Left 1 1 1)).map
        Triangle.cross = [(1, 0, 0), (1, 0, 0)] ∧
      (emittedTriangles unitChunk (unitChunk.addFace 0 0 0 Face.Bottom)).map Triangle.cross =
        [(0, -1, 0), (0, -1, 0)] ∧
      (emittedTriangles unitChunk (unitChunk.addOptimizedFace 0 0 0 Face.Bottom 1 1 1)).map
        Triangle.cross = [(0, 1, 0), (0, 1, 0)] ∧
      ¬ (∀ (c : VoxelChunk) (x y z : Int) (face : Face) (type : Int),
        ∀ t1 ∈ emittedTriangles c (c.addFace x y z face),
        ∀ t2 ∈ emittedTriangles c (c.addOptimizedFace x y z face 1 1 type),
          sameDirection t1.cross t2.cross) := by
  refine ⟨by decide, by decide, by decide, by decide, by decide, by decide, ?_⟩
  intro h
  have h1 := h unitChunk 0 0 0 Face.Right 1
    ⟨(addFaceQuad none 0 0 0 Face.Right 1).v1, (addFaceQuad none 0 0 0 Face.Right 1).v2,
      (addFaceQuad none 0 0 0 Face.Right 1).v3⟩ (by decide)
    ⟨(faceQuad none 0 0 0 Face.Right 1 1 1).v1, (faceQuad none 0 0 0 Face.Right 1 1 1).v2,
      (faceQuad none 0 0 0 Face.Right 1 1 1).v3⟩ (by decide)
  obtain ⟨k, m, hk, hm, he⟩ := h1
  simp only [Triangle.cross, addFaceQuad, faceQuad, Prod.mk.injEq] at he
  omega

/-- C14 (failing input): for `addOptimizedFace(0,0,0,Top,1,1,1)` both triangles have cross
product `(0,-1,0)` while the normal written into the vertices is `(0,1,0)`: the winding is
clockwise as seen from outside, so the claim fails; the Right, Left and Bottom faces are wound
the same inward way and only Front and Back are counter-clockwise from outside. -/
theorem addOptimizedFace_top_winding_inward :
    (emittedTriangles unitChunk (unitChunk.addOptimizedFace 0 0 0 Face.Top 1 1 1)).map
        (fun t => (t.cross, t.storedNormal)) =
        [((0, -1, 0), (0, 1, 0)), ((0, -1, 0), (0, 1, 0))] ∧
      (emittedTriangles unitChunk (unitChunk.addOptimizedFace 0 0 0 Face.Bottom 1 1 1)).map
        (fun t => (t.cross, t.storedNormal)) =
        [((0, 1, 0), (0, -1, 0)), ((0, 1, 0), (0, -1, 0))] ∧
      (emittedTriangles unitChunk (unitChunk.addOptimizedFace 0 0 0 Face.Right 1 1 1)).map
        (fun t => (t.cross, t.storedNormal)) =
        [((-1, 0, 0), (1, 0, 0)), ((-1, 0, 0), (1, 0, 0))] ∧
      (emittedTriangles unitChunk (unitChunk.addOptimizedFace 0 0 0 Face.Left 1 1 1)).map
        (fun t => (t.cross, t.storedNormal)) =
        [((1, 0, 0), (-1, 0, 0)), ((1, 0, 0), (-1, 0, 0))] ∧
      (emittedTriangles unitChunk (unitChunk.addOptimizedFace 0 0 0 Face.Front 1 1 1)).map
        (fun t => (t.cross, t.storedNormal)) =
        [((0, 0, -1), (0, 0, -1)), ((0, 0, -1), (0, 0, -1))] ∧
      (emittedTriangles unitChunk (unitChunk.addOptimizedFace 0 0 0 Face.Back 1 1 1)).map
        (fun t => (t.cross, t.storedNormal)) =
        [((0, 0, 1), (0, 0, 1)), ((0, 0, 1), (0, 0, 1))] ∧
      ¬ (∀ (c : VoxelChunk) (x y z : Int) (face : Face) (width height type : Int),
        0 < width → 0 < height →
        ∀ t ∈ emittedTriangles c (c.addOptimizedFace x y z face width height type),
          sameDirection t.cross t.storedNormal) := by
  refine ⟨by decide, by decide, by decide, by decide, by decide, by decide, ?_⟩
  intro h
  have h1 := h unitChunk 0 0 0 Face.Top 1 1 1 (by decide) (by decide)
    ⟨(faceQuad none 0 0 0 Face.Top 1 1 1).v1, (faceQuad none 0 0 0 Face.Top 1 1 1).v2,
      (faceQuad none 0 0 0 Face.Top 1 1 1).v3⟩ (by decide)
  obtain ⟨k, m, hk, hm, he⟩ := h1
  simp only [Triangle.cross, Triangle.storedNormal, faceQuad, Prod.mk.injEq] at he
  omega

/-- Winding of `addOptimizedFace` for all sizes: with positive `width` and `height` the cross
product of every emitted triangle points along the stored outward normal exactly for the Front
and Back faces. -/
theorem addOptimizedFace_outward_iff (c : VoxelChunk) (x y z : Int) (face : Face)
    (width height voxelType : Int) (hw : 0 < width) (hh : 0 < height) :
    ∀ t ∈ emittedTriangles c (c.addOptimizedFace x y z face width height voxelType),
      (sameDirection t.cross t.storedNormal ↔ face = Face.Front ∨ face = Face.Back) := by
  intro t ht
  obtain ⟨h1, h2⟩ := addOptimizedFace_winding c x y z face width height voxelType t ht
  have hpos : 0 < width * height := mul_pos hw hh
  rw [h1, h2]
  constructor
  · intro hs
    by_contra hne
    have hsign : optimizedWindingSign face = -1 := by
      cases face <;> first | rfl | (exact absurd (Or.inl rfl) hne) | (exact absurd (Or.inr rfl) hne)
    rw [hsign] at hs
    have hn : face.normal ≠ (0, 0, 0) := by cases face <;> decide
    exact not_sameDirection_neg face.normal (width * height) hpos hn
      (by simpa using hs)
  · intro hf
    have hsign : optimizedWindingSign face = 1 := by
      rcases hf with rfl | rfl <;> rfl
    rw [hsign]
    refine ⟨1, width * height, by decide, hpos, ?_⟩
    simp [scaleVec]

/-! ## Terrain fill -/

theorem writeCell_apply (d : Int → Int → Int → Int) (x y z t i j k : Int) :
    writeCell d x y z t i j k = if i = x ∧ j = y ∧ k = z then t else d i j k := rfl

theorem column_fold (v : Nat → Int) (a b : Nat) (n : Nat) (d : Int → Int → Int → Int)
    (x y z : Nat) :
    ((List.range n).foldl (fun d (y1 : Nat) => writeCell d a y1 b (v y1)) d) x y z =
      if a = x ∧ b = z ∧ y < n then v y else d x y z := by
  induction n with
  | zero => simp
  | succ n ih =>
    rw [List.range_succ, List.foldl_append, List.foldl_cons, List.foldl_nil, writeCell_apply]
    by_cases h : a = x ∧ b = z ∧ y = n
    · obtain ⟨rfl, rfl, rfl⟩ := h
      simp
    · have h2 : ¬ ((x : Int) = a ∧ (y : Int) = n ∧ (z : Int) = b) := by
        intro hh
        apply h
        omega
      rw [if_neg h2, ih]
      by_cases h3 : a = x ∧ b = z ∧ y < n
      · rw [if_pos h3, if_pos ⟨h3.1, h3.2.1, by omega⟩]
      · rw [if_neg h3, if_neg]
        intro hh
        apply h3
        refine ⟨hh.1, hh.2.1, ?_⟩
        have : y ≠ n := fun e => h ⟨hh.1, hh.2.1, e⟩
        omega

/-- One column step of `generateTerrain`, read at a cell of the chunk. -/
theorem terrainColumn_at (N : TerrainNoise) (bm : BiomeManager) (c : VoxelChunk)
    (d : Int → Int → Int → Int) (a b x y z : Nat) (hy : y < c.m_size) :
    (terrainColumn N bm c.m_size (Int.tdiv c.m_size 3)
        ((c.m_worldPosition.1 * (c.m_size : Int) : Int) : ℚ)
        ((c.m_worldPosition.2 * (c.m_size : Int) : Int) : ℚ) d a b) x y z =
      if a = x ∧ b = z then
        (match columnBiome bm c x z with
          | none => d x y z
          | some biome => terrainCell biome c.m_size
              (terrainHeight biome c.m_size (columnNoise N c x z)) y)
      else d x y z := by
  unfold terrainColumn
  by_cases hab : a = x ∧ b = z
  · obtain ⟨rfl, rfl⟩ := hab
    rw [if_pos ⟨rfl, rfl⟩]
    show (match columnBiome bm c a b with
      | none => d
      | some biome => _) (a : Int) (y : Int) (b : Int) = _
    cases hbio : columnBiome bm c a b with
    | none => rfl
    | some biome =>
      simp only
      have hfun : (fun (d : Int → Int → Int → Int) (y1 : Nat) =>
          if (y1 : Int) < terrainHeight biome c.m_size (columnNoise N c a b) then
            writeCell d a y1 b (biome.getVoxelType y1
              (terrainHeight biome c.m_size (columnNoise N c a b)) c.m_size)
          else if (y1 : Int) ≤ Int.tdiv c.m_size 3 ∧ biome.getType ≠ BiomeType.Desert then
            writeCell d a y1 b 3
          else writeCell d a y1 b 0) =
          fun d (y1 : Nat) => writeCell d a y1 b (terrainCell biome c.m_size
            (terrainHeight biome c.m_size (columnNoise N c a b)) y1) := by
        funext d y1
        unfold terrainCell
        split_ifs <;> rfl
      have hgoal := column_fold (fun y1 => terrainCell biome c.m_size
        (terrainHeight biome c.m_size (columnNoise N c a b)) y1) a b c.m_size d a y b
      rw [if_pos ⟨rfl, rfl, hy⟩] at hgoal
      rw [← hgoal, ← hfun]
      rfl
  · rw [if_neg hab]
    show (match columnBiome bm c a b with
      | none => d
      | some biome => _) (x : Int) (y : Int) (z : Int) = _
    cases hbio : columnBiome bm c a b with
    | none => rfl
    | some biome =>
      simp only
      have hfun : (fun (d : Int → Int → Int → Int) (y1 : Nat) =>
          if (y1 : Int) < terrainHeight biome c.m_size (columnNoise N c a b) then
            writeCell d a y1 b (biome.getVoxelType y1
              (terrainHeight biome c.m_size (columnNoise N c a b)) c.m_size)
          else if (y1 : Int) ≤ Int.tdiv c.m_size 3 ∧ biome.getType ≠ BiomeType.Desert then
            writeCell d a y1 b 3
          else writeCell d a y1 b 0) =
          fun d (y1 : Nat) => writeCell d a y1 b (terrainCell biome c.m_size
            (terrainHeight biome c.m_size (columnNoise N c a b)) y1) := by
        funext d y1
        unfold terrainCell
        split_ifs <;> rfl
      have hgoal := column_fold (fun y1 => terrainCell biome c.m_size
        (terrainHeight biome c.m_size (columnNoise N c a b)) y1) a b c.m_size d x y z
      rw [if_neg (fun h => hab ⟨h.1, h.2.1⟩)] at hgoal
      rw [← hgoal, ← hfun]
      rfl

theorem terrain_fold (N : TerrainNoise) (bm : BiomeManager) (c : VoxelChunk)
    (x y z : Nat) (hy : y < c.m_size) (ps : List (Nat × Nat)) (d : Int → Int → Int → Int) :
    (ps.foldl (fun d p => terrainColumn N bm c.m_size (Int.tdiv c.m_size 3)
        ((c.m_worldPosition.1 * (c.m_size : Int) : Int) : ℚ)
        ((c.m_worldPosition.2 * (c.m_size : Int) : Int) : ℚ) d p.1 p.2) d) x y z =
      if (x, z) ∈ ps then
        (match columnBiome bm c x z with
          | none => d x y z
          | some biome => terrainCell biome c.m_size
              (terrainHeight biome c.m_size (columnNoise N c x z)) y)
      else d x y z := by
  induction ps generalizing d with
  | nil => simp
  | cons q rest ih =>
    rw [List.foldl_cons, ih]
    have hstep := terrainColumn_at N bm c d q.1 q.2 x y z hy
    by_cases hq : q.1 = x ∧ q.2 = z
    · have hqe : q = (x, z) := Prod.ext hq.1 hq.2
      rw [if_pos hq] at hstep
      have hmem : (x, z) ∈ q :: rest := by
        rw [hqe]
        exact List.mem_cons_self _ _
      rw [if_pos hmem, hstep]
      cases hbio : columnBiome bm c x z with
      | none => simp
      | some biome => simp
    · rw [if_neg hq] at hstep
      rw [hstep]
      have hne : ¬ (x, z) = q := by
        intro h
        apply hq
        rw [← h]
        exact ⟨rfl, rfl⟩
      by_cases hr : (x, z) ∈ rest
      · rw [if_pos hr, if_pos (List.mem_cons_of_mem _ hr)]
      · rw [if_neg hr, if_neg]
        intro h
        rcases List.mem_cons.mp h with h | h
        · exact hne h
        · exact hr h

/-- What `generateTerrain` leaves in a cell of a chunk that has a biome manager: the value
of the `y` loop for the column's biome and height, or the old value when the biome lookup is
null. -/
theorem generateTerrain_cell (N : TerrainNoise) (c : VoxelChunk) (bm : BiomeManager)
    (hbm : c.m_biomeManager = some bm) (x y z : Nat)
    (hx : x < c.m_size) (hy : y < c.m_size) (hz : z < c.m_size) :
    (c.generateTerrain N).m_voxelData x y z =
      match columnBiome bm c x z with
      | none => c.m_voxelData x y z
      | some biome => terrainCell biome c.m_size
          (terrainHeight biome c.m_size (columnNoise N c x z)) y := by
  unfold VoxelChunk.generateTerrain
  rw [hbm]
  simp only [VoxelChunk.markForMeshUpdate]
  rw [nested_foldl_pairs]
  have h := terrain_fold N bm c x y z hy (planeCells c.m_size) c.m_voxelData
  rw [if_pos ((mem_planeCells c.m_size (x, z)).2 ⟨hx, hz⟩)] at h
  exact h

theorem generateTerrain_no_biomeManager (N : TerrainNoise) (c : VoxelChunk)
    (h : c.m_biomeManager = none) : c.generateTerrain N = c := by
  unfold VoxelChunk.generateTerrain
  rw [h]

/-- C16: for a chunk with no biome manager attached, `generateTerrain` returns the chunk
unchanged: the voxel grid, the dirty flag and the mesh buffers are the same after the call as
before it. -/
theorem generateTerrain_skips_without_biomeManager (N : TerrainNoise) (c : VoxelChunk)
    (h : c.m_biomeManager = none) :
    c.generateTerrain N = c ∧
      (c.generateTerrain N).m_voxelData = c.m_voxelData ∧
      (c.generateTerrain N).needsMeshUpdate = c.needsMeshUpdate ∧
      (c.generateTerrain N).m_vertices = c.m_vertices ∧
      (c.generateTerrain N).m_indices = c.m_indices ∧
      (c.generateTerrain N).m_indexCount = c.m_indexCount := by
  rw [generateTerrain_no_biomeManager N c h]
  exact ⟨rfl, rfl, rfl, rfl, rfl, rfl⟩

theorem generateTerrain_skips_without_biomeManager_witness :
    chunkA.m_biomeManager = none ∧ chunkA.generateTerrain zeroNoise = chunkA :=
  ⟨rfl, (generateTerrain_skips_without_biomeManager zeroNoise chunkA rfl).1⟩

/-- C15 (failing input): `generateTerrain` on a newly constructed `VoxelChunk(16)` returns it
unchanged, because no biome manager is attached, so `getVoxel` is `0` at every cell and the
grid has no solid voxel. -/
theorem generateTerrain_fresh_chunk_all_air (N : TerrainNoise) :
    (VoxelChunk.new 16).generateTerrain N = VoxelChunk.new 16 ∧
      (∀ x y z : Int, ((VoxelChunk.new 16).generateTerrain N).getVoxel x y z = 0) ∧
      ¬ (∃ x y z : Int, (0 ≤ x ∧ x < 16) ∧ (0 ≤ y ∧ y < 16) ∧ (0 ≤ z ∧ z < 16) ∧
        ((VoxelChunk.new 16).generateTerrain N).getVoxel x y z ≠ 0) := by
  have e := generateTerrain_no_biomeManager N (VoxelChunk.new 16) rfl
  have h0 : ∀ x y z : Int, ((VoxelChunk.new 16).generateTerrain N).getVoxel x y z = 0 := by
    intro x y z
    rw [e]
    unfold VoxelChunk.getVoxel
    split_ifs <;> rfl
  refine ⟨e, h0, ?_⟩
  rintro ⟨x, y, z, _, _, _, hne⟩
  exact hne (h0 x y z)

theorem plainsChunk_columnBiome (x z : Nat) :
    columnBiome (BiomeManager.new fun _ _ => 0) plainsChunk x z =
      some (Biome.new BiomeType.Plains 10 5) := by
  unfold columnBiome BiomeManager.getBiomeAt BiomeManager.new BiomeManager.initializeBiomes
  norm_num

theorem plainsChunk_columnNoise (x z : Nat) :
    columnNoise zeroNoise plainsChunk x z = 1 / 2 := by
  unfold columnNoise normalizedNoise zeroNoise
  norm_num

theorem plains_terrainHeight :
    terrainHeight (Biome.new BiomeType.Plains 10 5) 16 (1 / 2) = 15 := by
  unfold terrainHeight Biome.getBaseHeight Biome.getHeightVariation Biome.getType Biome.new
    VoxelChunk.truncToInt
  norm_num
  intro h
  exact absurd h (by decide)

theorem plains_specHeight :
    specHeight (Biome.new BiomeType.Plains 10 5) 16 (1 / 2) = 12 := by
  unfold specHeight Biome.getBaseHeight Biome.getHeightVariation Biome.new
    VoxelChunk.truncToInt
  norm_num

theorem plainsChunk_cell (x y z : Nat) (hx : x < 16) (hy : y < 16) (hz : z < 16) :
    (plainsChunk.generateTerrain zeroNoise).m_voxelData x y z =
      terrainCell (Biome.new BiomeType.Plains 10 5) 16 15 y := by
  have h := generateTerrain_cell zeroNoise plainsChunk (BiomeManager.new fun _ _ => 0) rfl
    x y z hx hy hz
  rw [plainsChunk_columnBiome, plainsChunk_columnNoise] at h
  simp only [] at h
  rw [h]
  show terrainCell _ 16 (terrainHeight _ 16 (1 / 2)) y = _
  rw [plains_terrainHeight]

theorem generateTerrain_size (N : TerrainNoise) (c : VoxelChunk) :
    (c.generateTerrain N).m_size = c.m_size := by
  unfold VoxelChunk.generateTerrain
  cases c.m_biomeManager <;> rfl

theorem plainsChunk_getVoxel (x y z : Nat) (hx : x < 16) (hy : y < 16) (hz : z < 16) :
    (plainsChunk.generateTerrain zeroNoise).getVoxel x y z =
      terrainCell (Biome.new BiomeType.Plains 10 5) 16 15 y := by
  rw [getVoxel_of_inRange, plainsChunk_cell x y z hx hy hz]
  unfold VoxelChunk.inRange
  rw [generateTerrain_size]
  have : plainsChunk.m_size = 16 := rfl
  rw [this]
  omega

theorem plains_cell_below (y : Nat) (hy : y < 15) :
    terrainCell (Biome.new BiomeType.Plains 10 5) 16 15 y = 1 := by
  unfold terrainCell Biome.getVoxelType
  have h1 : (y : Int) < 15 := by omega
  rw [if_pos h1]
  simp [Biome.new]

/-- C17 (failing input): in a chunk of size 16 whose column `(0, 0)` is filled with the Plains
biome (bedrock 5, subsurface 2, surface 1) and column height 15, every cell `y < 15` of the
column holds the surface block 1, the bottom cell included, where the stratification asks for
bedrock 5; `generateTerrain` calls `getVoxelType(y, height, m_size)` against the parameter
list `(x, y, height)`, and the call in the declared order gives bedrock at the bottom. -/
theorem terrain_column_not_stratified :
    columnBiome (BiomeManager.new fun _ _ => 0) plainsChunk 0 0 =
        some (Biome.new BiomeType.Plains 10 5) ∧
      terrainHeight (Biome.new BiomeType.Plains 10 5) 16
        (columnNoise zeroNoise plainsChunk 0 0) = 15 ∧
      (List.range 15).map
          (fun (y : Nat) => (plainsChunk.generateTerrain zeroNoise).getVoxel 0 y 0) =
        List.replicate 15 1 ∧
      (plainsChunk.generateTerrain zeroNoise).getVoxel 0 0 0 = 1 ∧
      specStratum (Biome.new BiomeType.Plains 10 5) 15 0 = 5 ∧
      (Biome.new BiomeType.Plains 10 5).getVoxelType 0 15 16 = 1 ∧
      (Biome.new BiomeType.Plains 10 5).getVoxelType 0 0 15 = 5 := by
  refine ⟨plainsChunk_columnBiome 0 0, ?_, ?_, ?_, by decide, by decide, by decide⟩
  · rw [plainsChunk_columnNoise]
    exact plains_terrainHeight
  · rw [List.eq_replicate_iff]
    refine ⟨by simp, ?_⟩
    intro b hb
    obtain ⟨y, hy, rfl⟩ := List.mem_map.1 hb
    have hy15 : y < 15 := List.mem_range.1 hy
    have h := plainsChunk_getVoxel 0 y 0 (by decide) (by omega) (by decide)
    rw [plains_cell_below y hy15] at h
    exact_mod_cast h
  · have h := plainsChunk_getVoxel 0 0 0 (by decide) (by decide) (by decide)
    rw [plains_cell_below 0 (by decide)] at h
    exact_mod_cast h

/-- C18 (failing input): for the Plains biome (`getBaseHeight = 10`, `getHeightVariation = 5`)
and normalised noise `1/2` in a chunk of size 16, `generateTerrain` uses column height 15,
because it multiplies both parameters by `m_size` before combining them, while
`baseHeight + n * heightVariation` with the biome's own parameters, truncated and clamped, is
12; the generated column is solid at `y = 14` and air at `y = 15`. -/
theorem terrain_height_scaled_by_size :
    (Biome.new BiomeType.Plains 10 5).getBaseHeight = 10 ∧
      (Biome.new BiomeType.Plains 10 5).getHeightVariation = 5 ∧
      columnNoise zeroNoise plainsChunk 0 0 = 1 / 2 ∧
      terrainHeight (Biome.new BiomeType.Plains 10 5) 16 (1 / 2) = 15 ∧
      specHeight (Biome.new BiomeType.Plains 10 5) 16 (1 / 2) = 12 ∧
      (plainsChunk.generateTerrain zeroNoise).getVoxel 0 14 0 = 1 ∧
      (plainsChunk.generateTerrain zeroNoise).getVoxel 0 15 0 = 0 := by
  refine ⟨rfl, rfl, plainsChunk_columnNoise 0 0, plains_terrainHeight, plains_specHeight, ?_, ?_⟩
  · have h := plainsChunk_getVoxel 0 14 0 (by decide) (by decide) (by decide)
    rw [plains_cell_below 14 (by decide)] at h
    exact_mod_cast h
  · have h := plainsChunk_getVoxel 0 15 0 (by decide) (by decide) (by decide)
    have h15 : terrainCell (Biome.new BiomeType.Plains 10 5) 16 15 15 = 0 := by decide
    rw [h15] at h
    exact_mod_cast h

/-! ## Texture lookup -/

theorem getTexCoords_unregistered (a : TextureAtlas) (blockType face : Int)
    (h : a.m_blockTiles blockType = none) : a.getTexCoords blockType face = ⟨0, 0, 1, 1⟩ := by
  unfold TextureAtlas.getTexCoords
  rw [h]

theorem registerBlock_other (a : TextureAtlas) (blockType other : Int) (l : List Int)
    (hne : other ≠ blockType) :
    (a.registerBlock other l).m_blockTiles blockType = a.m_blockTiles blockType := by
  unfold TextureAtlas.registerBlock
  split_ifs with h
  · rfl
  · show (if blockType = other then some l else a.m_blockTiles blockType) = _
    rw [if_neg (fun e => hne e.symm)]

theorem registerBlock_foldl_other (regs : List (Int × List Int)) (a : TextureAtlas)
    (blockType : Int) (hne : ∀ r ∈ regs, r.1 ≠ blockType) :
    (regs.foldl (fun a r => a.registerBlock r.1 r.2) a).m_blockTiles blockType =
      a.m_blockTiles blockType := by
  induction regs generalizing a with
  | nil => rfl
  | cons r rest ih =>
    rw [List.foldl_cons, ih _ (fun q hq => hne q (List.mem_cons_of_mem _ hq)),
      registerBlock_other a blockType r.1 r.2 (hne r (List.mem_cons_self _ _))]

theorem callQuad_none_uvs (f : FaceCall) :
    (callQuad none f).uvs = [(0, 0), (1, 0), (1, 1), (0, 1)] := by
  obtain ⟨fx, fy, fz, face, w, hgt, t⟩ := f
  cases face <;> rfl

/-- C19: for a block type that has no registration, `getTexCoords` returns the default
rectangle `(0,0,1,1)` for every face index and every tile size and atlas dimensions; this
covers the atlas as constructed (never initialised) and any atlas after registrations of other
block types; a chunk with no atlas attached uses `(0,0,1,1)` for the dummy quad, for every
call of `addOptimizedFace` and `addFace`, and hence for every quad of its mesh.  The lookup
returns before any division. -/
theorem unregistered_block_default_rect (a : TextureAtlas) (blockType face : Int)
    (h : a.m_blockTiles blockType = none) :
    a.getTexCoords blockType face = ⟨0, 0, 1, 1⟩ ∧
      TextureAtlas.new.getTexCoords blockType face = ⟨0, 0, 1, 1⟩ ∧
      (∀ (regs : List (Int × List Int)) (tileSize width height : Int),
        (∀ r ∈ regs, r.1 ≠ blockType) →
        ((regs.foldl (fun a r => a.registerBlock r.1 r.2) TextureAtlas.new).getTexCoords
            blockType face = ⟨0, 0, 1, 1⟩ ∧
          (regs.foldl (fun a r => a.registerBlock r.1 r.2)
            (TextureAtlas.new.initializeLoaded tileSize width height)).getTexCoords
            blockType face = ⟨0, 0, 1, 1⟩)) ∧
      (∀ (voxelType : Int) (f : Face), texCoordsRect none voxelType f = ⟨0, 0, 1, 1⟩) ∧
      (∀ c : VoxelChunk, c.m_textureAtlas = none →
        ∀ q ∈ quadsOf c.generateOptimizedMesh.m_vertices,
          q.uvs = [(0, 0), (1, 0), (1, 1), (0, 1)]) := by
  refine ⟨getTexCoords_unregistered a blockType face h,
    getTexCoords_unregistered _ blockType face rfl, ?_, fun _ _ => rfl, ?_⟩
  · intro regs tileSize width height hne
    constructor
    · apply getTexCoords_unregistered
      rw [registerBlock_foldl_other regs _ blockType hne]
      rfl
    · apply getTexCoords_unregistered
      rw [registerBlock_foldl_other regs _ blockType hne]
      rfl
  · intro c hc q hq
    rw [generateOptimizedMesh_quads, hc] at hq
    split_ifs at hq
    · rw [List.mem_singleton] at hq
      rw [hq]
      rfl
    · obtain ⟨f, _, rfl⟩ := List.mem_map.1 hq
      exact callQuad_none_uvs f

theorem unregistered_block_default_rect_witness :
    atlasTwoTiles.m_blockTiles 3 = none ∧ atlasTwoTiles.getTexCoords 3 4 = ⟨0, 0, 1, 1⟩ :=
  ⟨rfl, (unregistered_block_default_rect atlasTwoTiles 3 4 rfl).1⟩

/-- C20 (failing input): block type 9 is registered with the two tile indices `[0, 1]` in an
atlas with two tiles per row; `getTexCoords(9, 1)` uses the second index (rectangle
`(1/2, 0, 1, 1)`) while faces 0, 2, 3, 4 and 5 use the first (rectangle `(0, 0, 1/2, 1)`), so
the six faces do not all get the same tile rectangle. -/
theorem short_list_faces_differ :
    atlasTwoTiles.m_blockTiles 9 = some [0, 1] ∧
      atlasTwoTiles.getTexCoords 9 0 = ⟨0, 0, 1 / 2, 1⟩ ∧
      atlasTwoTiles.getTexCoords 9 1 = ⟨1 / 2, 0, 1, 1⟩ ∧
      atlasTwoTiles.getTexCoords 9 2 = ⟨0, 0, 1 / 2, 1⟩ ∧
      atlasTwoTiles.getTexCoords 9 3 = ⟨0, 0, 1 / 2, 1⟩ ∧
      atlasTwoTiles.getTexCoords 9 4 = ⟨0, 0, 1 / 2, 1⟩ ∧
      atlasTwoTiles.getTexCoords 9 5 = ⟨0, 0, 1 / 2, 1⟩ ∧
      atlasTwoTiles.getTexCoords 9 1 ≠ atlasTwoTiles.getTexCoords 9 0 := by
  have h9 : atlasTwoTiles.m_blockTiles 9 = some [0, 1] := rfl
  have hs : atlasTwoTiles.m_tileSize = 16 := rfl
  have hw : atlasTwoTiles.m_atlasWidth = 32 := rfl
  have hh : atlasTwoTiles.m_atlasHeight = 16 := rfl
  have hrow : Int.tdiv 32 16 = 2 := by decide
  have e0 : atlasTwoTiles.getTexCoords 9 0 = ⟨0, 0, 1 / 2, 1⟩ := by
    unfold TextureAtlas.getTexCoords
    rw [h9]
    simp only [hs, hw, hh, hrow]
    norm_num
  have hm1 : Int.tmod 1 2 = 1 := by decide
  have hd1 : Int.tdiv 1 2 = 0 := by decide
  have e1 : atlasTwoTiles.getTexCoords 9 1 = ⟨1 / 2, 0, 1, 1⟩ := by
    unfold TextureAtlas.getTexCoords
    rw [h9]
    simp only [hs, hw, hh, hrow]
    norm_num [hm1, hd1]
  have e2 : ∀ face : Int, 2 ≤ face → atlasTwoTiles.getTexCoords 9 face = ⟨0, 0, 1 / 2, 1⟩ := by
    intro face hf
    unfold TextureAtlas.getTexCoords
    rw [h9]
    simp only [hs, hw, hh, hrow]
    have hlt : ¬ face < (([0, 1] : List Int).length : Int) := by
      simp only [List.length_cons, List.length_nil]
      omega
    rw [if_neg hlt]
    norm_num
  refine ⟨h9, e0, e1, e2 2 (by decide), e2 3 (by decide), e2 4 (by decide), e2 5 (by decide), ?_⟩
  rw [e0, e1]
  intro h
  have hx := congrArg TexRect.x h
  norm_num at hx

/-! ## Single-precision rounding -/

theorem roundHalfEven_eq (y : ℚ) (m : Int) (h : |y - (m : ℚ)| < 1 / 2) : roundHalfEven y = m := by
  rw [abs_lt] at h
  obtain ⟨h1, h2⟩ := h
  unfold roundHalfEven
  by_cases hge : (m : ℚ) ≤ y
  · have hf : ⌊y⌋ = m := by
      rw [Int.floor_eq_iff]
      constructor
      · exact hge
      · linarith
    rw [hf, if_pos (by linarith)]
  · have hf : ⌊y⌋ = m - 1 := by
      rw [Int.floor_eq_iff]
      push_cast
      constructor
      · linarith
      · linarith
    rw [hf]
    push_cast
    rw [if_neg (by linarith), if_pos (by linarith)]
    ring

theorem roundHalfEven_err (y : ℚ) : |(roundHalfEven y : ℚ) - y| ≤ 1 / 2 := by
  have h1 := Int.floor_le y
  have h2 := Int.lt_floor_add_one y
  unfold roundHalfEven
  rw [abs_le]
  split_ifs with c1 c2 c3
  · constructor <;> linarith
  · push_cast
    constructor <;> linarith
  · constructor <;> linarith
  · push_cast
    constructor <;> linarith

theorem floatUlp_eq (x : ℚ) (q : Int) (hq : -149 ≤ q)
    (hlo : (2 : ℚ) ^ (q + 23) ≤ x) (hhi : x < (2 : ℚ) ^ (q + 24)) :
    floatUlp x = (2 : ℚ) ^ q := by
  have hpos : (0 : ℚ) < x := lt_of_lt_of_le (by positivity) hlo
  have habs : |x| = x := abs_of_pos hpos
  have h1 : q + 23 ≤ Int.log 2 x :=
    (Int.zpow_le_iff_le_log (by norm_num) hpos).1 (by exact_mod_cast hlo)
  have h2 : Int.log 2 x < q + 24 :=
    (Int.lt_zpow_iff_log_lt (by norm_num) hpos).1 (by exact_mod_cast hhi)
  unfold floatUlp
  rw [habs]
  congr 1
  omega

/-- Evaluation of the rounding: a positive `x` in the binade of spacing `2^q` that is closer
than half a spacing to `m * 2^q` rounds to `m * 2^q`. -/
theorem roundFloat_eq (x : ℚ) (q m : Int) (hq : -149 ≤ q)
    (hlo : (2 : ℚ) ^ (q + 23) ≤ x) (hhi : x < (2 : ℚ) ^ (q + 24))
    (hnear1 : (m : ℚ) * (2 : ℚ) ^ q - (2 : ℚ) ^ q / 2 < x)
    (hnear2 : x < (m : ℚ) * (2 : ℚ) ^ q + (2 : ℚ) ^ q / 2) :
    roundFloat x = (m : ℚ) * (2 : ℚ) ^ q := by
  have hu : (0 : ℚ) < (2 : ℚ) ^ q := by positivity
  unfold roundFloat
  rw [floatUlp_eq x q hq hlo hhi, roundHalfEven_eq (x / (2 : ℚ) ^ q) m]
  have e : x / (2 : ℚ) ^ q - (m : ℚ) = (x - (m : ℚ) * (2 : ℚ) ^ q) / (2 : ℚ) ^ q := by
    field_simp
    ring
  rw [e, abs_div, abs_of_pos hu, div_lt_iff₀ hu, abs_lt]
  constructor <;> linarith

theorem roundFloat_zero : roundFloat 0 = 0 := by
  simp [roundFloat, roundHalfEven]

/-- The rounding error is at most half a spacing. -/
theorem roundFloat_err (x : ℚ) : |roundFloat x - x| ≤ floatUlp x / 2 := by
  have hu : (0 : ℚ) < floatUlp x := by
    unfold floatUlp
    positivity
  have h := roundHalfEven_err (x / floatUlp x)
  unfold roundFloat
  have e : (roundHalfEven (x / floatUlp x) : ℚ) * floatUlp x - x =
      ((roundHalfEven (x / floatUlp x) : ℚ) - x / floatUlp x) * floatUlp x := by
    field_simp
  rw [e, abs_mul, abs_of_pos hu]
  calc |(roundHalfEven (x / floatUlp x) : ℚ) - x / floatUlp x| * floatUlp x
      ≤ 1 / 2 * floatUlp x := mul_le_mul_of_nonneg_right h (le_of_lt hu)
    _ = floatUlp x / 2 := by ring

/-- Below `2^20` a `float` operation loses at most `1/32`. -/
theorem roundFloat_ge (x : ℚ) (h0 : 0 < x) (h1 : x < 2 ^ 20) : x - 1 / 32 ≤ roundFloat x := by
  have hlog : Int.log 2 x < 20 :=
    (Int.lt_zpow_iff_log_lt (by norm_num) h0).1 (by exact_mod_cast h1)
  have hu : floatUlp x ≤ 1 / 16 := by
    unfold floatUlp
    rw [abs_of_pos h0]
    have hq : max (Int.log 2 x - 23) (-149) ≤ -4 := by
      rw [max_le_iff]
      constructor <;> omega
    calc (2 : ℚ) ^ max (Int.log 2 x - 23) (-149) ≤ (2 : ℚ) ^ (-4 : Int) :=
          zpow_le_zpow_right₀ (by norm_num) hq
      _ = 1 / 16 := by norm_num
  have herr := roundFloat_err x
  rw [abs_le] at herr
  linarith [herr.1]

/-! ## Voxel raycast -/

/-- A result of the loop is a voxel that passed the test of the loop body. -/
theorem raycastLoop_some_hits (app : Application) (start rayDir : Vec3) (maxDist : ℚ)
    (r : RaycastResult) :
    ∀ (fuel : Nat) (dist : ℚ) (prev : Vec3),
      app.raycastLoop start rayDir maxDist fuel dist prev = some (some r) →
      app.hitsVoxel r.voxelPos = true := by
  intro fuel
  induction fuel with
  | zero =>
    intro dist prev h
    simp [Application.raycastLoop] at h
  | succ fuel ih =>
    intro dist prev h
    rw [Application.raycastLoop] at h
    by_cases hlt : dist < maxDist
    · simp only [if_pos hlt] at h
      by_cases hh : app.hitsVoxel (voxelOf (rayPoint start rayDir dist)) = true
      · simp only [hh, if_true, Option.some.injEq] at h
        rw [← h]
        exact hh
      · simp only [hh, Bool.false_eq_true, if_false] at h
        exact ih _ _ h
    · simp only [if_neg hlt] at h
      simp at h

/-- The loop finishes with `std::nullopt` when the counter reaches `maxDist` at test `K` and no
sample before that hits. -/
theorem raycastLoop_miss (app : Application) (start rayDir : Vec3) (maxDist : ℚ) (K : Nat)
    (hK : ¬ distAt K < maxDist) :
    ∀ (fuel k : Nat) (prev : Vec3), k ≤ K → K < k + fuel →
      (∀ j, k ≤ j → j < K → distAt j < maxDist ∧
        app.hitsVoxel (voxelOf (raySample start rayDir j)) = false) →
      app.raycastLoop start rayDir maxDist fuel (distAt k) prev = some none := by
  intro fuel
  induction fuel with
  | zero =>
    intro k prev h1 h2 _
    omega
  | succ fuel ih =>
    intro k prev h1 h2 hmiss
    rw [Application.raycastLoop]
    by_cases hk : k = K
    · subst hk
      simp only [if_neg hK]
    · obtain ⟨hlt, hm⟩ := hmiss k (le_refl k) (by omega)
      unfold raySample at hm
      simp only [if_pos hlt, hm, Bool.false_eq_true, if_false]
      exact ih (k + 1) _ (by omega) (by omega) (fun j hj1 hj2 => hmiss j (by omega) hj2)

/-- The loop returns at the first sample that hits. -/
theorem raycastLoop_hit (app : Application) (start rayDir : Vec3) (maxDist : ℚ) (j0 : Nat)
    (hrun : ∀ j, j ≤ j0 → distAt j < maxDist)
    (hhit : app.hitsVoxel (voxelOf (raySample start rayDir j0)) = true) :
    ∀ (fuel k : Nat) (prev : Vec3), k ≤ j0 → j0 < k + fuel →
      (∀ j, k ≤ j → j < j0 → app.hitsVoxel (voxelOf (raySample start rayDir j)) = false) →
      app.raycastLoop start rayDir maxDist fuel (distAt k) prev =
        some (some ⟨voxelOf (raySample start rayDir j0),
          hitFaceNormal ((raySample start rayDir j0).sub
            (if j0 = k then prev else raySample start rayDir (j0 - 1)))⟩) := by
  intro fuel
  induction fuel with
  | zero =>
    intro k prev h1 h2 _
    omega
  | succ fuel ih =>
    intro k prev h1 h2 hmiss
    have hlt : distAt k < maxDist := hrun k h1
    rw [Application.raycastLoop]
    simp only [if_pos hlt]
    by_cases hk : j0 = k
    · subst hk
      have hh := hhit
      unfold raySample at hh
      simp only [hh, if_true]
      rfl
    · have hm := hmiss k (le_refl k) (by omega)
      unfold raySample at hm
      simp only [hm, Bool.false_eq_true, if_false]
      have hnext := ih (k + 1) (rayPoint start rayDir (distAt k)) (by omega) (by omega)
        (fun j hj1 hj2 => hmiss j (by omega) hj2)
      rw [show fadd (distAt k) stepSize = distAt (k + 1) from rfl, hnext]
      by_cases hk1 : j0 = k + 1
      · subst hk1
        simp only [if_true, if_neg hk, Nat.add_sub_cancel]
        rfl
      · simp only [if_neg hk1, if_neg hk]

theorem stepSize_ge : (3 : ℚ) / 32 ≤ stepSize := by
  unfold stepSize
  norm_num

/-- While the loop runs with `maxDist ≤ 2^20 - 1`, the counter grows by at least `1/16` at
every step. -/
theorem distAt_ge (maxDist : ℚ) (hmax : maxDist ≤ 1048575) :
    ∀ k : Nat, (∀ j, j < k → distAt j < maxDist) → (k : ℚ) / 16 ≤ distAt k := by
  intro k
  induction k with
  | zero =>
    intro _
    simp [distAt]
  | succ k ih =>
    intro hrun
    have hk := ih (fun j hj => hrun j (by omega))
    have hlt := hrun k (Nat.lt_succ_self k)
    have hnn : (0 : ℚ) ≤ (k : ℚ) / 16 := by positivity
    have hstep := stepSize_ge
    have hge := roundFloat_ge (distAt k + stepSize) (by linarith)
      (by
        have : stepSize < 1 := by
          unfold stepSize
          norm_num
        linarith)
    show ((k + 1 : Nat) : ℚ) / 16 ≤ roundFloat (distAt k + stepSize)
    push_cast
    linarith

theorem le_toNat_ceil (x : ℚ) : x ≤ ((⌈x⌉.toNat : Nat) : ℚ) := by
  have h3 : (⌈x⌉ : Int) ≤ ((⌈x⌉.toNat : Nat) : Int) := Int.self_le_toNat _
  calc x ≤ ((⌈x⌉ : Int) : ℚ) := Int.le_ceil x
    _ ≤ (((⌈x⌉.toNat : Nat) : Int) : ℚ) := by exact_mod_cast h3
    _ = ((⌈x⌉.toNat : Nat) : ℚ) := Int.cast_natCast _

/-- For `maxDist ≤ 2^20 - 1` the loop condition fails within `raycastFuel maxDist` tests. -/
theorem exists_loop_end (maxDist : ℚ) (hmax : maxDist ≤ 1048575) :
    ∃ K, K < raycastFuel maxDist ∧ ¬ distAt K < maxDist ∧ ∀ j, j < K → distAt j < maxDist := by
  classical
  have hex : ∃ K, ¬ distAt K < maxDist := by
    by_contra hno
    push_neg at hno
    have hge := distAt_ge maxDist hmax (⌈maxDist * 16⌉.toNat) (fun j _ => hno j)
    have hlt := hno (⌈maxDist * 16⌉.toNat)
    have h1 := le_toNat_ceil (maxDist * 16)
    linarith
  refine ⟨Nat.find hex, ?_, Nat.find_spec hex, ?_⟩
  · by_contra hbig
    have hrun : ∀ j, j < ⌈maxDist * 16⌉.toNat + 1 → distAt j < maxDist := by
      intro j hj
      by_contra hj2
      have := Nat.find_min' hex hj2
      unfold raycastFuel at hbig
      omega
    have hge := distAt_ge maxDist hmax (⌈maxDist * 16⌉.toNat) (fun j hj => hrun j (by omega))
    have hlt := hrun (⌈maxDist * 16⌉.toNat) (Nat.lt_succ_self _)
    have h1 := le_toNat_ceil (maxDist * 16)
    linarith
  · intro j hj
    by_contra hj2
    have := Nat.find_min' hex hj2
    omega

theorem prevSample_eq (start rayDir : Vec3) (k : Nat) :
    (if k = 0 then start else raySample start rayDir (k - 1)) = prevSample start rayDir k := by
  cases k with
  | zero => rfl
  | succ n => simp [prevSample]

theorem exists_first_hit (hit : Nat → Bool) (n : Nat) (h : ∃ k, k < n ∧ hit k = true) :
    ∃ k, k < n ∧ hit k = true ∧ ∀ j, j < k → hit j = false := by
  classical
  refine ⟨Nat.find h, (Nat.find_spec h).1, (Nat.find_spec h).2, ?_⟩
  intro j hj
  have hn := Nat.find_min h hj
  cases hh : hit j with
  | false => rfl
  | true => exact absurd ⟨by have := (Nat.find_spec h).1; omega, hh⟩ hn

/-- The value of the loop for every bound from `raycastFuel maxDist` on, when
`maxDist ≤ 2^20 - 1`: the first sample that hits while the counter is below `maxDist`, if there
is one. -/
theorem raycastLoop_result (app : Application) (start rayDir : Vec3) (maxDist : ℚ)
    (hmax : maxDist ≤ 1048575) (fuel : Nat) (hf : raycastFuel maxDist ≤ fuel) :
    (∀ k, (∀ j, j ≤ k → distAt j < maxDist) →
        app.hitsVoxel (voxelOf (raySample start rayDir k)) = true →
        (∀ j, j < k → app.hitsVoxel (voxelOf (raySample start rayDir j)) = false) →
        app.raycastLoop start rayDir maxDist fuel 0 start =
          some (some ⟨voxelOf (raySample start rayDir k),
            hitFaceNormal (stepVector start rayDir k)⟩)) ∧
      ((∀ k, (∀ j, j ≤ k → distAt j < maxDist) →
          app.hitsVoxel (voxelOf (raySample start rayDir k)) = false) →
        app.raycastLoop start rayDir maxDist fuel 0 start = some none) := by
  obtain ⟨K, hKf, hKend, hKrun⟩ := exists_loop_end maxDist hmax
  constructor
  · intro k hrun hhit hfirst
    have hkK : k < K := by
      by_contra hge
      exact hKend (hrun K (by omega))
    have h := raycastLoop_hit app start rayDir maxDist k hrun hhit fuel 0 start (Nat.zero_le k)
      (by omega) (fun j _ hj => hfirst j hj)
    rw [show distAt 0 = 0 from rfl] at h
    rw [h]
    have hp : (if k = 0 then start else raySample start rayDir (k - 1)) =
        prevSample start rayDir k := prevSample_eq start rayDir k
    rw [hp]
    rfl
  · intro hmiss
    have h := raycastLoop_miss app start rayDir maxDist K hKend fuel 0 start (Nat.zero_le K)
      (by omega)
      (fun j _ hj => ⟨hKrun j hj, hmiss j (fun i hi => hKrun i (by omega))⟩)
    rw [show distAt 0 = 0 from rfl] at h
    exact h

/-- The result of `raycastVoxel` for `maxDist ≤ 2^20 - 1`: the voxel of the first sample that
hits while the counter is below `maxDist`, with the face normal of the step vector there. -/
theorem raycastVoxel_eq_some_iff (normalize : Vec3 → Vec3) (app : Application)
    (start direction : Vec3) (maxDist : ℚ) (hmax : maxDist ≤ 1048575) (r : RaycastResult) :
    app.raycastVoxel normalize start direction maxDist = some r ↔
      ∃ k, (∀ j, j ≤ k → distAt j < maxDist) ∧
        app.hitsVoxel (voxelOf (raySample start (normalize direction) k)) = true ∧
        (∀ j, j < k →
          app.hitsVoxel (voxelOf (raySample start (normalize direction) j)) = false) ∧
        r = ⟨voxelOf (raySample start (normalize direction) k),
          hitFaceNormal (stepVector start (normalize direction) k)⟩ := by
  obtain ⟨hres1, hres2⟩ := raycastLoop_result app start (normalize direction) maxDist hmax
    (raycastFuel maxDist) (le_refl _)
  obtain ⟨K, _, hKend, hKrun⟩ := exists_loop_end maxDist hmax
  unfold Application.raycastVoxel
  constructor
  · intro h
    by_cases hex : ∃ k, k < K ∧
        app.hitsVoxel (voxelOf (raySample start (normalize direction) k)) = true
    · obtain ⟨k, hk, hhit, hfirst⟩ := exists_first_hit _ _ hex
      have hrun : ∀ j, j ≤ k → distAt j < maxDist := fun j hj => hKrun j (by omega)
      refine ⟨k, hrun, hhit, hfirst, ?_⟩
      rw [hres1 k hrun hhit hfirst] at h
      simpa using h.symm
    · have hmiss : ∀ k, (∀ j, j ≤ k → distAt j < maxDist) →
          app.hitsVoxel (voxelOf (raySample start (normalize direction) k)) = false := by
        intro k hrun
        have hkK : k < K := by
          by_contra hge
          exact hKend (hrun K (by omega))
        cases hh : app.hitsVoxel (voxelOf (raySample start (normalize direction) k)) with
        | false => rfl
        | true => exact absurd ⟨k, hkK, hh⟩ hex
      rw [hres2 hmiss] at h
      simp at h
  · rintro ⟨k, hrun, hhit, hfirst, rfl⟩
    rw [hres1 k hrun hhit hfirst]
    rfl

theorem raycastVoxel_eq_none_iff (normalize : Vec3 → Vec3) (app : Application)
    (start direction : Vec3) (maxDist : ℚ) (hmax : maxDist ≤ 1048575) :
    app.raycastVoxel normalize start direction maxDist = none ↔
      ∀ k, (∀ j, j ≤ k → distAt j < maxDist) →
        app.hitsVoxel (voxelOf (raySample start (normalize direction) k)) = false := by
  obtain ⟨K, _, hKend, hKrun⟩ := exists_loop_end maxDist hmax
  constructor
  · intro h k hrun
    have hkK : k < K := by
      by_contra hge
      exact hKend (hrun K (by omega))
    cases hh : app.hitsVoxel (voxelOf (raySample start (normalize direction) k)) with
    | false => rfl
    | true =>
      obtain ⟨k1, hk1, hhit, hfirst⟩ := exists_first_hit
        (fun k => app.hitsVoxel (voxelOf (raySample start (normalize direction) k)))
        K ⟨k, hkK, hh⟩
      have hs := (raycastVoxel_eq_some_iff normalize app start direction maxDist hmax _).2
        ⟨k1, fun j hj => hKrun j (by omega), hhit, hfirst, rfl⟩
      rw [h] at hs
      exact absurd hs (by simp)
  · intro hmiss
    unfold Application.raycastVoxel
    rw [(raycastLoop_result app start (normalize direction) maxDist hmax
      (raycastFuel maxDist) (le_refl _)).2 hmiss]
    rfl

/-- The loop of `raycastVoxel` finishes for `maxDist ≤ 2^20 - 1`: every bound from
`raycastFuel maxDist` on gives the result of `raycastVoxel`. -/
theorem raycastLoop_finishes (normalize : Vec3 → Vec3) (app : Application)
    (start direction : Vec3) (maxDist : ℚ) (hmax : maxDist ≤ 1048575) (fuel : Nat)
    (hf : raycastFuel maxDist ≤ fuel) :
    app.raycastLoop start (normalize direction) maxDist fuel 0 start =
      some (app.raycastVoxel normalize start direction maxDist) := by
  obtain ⟨hres1, hres2⟩ :=
    raycastLoop_result app start (normalize direction) maxDist hmax fuel hf
  cases hr : app.raycastVoxel normalize start direction maxDist with
  | none =>
    exact hres2 ((raycastVoxel_eq_none_iff normalize app start direction maxDist hmax).1 hr)
  | some r =>
    obtain ⟨k, hrun, hhit, hfirst, rfl⟩ :=
      (raycastVoxel_eq_some_iff normalize app start direction maxDist hmax r).1 hr
    exact hres1 k hrun hhit hfirst

/-- A hit returned by `raycastVoxel` is a voxel that passed the test of the loop body. -/
theorem raycastVoxel_some_hits (normalize : Vec3 → Vec3) (app : Application)
    (start direction : Vec3) (maxDist : ℚ) (r : RaycastResult)
    (h : app.raycastVoxel normalize start direction maxDist = some r) :
    app.hitsVoxel r.voxelPos = true := by
  unfold Application.raycastVoxel at h
  cases hl : app.raycastLoop start (normalize direction) maxDist (raycastFuel maxDist) 0 start with
  | none =>
    rw [hl] at h
    simp at h
  | some res =>
    rw [hl] at h
    cases res with
    | none => simp at h
    | some r1 =>
      have hr : r1 = r := by simpa using h
      subst hr
      exact raycastLoop_some_hits app start (normalize direction) maxDist r1 _ _ _ hl

theorem hitsVoxel_iff_specSolid (app : Application) (p : Int × Int × Int)
    (hx : |p.1| < 2 ^ 24) (hz : |p.2.2| < 2 ^ 24) :
    app.hitsVoxel p = true ↔ specSolidVoxel app p := by
  obtain ⟨x, y, z⟩ := p
  simp only [Application.hitsVoxel, Application.getChunkFromWorldPos, specSolidVoxel,
    worldToLocal_eq_emod, CHUNK_SIZE]
  rw [worldToChunk_eq_ediv x hx, worldToChunk_eq_ediv z hz]
  by_cases hy : y < 0 ∨ y ≥ ((16 : Nat) : Int)
  · rw [if_pos hy]
    cases app.m_loadedChunks (x / 16, z / 16) with
    | none => simp
    | some chunk =>
      simp only [Bool.false_eq_true, false_iff, not_and]
      intro h1 h2
      simp only [Nat.cast_ofNat] at hy
      omega
  · rw [if_neg hy]
    cases app.m_loadedChunks (x / 16, z / 16) with
    | none => simp
    | some chunk =>
      simp only [Nat.cast_ofNat] at hy
      simp only [bne_iff_ne, ne_eq]
      constructor
      · intro h
        exact ⟨by omega, by omega, h⟩
      · intro h
        exact h.2.2

/-! ## Evaluating samples of the ray -/

theorem rayPoint_eval (start rayDir : Vec3) (dist px py pz x y z : ℚ)
    (hpx : roundFloat (rayDir.x * dist) = px) (hx : roundFloat (start.x + px) = x)
    (hpy : roundFloat (rayDir.y * dist) = py) (hy : roundFloat (start.y + py) = y)
    (hpz : roundFloat (rayDir.z * dist) = pz) (hz : roundFloat (start.z + pz) = z) :
    rayPoint start rayDir dist = ⟨x, y, z⟩ := by
  simp only [rayPoint, fadd, fmul, hpx, hx, hpy, hy, hpz, hz]

theorem sub_eval (a b : Vec3) (x y z : ℚ) (hx : roundFloat (a.x - b.x) = x)
    (hy : roundFloat (a.y - b.y) = y) (hz : roundFloat (a.z - b.z) = z) :
    a.sub b = ⟨x, y, z⟩ := by
  simp only [Vec3.sub, fsub, hx, hy, hz]

theorem distAt_0 : distAt 0 = 0 := rfl

theorem distAt_1 : distAt 1 = 13421773 / 134217728 := by
  show roundFloat (distAt 0 + stepSize) = 13421773 / 134217728
  rw [distAt_0, stepSize]
  rw [roundFloat_eq _ (-27) 13421773 (by norm_num) (by norm_num) (by norm_num) (by norm_num)
    (by norm_num)]
  norm_num

theorem distAt_2 : distAt 2 = 13421773 / 67108864 := by
  show roundFloat (distAt 1 + stepSize) = 13421773 / 67108864
  rw [distAt_1, stepSize]
  rw [roundFloat_eq _ (-26) 13421773 (by norm_num) (by norm_num) (by norm_num) (by norm_num)
    (by norm_num)]
  norm_num

theorem distAt_3 : distAt 3 = 5033165 / 16777216 := by
  show roundFloat (distAt 2 + stepSize) = 5033165 / 16777216
  rw [distAt_2, stepSize]
  rw [roundFloat_eq _ (-25) 10066330 (by norm_num) (by norm_num) (by norm_num) (by norm_num)
    (by norm_num)]
  norm_num

theorem distAt_4 : distAt 4 = 13421773 / 33554432 := by
  show roundFloat (distAt 3 + stepSize) = 13421773 / 33554432
  rw [distAt_3, stepSize]
  rw [roundFloat_eq _ (-25) 13421773 (by norm_num) (by norm_num) (by norm_num) (by norm_num)
    (by norm_num)]
  norm_num

theorem distAt_5 : distAt 5 = 1 / 2 := by
  show roundFloat (distAt 4 + stepSize) = 1 / 2
  rw [distAt_4, stepSize]
  rw [roundFloat_eq _ (-24) 8388608 (by norm_num) (by norm_num) (by norm_num) (by norm_num)
    (by norm_num)]
  norm_num

theorem distAt_6 : distAt 6 = 5033165 / 8388608 := by
  show roundFloat (distAt 5 + stepSize) = 5033165 / 8388608
  rw [distAt_5, stepSize]
  rw [roundFloat_eq _ (-24) 10066330 (by norm_num) (by norm_num) (by norm_num) (by norm_num)
    (by norm_num)]
  norm_num

theorem distAt_7 : distAt 7 = 2936013 / 4194304 := by
  show roundFloat (distAt 6 + stepSize) = 2936013 / 4194304
  rw [distAt_6, stepSize]
  rw [roundFloat_eq _ (-24) 11744052 (by norm_num) (by norm_num) (by norm_num) (by norm_num)
    (by norm_num)]
  norm_num

theorem distAt_8 : distAt 8 = 6710887 / 8388608 := by
  show roundFloat (distAt 7 + stepSize) = 6710887 / 8388608
  rw [distAt_7, stepSize]
  rw [roundFloat_eq _ (-24) 13421774 (by norm_num) (by norm_num) (by norm_num) (by norm_num)
    (by norm_num)]
  norm_num

theorem distAt_9 : distAt 9 = 1887437 / 2097152 := by
  show roundFloat (distAt 8 + stepSize) = 1887437 / 2097152
  rw [distAt_8, stepSize]
  rw [roundFloat_eq _ (-24) 15099496 (by norm_num) (by norm_num) (by norm_num) (by norm_num)
    (by norm_num)]
  norm_num

theorem distAt_10 : distAt 10 = 8388609 / 8388608 := by
  show roundFloat (distAt 9 + stepSize) = 8388609 / 8388608
  rw [distAt_9, stepSize]
  rw [roundFloat_eq _ (-23) 8388609 (by norm_num) (by norm_num) (by norm_num) (by norm_num)
    (by norm_num)]
  norm_num

theorem distAt_11 : distAt 11 = 4613735 / 4194304 := by
  show roundFloat (distAt 10 + stepSize) = 4613735 / 4194304
  rw [distAt_10, stepSize]
  rw [roundFloat_eq _ (-23) 9227470 (by norm_num) (by norm_num) (by norm_num) (by norm_num)
    (by norm_num)]
  norm_num

theorem distAt_12 : distAt 12 = 10066331 / 8388608 := by
  show roundFloat (distAt 11 + stepSize) = 10066331 / 8388608
  rw [distAt_11, stepSize]
  rw [roundFloat_eq _ (-23) 10066331 (by norm_num) (by norm_num) (by norm_num) (by norm_num)
    (by norm_num)]
  norm_num

theorem distAt_13 : distAt 13 = 1363149 / 1048576 := by
  show roundFloat (distAt 12 + stepSize) = 1363149 / 1048576
  rw [distAt_12, stepSize]
  rw [roundFloat_eq _ (-23) 10905192 (by norm_num) (by norm_num) (by norm_num) (by norm_num)
    (by norm_num)]
  norm_num

theorem distAt_14 : distAt 14 = 11744053 / 8388608 := by
  show roundFloat (distAt 13 + stepSize) = 11744053 / 8388608
  rw [distAt_13, stepSize]
  rw [roundFloat_eq _ (-23) 11744053 (by norm_num) (by norm_num) (by norm_num) (by norm_num)
    (by norm_num)]
  norm_num

theorem distAt_15 : distAt 15 = 6291457 / 4194304 := by
  show roundFloat (distAt 14 + stepSize) = 6291457 / 4194304
  rw [distAt_14, stepSize]
  rw [roundFloat_eq _ (-23) 12582914 (by norm_num) (by norm_num) (by norm_num) (by norm_num)
    (by norm_num)]
  norm_num

theorem distAt_16 : distAt 16 = 13421775 / 8388608 := by
  show roundFloat (distAt 15 + stepSize) = 13421775 / 8388608
  rw [distAt_15, stepSize]
  rw [roundFloat_eq _ (-23) 13421775 (by norm_num) (by norm_num) (by norm_num) (by norm_num)
    (by norm_num)]
  norm_num

theorem distAt_17 : distAt 17 = 3565159 / 2097152 := by
  show roundFloat (distAt 16 + stepSize) = 3565159 / 2097152
  rw [distAt_16, stepSize]
  rw [roundFloat_eq _ (-23) 14260636 (by norm_num) (by norm_num) (by norm_num) (by norm_num)
    (by norm_num)]
  norm_num

theorem distAt_18 : distAt 18 = 15099497 / 8388608 := by
  show roundFloat (distAt 17 + stepSize) = 15099497 / 8388608
  rw [distAt_17, stepSize]
  rw [roundFloat_eq _ (-23) 15099497 (by norm_num) (by norm_num) (by norm_num) (by norm_num)
    (by norm_num)]
  norm_num

theorem distAt_19 : distAt 19 = 7969179 / 4194304 := by
  show roundFloat (distAt 18 + stepSize) = 7969179 / 4194304
  rw [distAt_18, stepSize]
  rw [roundFloat_eq _ (-23) 15938358 (by norm_num) (by norm_num) (by norm_num) (by norm_num)
    (by norm_num)]
  norm_num

theorem distAt_20 : distAt 20 = 8388609 / 4194304 := by
  show roundFloat (distAt 19 + stepSize) = 8388609 / 4194304
  rw [distAt_19, stepSize]
  rw [roundFloat_eq _ (-22) 8388609 (by norm_num) (by norm_num) (by norm_num) (by norm_num)
    (by norm_num)]
  norm_num

theorem distAt_21 : distAt 21 = 8808039 / 4194304 := by
  show roundFloat (distAt 20 + stepSize) = 8808039 / 4194304
  rw [distAt_20, stepSize]
  rw [roundFloat_eq _ (-22) 8808039 (by norm_num) (by norm_num) (by norm_num) (by norm_num)
    (by norm_num)]
  norm_num

theorem distAt_22 : distAt 22 = 9227469 / 4194304 := by
  show roundFloat (distAt 21 + stepSize) = 9227469 / 4194304
  rw [distAt_21, stepSize]
  rw [roundFloat_eq _ (-22) 9227469 (by norm_num) (by norm_num) (by norm_num) (by norm_num)
    (by norm_num)]
  norm_num

theorem distAt_23 : distAt 23 = 9646899 / 4194304 := by
  show roundFloat (distAt 22 + stepSize) = 9646899 / 4194304
  rw [distAt_22, stepSize]
  rw [roundFloat_eq _ (-22) 9646899 (by norm_num) (by norm_num) (by norm_num) (by norm_num)
    (by norm_num)]
  norm_num

theorem distAt_24 : distAt 24 = 10066329 / 4194304 := by
  show roundFloat (distAt 23 + stepSize) = 10066329 / 4194304
  rw [distAt_23, stepSize]
  rw [roundFloat_eq _ (-22) 10066329 (by norm_num) (by norm_num) (by norm_num) (by norm_num)
    (by norm_num)]
  norm_num

theorem distAt_25 : distAt 25 = 10485759 / 4194304 := by
  show roundFloat (distAt 24 + stepSize) = 10485759 / 4194304
  rw [distAt_24, stepSize]
  rw [roundFloat_eq _ (-22) 10485759 (by norm_num) (by norm_num) (by norm_num) (by norm_num)
    (by norm_num)]
  norm_num

theorem distAt_26 : distAt 26 = 10905189 / 4194304 := by
  show roundFloat (distAt 25 + stepSize) = 10905189 / 4194304
  rw [distAt_25, stepSize]
  rw [roundFloat_eq _ (-22) 10905189 (by norm_num) (by norm_num) (by norm_num) (by norm_num)
    (by norm_num)]
  norm_num

theorem distAt_27 : distAt 27 = 11324619 / 4194304 := by
  show roundFloat (distAt 26 + stepSize) = 11324619 / 4194304
  rw [distAt_26, stepSize]
  rw [roundFloat_eq _ (-22) 11324619 (by norm_num) (by norm_num) (by norm_num) (by norm_num)
    (by norm_num)]
  norm_num

theorem distAt_28 : distAt 28 = 11744049 / 4194304 := by
  show roundFloat (distAt 27 + stepSize) = 11744049 / 4194304
  rw [distAt_27, stepSize]
  rw [roundFloat_eq _ (-22) 11744049 (by norm_num) (by norm_num) (by norm_num) (by norm_num)
    (by norm_num)]
  norm_num

theorem distAt_29 : distAt 29 = 12163479 / 4194304 := by
  show roundFloat (distAt 28 + stepSize) = 12163479 / 4194304
  rw [distAt_28, stepSize]
  rw [roundFloat_eq _ (-22) 12163479 (by norm_num) (by norm_num) (by norm_num) (by norm_num)
    (by norm_num)]
  norm_num

theorem distAt_30 : distAt 30 = 12582909 / 4194304 := by
  show roundFloat (distAt 29 + stepSize) = 12582909 / 4194304
  rw [distAt_29, stepSize]
  rw [roundFloat_eq _ (-22) 12582909 (by norm_num) (by norm_num) (by norm_num) (by norm_num)
    (by norm_num)]
  norm_num

theorem twoBlock_sample_0 : raySample ⟨3 / 2, 15938355 / 16777216, 1 / 2⟩ ⟨13421773 / 16777216,
    5033165 / 8388608, 0⟩ 0 = ⟨3 / 2, 15938355 / 16777216, 1 / 2⟩ := by
  rw [raySample, distAt_0]
  refine rayPoint_eval _ _ _ 0 0 0 (3 / 2) (15938355 / 16777216) (1 / 2) ?_ ?_ ?_ ?_ ?_ ?_
  · show roundFloat (13421773 / 16777216 * 0) = 0
    norm_num [roundFloat_zero]
  · show roundFloat (3 / 2 + 0) = 3 / 2
    rw [roundFloat_eq _ (-23) 12582912 (by norm_num) (by norm_num) (by norm_num) (by norm_num)
      (by norm_num)]
    norm_num
  · show roundFloat (5033165 / 8388608 * 0) = 0
    norm_num [roundFloat_zero]
  · show roundFloat (15938355 / 16777216 + 0) = 15938355 / 16777216
    rw [roundFloat_eq _ (-24) 15938355 (by norm_num) (by norm_num) (by norm_num) (by norm_num)
      (by norm_num)]
    norm_num
  · show roundFloat (0 * 0) = 0
    norm_num [roundFloat_zero]
  · show roundFloat (1 / 2 + 0) = 1 / 2
    rw [roundFloat_eq _ (-24) 8388608 (by norm_num) (by norm_num) (by norm_num) (by norm_num)
      (by norm_num)]
    norm_num

theorem twoBlock_sample_1 : raySample ⟨3 / 2, 15938355 / 16777216, 1 / 2⟩ ⟨13421773 / 16777216,
    5033165 / 8388608, 0⟩ 1 = ⟨13254001 / 8388608, 4236247 / 4194304, 1 / 2⟩ := by
  rw [raySample, distAt_1]
  refine rayPoint_eval _ _ _ (10737419 / 134217728) (1006633 / 16777216) 0 (13254001 / 8388608)
      (4236247 / 4194304) (1 / 2) ?_ ?_ ?_ ?_ ?_ ?_
  · show roundFloat (13421773 / 16777216 * (13421773 / 134217728)) = 10737419 / 134217728
    rw [roundFloat_eq _ (-27) 10737419 (by norm_num) (by norm_num) (by norm_num) (by norm_num)
      (by norm_num)]
    norm_num
  · show roundFloat (3 / 2 + (10737419 / 134217728)) = 13254001 / 8388608
    rw [roundFloat_eq _ (-23) 13254001 (by norm_num) (by norm_num) (by norm_num) (by norm_num)
      (by norm_num)]
    norm_num
  · show roundFloat (5033165 / 8388608 * (13421773 / 134217728)) = 1006633 / 16777216
    rw [roundFloat_eq _ (-28) 16106128 (by norm_num) (by norm_num) (by norm_num) (by norm_num)
      (by norm_num)]
    norm_num
  · show roundFloat (15938355 / 16777216 + (1006633 / 16777216)) = 4236247 / 4194304
    rw [roundFloat_eq _ (-23) 8472494 (by norm_num) (by norm_num) (by norm_num) (by norm_num)
      (by norm_num)]
    norm_num
  · show roundFloat (0 * (13421773 / 134217728)) = 0
    norm_num [roundFloat_zero]
  · show roundFloat (1 / 2 + 0) = 1 / 2
    rw [roundFloat_eq _ (-24) 8388608 (by norm_num) (by norm_num) (by norm_num) (by norm_num)
      (by norm_num)]
    norm_num

theorem twoBlock_step_1 : stepVector ⟨3 / 2, 15938355 / 16777216, 1 / 2⟩ ⟨13421773 / 16777216,
    5033165 / 8388608, 0⟩ 1 = ⟨671089 / 8388608, 1006633 / 16777216, 0⟩ := by
  show (raySample ⟨3 / 2, 15938355 / 16777216, 1 / 2⟩ ⟨13421773 / 16777216, 5033165 / 8388608, 0⟩
      1).sub (raySample ⟨3 / 2, 15938355 / 16777216, 1 / 2⟩ ⟨13421773 / 16777216, 5033165 /
      8388608, 0⟩ 0) = _
  rw [twoBlock_sample_1, twoBlock_sample_0]
  refine sub_eval _ _ (671089 / 8388608) (1006633 / 16777216) 0 ?_ ?_ ?_
  · show roundFloat (13254001 / 8388608 - (3 / 2)) = 671089 / 8388608
    rw [roundFloat_eq _ (-27) 10737424 (by norm_num) (by norm_num) (by norm_num) (by norm_num)
      (by norm_num)]
    norm_num
  · show roundFloat (4236247 / 4194304 - (15938355 / 16777216)) = 1006633 / 16777216
    rw [roundFloat_eq _ (-28) 16106128 (by norm_num) (by norm_num) (by norm_num) (by norm_num)
      (by norm_num)]
    norm_num
  · show roundFloat (1 / 2 - (1 / 2)) = 0
    norm_num [roundFloat_zero]

theorem farBlock_sample_0 : raySample ⟨13421773 / 268435456, 1 / 2, 1 / 2⟩ ⟨1, 0, 0⟩ 0 = ⟨13421773
    / 268435456, 1 / 2, 1 / 2⟩ := by
  rw [raySample, distAt_0]
  refine rayPoint_eval _ _ _ 0 0 0 (13421773 / 268435456) (1 / 2) (1 / 2) ?_ ?_ ?_ ?_ ?_ ?_
  · show roundFloat (1 * 0) = 0
    norm_num [roundFloat_zero]
  · show roundFloat (13421773 / 268435456 + 0) = 13421773 / 268435456
    rw [roundFloat_eq _ (-28) 13421773 (by norm_num) (by norm_num) (by norm_num) (by norm_num)
      (by norm_num)]
    norm_num
  · show roundFloat (0 * 0) = 0
    norm_num [roundFloat_zero]
  · show roundFloat (1 / 2 + 0) = 1 / 2
    rw [roundFloat_eq _ (-24) 8388608 (by norm_num) (by norm_num) (by norm_num) (by norm_num)
      (by norm_num)]
    norm_num
  · show roundFloat (0 * 0) = 0
    norm_num [roundFloat_zero]
  · show roundFloat (1 / 2 + 0) = 1 / 2
    rw [roundFloat_eq _ (-24) 8388608 (by norm_num) (by norm_num) (by norm_num) (by norm_num)
      (by norm_num)]
    norm_num

theorem farBlock_sample_1 : raySample ⟨13421773 / 268435456, 1 / 2, 1 / 2⟩ ⟨1, 0, 0⟩ 1 = ⟨5033165 /
    33554432, 1 / 2, 1 / 2⟩ := by
  rw [raySample, distAt_1]
  refine rayPoint_eval _ _ _ (13421773 / 134217728) 0 0 (5033165 / 33554432) (1 / 2) (1 / 2) ?_ ?_
      ?_ ?_ ?_ ?_
  · show roundFloat (1 * (13421773 / 134217728)) = 13421773 / 134217728
    rw [roundFloat_eq _ (-27) 13421773 (by norm_num) (by norm_num) (by norm_num) (by norm_num)
      (by norm_num)]
    norm_num
  · show roundFloat (13421773 / 268435456 + (13421773 / 134217728)) = 5033165 / 33554432
    rw [roundFloat_eq _ (-26) 10066330 (by norm_num) (by norm_num) (by norm_num) (by norm_num)
      (by norm_num)]
    norm_num
  · show roundFloat (0 * (13421773 / 134217728)) = 0
    norm_num [roundFloat_zero]
  · show roundFloat (1 / 2 + 0) = 1 / 2
    rw [roundFloat_eq _ (-24) 8388608 (by norm_num) (by norm_num) (by norm_num) (by norm_num)
      (by norm_num)]
    norm_num
  · show roundFloat (0 * (13421773 / 134217728)) = 0
    norm_num [roundFloat_zero]
  · show roundFloat (1 / 2 + 0) = 1 / 2
    rw [roundFloat_eq _ (-24) 8388608 (by norm_num) (by norm_num) (by norm_num) (by norm_num)
      (by norm_num)]
    norm_num

theorem farBlock_sample_2 : raySample ⟨13421773 / 268435456, 1 / 2, 1 / 2⟩ ⟨1, 0, 0⟩ 2 = ⟨1 / 4, 1
    / 2, 1 / 2⟩ := by
  rw [raySample, distAt_2]
  refine rayPoint_eval _ _ _ (13421773 / 67108864) 0 0 (1 / 4) (1 / 2) (1 / 2) ?_ ?_ ?_ ?_ ?_ ?_
  · show roundFloat (1 * (13421773 / 67108864)) = 13421773 / 67108864
    rw [roundFloat_eq _ (-26) 13421773 (by norm_num) (by norm_num) (by norm_num) (by norm_num)
      (by norm_num)]
    norm_num
  · show roundFloat (13421773 / 268435456 + (13421773 / 67108864)) = 1 / 4
    rw [roundFloat_eq _ (-25) 8388608 (by norm_num) (by norm_num) (by norm_num) (by norm_num)
      (by norm_num)]
    norm_num
  · show roundFloat (0 * (13421773 / 67108864)) = 0
    norm_num [roundFloat_zero]
  · show roundFloat (1 / 2 + 0) = 1 / 2
    rw [roundFloat_eq _ (-24) 8388608 (by norm_num) (by norm_num) (by norm_num) (by norm_num)
      (by norm_num)]
    norm_num
  · show roundFloat (0 * (13421773 / 67108864)) = 0
    norm_num [roundFloat_zero]
  · show roundFloat (1 / 2 + 0) = 1 / 2
    rw [roundFloat_eq _ (-24) 8388608 (by norm_num) (by norm_num) (by norm_num) (by norm_num)
      (by norm_num)]
    norm_num

theorem farBlock_sample_3 : raySample ⟨13421773 / 268435456, 1 / 2, 1 / 2⟩ ⟨1, 0, 0⟩ 3 = ⟨2936013 /
    8388608, 1 / 2, 1 / 2⟩ := by
  rw [raySample, distAt_3]
  refine rayPoint_eval _ _ _ (5033165 / 16777216) 0 0 (2936013 / 8388608) (1 / 2) (1 / 2) ?_ ?_ ?_
      ?_ ?_ ?_
  · show roundFloat (1 * (5033165 / 16777216)) = 5033165 / 16777216
    rw [roundFloat_eq _ (-25) 10066330 (by norm_num) (by norm_num) (by norm_num) (by norm_num)
      (by norm_num)]
    norm_num
  · show roundFloat (13421773 / 268435456 + (5033165 / 16777216)) = 2936013 / 8388608
    rw [roundFloat_eq _ (-25) 11744052 (by norm_num) (by norm_num) (by norm_num) (by norm_num)
      (by norm_num)]
    norm_num
  · show roundFloat (0 * (5033165 / 16777216)) = 0
    norm_num [roundFloat_zero]
  · show roundFloat (1 / 2 + 0) = 1 / 2
    rw [roundFloat_eq _ (-24) 8388608 (by norm_num) (by norm_num) (by norm_num) (by norm_num)
      (by norm_num)]
    norm_num
  · show roundFloat (0 * (5033165 / 16777216)) = 0
    norm_num [roundFloat_zero]
  · show roundFloat (1 / 2 + 0) = 1 / 2
    rw [roundFloat_eq _ (-24) 8388608 (by norm_num) (by norm_num) (by norm_num) (by norm_num)
      (by norm_num)]
    norm_num

theorem farBlock_sample_4 : raySample ⟨13421773 / 268435456, 1 / 2, 1 / 2⟩ ⟨1, 0, 0⟩ 4 = ⟨15099495
    / 33554432, 1 / 2, 1 / 2⟩ := by
  rw [raySample, distAt_4]
  refine rayPoint_eval _ _ _ (13421773 / 33554432) 0 0 (15099495 / 33554432) (1 / 2) (1 / 2) ?_ ?_
      ?_ ?_ ?_ ?_
  · show roundFloat (1 * (13421773 / 33554432)) = 13421773 / 33554432
    rw [roundFloat_eq _ (-25) 13421773 (by norm_num) (by norm_num) (by norm_num) (by norm_num)
      (by norm_num)]
    norm_num
  · show roundFloat (13421773 / 268435456 + (13421773 / 33554432)) = 15099495 / 33554432
    rw [roundFloat_eq _ (-25) 15099495 (by norm_num) (by norm_num) (by norm_num) (by norm_num)
      (by norm_num)]
    norm_num
  · show roundFloat (0 * (13421773 / 33554432)) = 0
    norm_num [roundFloat_zero]
  · show roundFloat (1 / 2 + 0) = 1 / 2
    rw [roundFloat_eq _ (-24) 8388608 (by norm_num) (by norm_num) (by norm_num) (by norm_num)
      (by norm_num)]
    norm_num
  · show roundFloat (0 * (13421773 / 33554432)) = 0
    norm_num [roundFloat_zero]
  · show roundFloat (1 / 2 + 0) = 1 / 2
    rw [roundFloat_eq _ (-24) 8388608 (by norm_num) (by norm_num) (by norm_num) (by norm_num)
      (by norm_num)]
    norm_num

theorem farBlock_sample_5 : raySample ⟨13421773 / 268435456, 1 / 2, 1 / 2⟩ ⟨1, 0, 0⟩ 5 = ⟨9227469 /
    16777216, 1 / 2, 1 / 2⟩ := by
  rw [raySample, distAt_5]
  refine rayPoint_eval _ _ _ (1 / 2) 0 0 (9227469 / 16777216) (1 / 2) (1 / 2) ?_ ?_ ?_ ?_ ?_ ?_
  · show roundFloat (1 * (1 / 2)) = 1 / 2
    rw [roundFloat_eq _ (-24) 8388608 (by norm_num) (by norm_num) (by norm_num) (by norm_num)
      (by norm_num)]
    norm_num
  · show roundFloat (13421773 / 268435456 + (1 / 2)) = 9227469 / 16777216
    rw [roundFloat_eq _ (-24) 9227469 (by norm_num) (by norm_num) (by norm_num) (by norm_num)
      (by norm_num)]
    norm_num
  · show roundFloat (0 * (1 / 2)) = 0
    norm_num [roundFloat_zero]
  · show roundFloat (1 / 2 + 0) = 1 / 2
    rw [roundFloat_eq _ (-24) 8388608 (by norm_num) (by norm_num) (by norm_num) (by norm_num)
      (by norm_num)]
    norm_num
  · show roundFloat (0 * (1 / 2)) = 0
    norm_num [roundFloat_zero]
  · show roundFloat (1 / 2 + 0) = 1 / 2
    rw [roundFloat_eq _ (-24) 8388608 (by norm_num) (by norm_num) (by norm_num) (by norm_num)
      (by norm_num)]
    norm_num

theorem farBlock_sample_6 : raySample ⟨13421773 / 268435456, 1 / 2, 1 / 2⟩ ⟨1, 0, 0⟩ 6 = ⟨10905191
    / 16777216, 1 / 2, 1 / 2⟩ := by
  rw [raySample, distAt_6]
  refine rayPoint_eval _ _ _ (5033165 / 8388608) 0 0 (10905191 / 16777216) (1 / 2) (1 / 2) ?_ ?_ ?_
      ?_ ?_ ?_
  · show roundFloat (1 * (5033165 / 8388608)) = 5033165 / 8388608
    rw [roundFloat_eq _ (-24) 10066330 (by norm_num) (by norm_num) (by norm_num) (by norm_num)
      (by norm_num)]
    norm_num
  · show roundFloat (13421773 / 268435456 + (5033165 / 8388608)) = 10905191 / 16777216
    rw [roundFloat_eq _ (-24) 10905191 (by norm_num) (by norm_num) (by norm_num) (by norm_num)
      (by norm_num)]
    norm_num
  · show roundFloat (0 * (5033165 / 8388608)) = 0
    norm_num [roundFloat_zero]
  · show roundFloat (1 / 2 + 0) = 1 / 2
    rw [roundFloat_eq _ (-24) 8388608 (by norm_num) (by norm_num) (by norm_num) (by norm_num)
      (by norm_num)]
    norm_num
  · show roundFloat (0 * (5033165 / 8388608)) = 0
    norm_num [roundFloat_zero]
  · show roundFloat (1 / 2 + 0) = 1 / 2
    rw [roundFloat_eq _ (-24) 8388608 (by norm_num) (by norm_num) (by norm_num) (by norm_num)
      (by norm_num)]
    norm_num

theorem farBlock_sample_7 : raySample ⟨13421773 / 268435456, 1 / 2, 1 / 2⟩ ⟨1, 0, 0⟩ 7 = ⟨12582913
    / 16777216, 1 / 2, 1 / 2⟩ := by
  rw [raySample, distAt_7]
  refine rayPoint_eval _ _ _ (2936013 / 4194304) 0 0 (12582913 / 16777216) (1 / 2) (1 / 2) ?_ ?_ ?_
      ?_ ?_ ?_
  · show roundFloat (1 * (2936013 / 4194304)) = 2936013 / 4194304
    rw [roundFloat_eq _ (-24) 11744052 (by norm_num) (by norm_num) (by norm_num) (by norm_num)
      (by norm_num)]
    norm_num
  · show roundFloat (13421773 / 268435456 + (2936013 / 4194304)) = 12582913 / 16777216
    rw [roundFloat_eq _ (-24) 12582913 (by norm_num) (by norm_num) (by norm_num) (by norm_num)
      (by norm_num)]
    norm_num
  · show roundFloat (0 * (2936013 / 4194304)) = 0
    norm_num [roundFloat_zero]
  · show roundFloat (1 / 2 + 0) = 1 / 2
    rw [roundFloat_eq _ (-24) 8388608 (by norm_num) (by norm_num) (by norm_num) (by norm_num)
      (by norm_num)]
    norm_num
  · show roundFloat (0 * (2936013 / 4194304)) = 0
    norm_num [roundFloat_zero]
  · show roundFloat (1 / 2 + 0) = 1 / 2
    rw [roundFloat_eq _ (-24) 8388608 (by norm_num) (by norm_num) (by norm_num) (by norm_num)
      (by norm_num)]
    norm_num

theorem farBlock_sample_8 : raySample ⟨13421773 / 268435456, 1 / 2, 1 / 2⟩ ⟨1, 0, 0⟩ 8 = ⟨14260635
    / 16777216, 1 / 2, 1 / 2⟩ := by
  rw [raySample, distAt_8]
  refine rayPoint_eval _ _ _ (6710887 / 8388608) 0 0 (14260635 / 16777216) (1 / 2) (1 / 2) ?_ ?_ ?_
      ?_ ?_ ?_
  · show roundFloat (1 * (6710887 / 8388608)) = 6710887 / 8388608
    rw [roundFloat_eq _ (-24) 13421774 (by norm_num) (by norm_num) (by norm_num) (by norm_num)
      (by norm_num)]
    norm_num
  · show roundFloat (13421773 / 268435456 + (6710887 / 8388608)) = 14260635 / 16777216
    rw [roundFloat_eq _ (-24) 14260635 (by norm_num) (by norm_num) (by norm_num) (by norm_num)
      (by norm_num)]
    norm_num
  · show roundFloat (0 * (6710887 / 8388608)) = 0
    norm_num [roundFloat_zero]
  · show roundFloat (1 / 2 + 0) = 1 / 2
    rw [roundFloat_eq _ (-24) 8388608 (by norm_num) (by norm_num) (by norm_num) (by norm_num)
      (by norm_num)]
    norm_num
  · show roundFloat (0 * (6710887 / 8388608)) = 0
    norm_num [roundFloat_zero]
  · show roundFloat (1 / 2 + 0) = 1 / 2
    rw [roundFloat_eq _ (-24) 8388608 (by norm_num) (by norm_num) (by norm_num) (by norm_num)
      (by norm_num)]
    norm_num

theorem farBlock_sample_9 : raySample ⟨13421773 / 268435456, 1 / 2, 1 / 2⟩ ⟨1, 0, 0⟩ 9 = ⟨15938357
    / 16777216, 1 / 2, 1 / 2⟩ := by
  rw [raySample, distAt_9]
  refine rayPoint_eval _ _ _ (1887437 / 2097152) 0 0 (15938357 / 16777216) (1 / 2) (1 / 2) ?_ ?_ ?_
      ?_ ?_ ?_
  · show roundFloat (1 * (1887437 / 2097152)) = 1887437 / 2097152
    rw [roundFloat_eq _ (-24) 15099496 (by norm_num) (by norm_num) (by norm_num) (by norm_num)
      (by norm_num)]
    norm_num
  · show roundFloat (13421773 / 268435456 + (1887437 / 2097152)) = 15938357 / 16777216
    rw [roundFloat_eq _ (-24) 15938357 (by norm_num) (by norm_num) (by norm_num) (by norm_num)
      (by norm_num)]
    norm_num
  · show roundFloat (0 * (1887437 / 2097152)) = 0
    norm_num [roundFloat_zero]
  · show roundFloat (1 / 2 + 0) = 1 / 2
    rw [roundFloat_eq _ (-24) 8388608 (by norm_num) (by norm_num) (by norm_num) (by norm_num)
      (by norm_num)]
    norm_num
  · show roundFloat (0 * (1887437 / 2097152)) = 0
    norm_num [roundFloat_zero]
  · show roundFloat (1 / 2 + 0) = 1 / 2
    rw [roundFloat_eq _ (-24) 8388608 (by norm_num) (by norm_num) (by norm_num) (by norm_num)
      (by norm_num)]
    norm_num

theorem farBlock_sample_10 : raySample ⟨13421773 / 268435456, 1 / 2, 1 / 2⟩ ⟨1, 0, 0⟩ 10 = ⟨8808039
    / 8388608, 1 / 2, 1 / 2⟩ := by
  rw [raySample, distAt_10]
  refine rayPoint_eval _ _ _ (8388609 / 8388608) 0 0 (8808039 / 8388608) (1 / 2) (1 / 2) ?_ ?_ ?_
      ?_ ?_ ?_
  · show roundFloat (1 * (8388609 / 8388608)) = 8388609 / 8388608
    rw [roundFloat_eq _ (-23) 8388609 (by norm_num) (by norm_num) (by norm_num) (by norm_num)
      (by norm_num)]
    norm_num
  · show roundFloat (13421773 / 268435456 + (8388609 / 8388608)) = 8808039 / 8388608
    rw [roundFloat_eq _ (-23) 8808039 (by norm_num) (by norm_num) (by norm_num) (by norm_num)
      (by norm_num)]
    norm_num
  · show roundFloat (0 * (8388609 / 8388608)) = 0
    norm_num [roundFloat_zero]
  · show roundFloat (1 / 2 + 0) = 1 / 2
    rw [roundFloat_eq _ (-24) 8388608 (by norm_num) (by norm_num) (by norm_num) (by norm_num)
      (by norm_num)]
    norm_num
  · show roundFloat (0 * (8388609 / 8388608)) = 0
    norm_num [roundFloat_zero]
  · show roundFloat (1 / 2 + 0) = 1 / 2
    rw [roundFloat_eq _ (-24) 8388608 (by norm_num) (by norm_num) (by norm_num) (by norm_num)
      (by norm_num)]
    norm_num

theorem farBlock_sample_11 : raySample ⟨13421773 / 268435456, 1 / 2, 1 / 2⟩ ⟨1, 0, 0⟩ 11 = ⟨2411725
    / 2097152, 1 / 2, 1 / 2⟩ := by
  rw [raySample, distAt_11]
  refine rayPoint_eval _ _ _ (4613735 / 4194304) 0 0 (2411725 / 2097152) (1 / 2) (1 / 2) ?_ ?_ ?_
      ?_ ?_ ?_
  · show roundFloat (1 * (4613735 / 4194304)) = 4613735 / 4194304
    rw [roundFloat_eq _ (-23) 9227470 (by norm_num) (by norm_num) (by norm_num) (by norm_num)
      (by norm_num)]
    norm_num
  · show roundFloat (13421773 / 268435456 + (4613735 / 4194304)) = 2411725 / 2097152
    rw [roundFloat_eq _ (-23) 9646900 (by norm_num) (by norm_num) (by norm_num) (by norm_num)
      (by norm_num)]
    norm_num
  · show roundFloat (0 * (4613735 / 4194304)) = 0
    norm_num [roundFloat_zero]
  · show roundFloat (1 / 2 + 0) = 1 / 2
    rw [roundFloat_eq _ (-24) 8388608 (by norm_num) (by norm_num) (by norm_num) (by norm_num)
      (by norm_num)]
    norm_num
  · show roundFloat (0 * (4613735 / 4194304)) = 0
    norm_num [roundFloat_zero]
  · show roundFloat (1 / 2 + 0) = 1 / 2
    rw [roundFloat_eq _ (-24) 8388608 (by norm_num) (by norm_num) (by norm_num) (by norm_num)
      (by norm_num)]
    norm_num

theorem farBlock_sample_12 : raySample ⟨13421773 / 268435456, 1 / 2, 1 / 2⟩ ⟨1, 0, 0⟩ 12 =
    ⟨10485761 / 8388608, 1 / 2, 1 / 2⟩ := by
  rw [raySample, distAt_12]
  refine rayPoint_eval _ _ _ (10066331 / 8388608) 0 0 (10485761 / 8388608) (1 / 2) (1 / 2) ?_ ?_ ?_
      ?_ ?_ ?_
  · show roundFloat (1 * (10066331 / 8388608)) = 10066331 / 8388608
    rw [roundFloat_eq _ (-23) 10066331 (by norm_num) (by norm_num) (by norm_num) (by norm_num)
      (by norm_num)]
    norm_num
  · show roundFloat (13421773 / 268435456 + (10066331 / 8388608)) = 10485761 / 8388608
    rw [roundFloat_eq _ (-23) 10485761 (by norm_num) (by norm_num) (by norm_num) (by norm_num)
      (by norm_num)]
    norm_num
  · show roundFloat (0 * (10066331 / 8388608)) = 0
    norm_num [roundFloat_zero]
  · show roundFloat (1 / 2 + 0) = 1 / 2
    rw [roundFloat_eq _ (-24) 8388608 (by norm_num) (by norm_num) (by norm_num) (by norm_num)
      (by norm_num)]
    norm_num
  · show roundFloat (0 * (10066331 / 8388608)) = 0
    norm_num [roundFloat_zero]
  · show roundFloat (1 / 2 + 0) = 1 / 2
    rw [roundFloat_eq _ (-24) 8388608 (by norm_num) (by norm_num) (by norm_num) (by norm_num)
      (by norm_num)]
    norm_num

theorem farBlock_sample_13 : raySample ⟨13421773 / 268435456, 1 / 2, 1 / 2⟩ ⟨1, 0, 0⟩ 13 = ⟨5662311
    / 4194304, 1 / 2, 1 / 2⟩ := by
  rw [raySample, distAt_13]
  refine rayPoint_eval _ _ _ (1363149 / 1048576) 0 0 (5662311 / 4194304) (1 / 2) (1 / 2) ?_ ?_ ?_
      ?_ ?_ ?_
  · show roundFloat (1 * (1363149 / 1048576)) = 1363149 / 1048576
    rw [roundFloat_eq _ (-23) 10905192 (by norm_num) (by norm_num) (by norm_num) (by norm_num)
      (by norm_num)]
    norm_num
  · show roundFloat (13421773 / 268435456 + (1363149 / 1048576)) = 5662311 / 4194304
    rw [roundFloat_eq _ (-23) 11324622 (by norm_num) (by norm_num) (by norm_num) (by norm_num)
      (by norm_num)]
    norm_num
  · show roundFloat (0 * (1363149 / 1048576)) = 0
    norm_num [roundFloat_zero]
  · show roundFloat (1 / 2 + 0) = 1 / 2
    rw [roundFloat_eq _ (-24) 8388608 (by norm_num) (by norm_num) (by norm_num) (by norm_num)
      (by norm_num)]
    norm_num
  · show roundFloat (0 * (1363149 / 1048576)) = 0
    norm_num [roundFloat_zero]
  · show roundFloat (1 / 2 + 0) = 1 / 2
    rw [roundFloat_eq _ (-24) 8388608 (by norm_num) (by norm_num) (by norm_num) (by norm_num)
      (by norm_num)]
    norm_num

theorem farBlock_sample_14 : raySample ⟨13421773 / 268435456, 1 / 2, 1 / 2⟩ ⟨1, 0, 0⟩ 14 =
    ⟨12163483 / 8388608, 1 / 2, 1 / 2⟩ := by
  rw [raySample, distAt_14]
  refine rayPoint_eval _ _ _ (11744053 / 8388608) 0 0 (12163483 / 8388608) (1 / 2) (1 / 2) ?_ ?_ ?_
      ?_ ?_ ?_
  · show roundFloat (1 * (11744053 / 8388608)) = 11744053 / 8388608
    rw [roundFloat_eq _ (-23) 11744053 (by norm_num) (by norm_num) (by norm_num) (by norm_num)
      (by norm_num)]
    norm_num
  · show roundFloat (13421773 / 268435456 + (11744053 / 8388608)) = 12163483 / 8388608
    rw [roundFloat_eq _ (-23) 12163483 (by norm_num) (by norm_num) (by norm_num) (by norm_num)
      (by norm_num)]
    norm_num
  · show roundFloat (0 * (11744053 / 8388608)) = 0
    norm_num [roundFloat_zero]
  · show roundFloat (1 / 2 + 0) = 1 / 2
    rw [roundFloat_eq _ (-24) 8388608 (by norm_num) (by norm_num) (by norm_num) (by norm_num)
      (by norm_num)]
    norm_num
  · show roundFloat (0 * (11744053 / 8388608)) = 0
    norm_num [roundFloat_zero]
  · show roundFloat (1 / 2 + 0) = 1 / 2
    rw [roundFloat_eq _ (-24) 8388608 (by norm_num) (by norm_num) (by norm_num) (by norm_num)
      (by norm_num)]
    norm_num

theorem farBlock_sample_15 : raySample ⟨13421773 / 268435456, 1 / 2, 1 / 2⟩ ⟨1, 0, 0⟩ 15 = ⟨1625293
    / 1048576, 1 / 2, 1 / 2⟩ := by
  rw [raySample, distAt_15]
  refine rayPoint_eval _ _ _ (6291457 / 4194304) 0 0 (1625293 / 1048576) (1 / 2) (1 / 2) ?_ ?_ ?_
      ?_ ?_ ?_
  · show roundFloat (1 * (6291457 / 4194304)) = 6291457 / 4194304
    rw [roundFloat_eq _ (-23) 12582914 (by norm_num) (by norm_num) (by norm_num) (by norm_num)
      (by norm_num)]
    norm_num
  · show roundFloat (13421773 / 268435456 + (6291457 / 4194304)) = 1625293 / 1048576
    rw [roundFloat_eq _ (-23) 13002344 (by norm_num) (by norm_num) (by norm_num) (by norm_num)
      (by norm_num)]
    norm_num
  · show roundFloat (0 * (6291457 / 4194304)) = 0
    norm_num [roundFloat_zero]
  · show roundFloat (1 / 2 + 0) = 1 / 2
    rw [roundFloat_eq _ (-24) 8388608 (by norm_num) (by norm_num) (by norm_num) (by norm_num)
      (by norm_num)]
    norm_num
  · show roundFloat (0 * (6291457 / 4194304)) = 0
    norm_num [roundFloat_zero]
  · show roundFloat (1 / 2 + 0) = 1 / 2
    rw [roundFloat_eq _ (-24) 8388608 (by norm_num) (by norm_num) (by norm_num) (by norm_num)
      (by norm_num)]
    norm_num

theorem farBlock_sample_16 : raySample ⟨13421773 / 268435456, 1 / 2, 1 / 2⟩ ⟨1, 0, 0⟩ 16 =
    ⟨13841205 / 8388608, 1 / 2, 1 / 2⟩ := by
  rw [raySample, distAt_16]
  refine rayPoint_eval _ _ _ (13421775 / 8388608) 0 0 (13841205 / 8388608) (1 / 2) (1 / 2) ?_ ?_ ?_
      ?_ ?_ ?_
  · show roundFloat (1 * (13421775 / 8388608)) = 13421775 / 8388608
    rw [roundFloat_eq _ (-23) 13421775 (by norm_num) (by norm_num) (by norm_num) (by norm_num)
      (by norm_num)]
    norm_num
  · show roundFloat (13421773 / 268435456 + (13421775 / 8388608)) = 13841205 / 8388608
    rw [roundFloat_eq _ (-23) 13841205 (by norm_num) (by norm_num) (by norm_num) (by norm_num)
      (by norm_num)]
    norm_num
  · show roundFloat (0 * (13421775 / 8388608)) = 0
    norm_num [roundFloat_zero]
  · show roundFloat (1 / 2 + 0) = 1 / 2
    rw [roundFloat_eq _ (-24) 8388608 (by norm_num) (by norm_num) (by norm_num) (by norm_num)
      (by norm_num)]
    norm_num
  · show roundFloat (0 * (13421775 / 8388608)) = 0
    norm_num [roundFloat_zero]
  · show roundFloat (1 / 2 + 0) = 1 / 2
    rw [roundFloat_eq _ (-24) 8388608 (by norm_num) (by norm_num) (by norm_num) (by norm_num)
      (by norm_num)]
    norm_num

theorem farBlock_sample_17 : raySample ⟨13421773 / 268435456, 1 / 2, 1 / 2⟩ ⟨1, 0, 0⟩ 17 = ⟨7340033
    / 4194304, 1 / 2, 1 / 2⟩ := by
  rw [raySample, distAt_17]
  refine rayPoint_eval _ _ _ (3565159 / 2097152) 0 0 (7340033 / 4194304) (1 / 2) (1 / 2) ?_ ?_ ?_
      ?_ ?_ ?_
  · show roundFloat (1 * (3565159 / 2097152)) = 3565159 / 2097152
    rw [roundFloat_eq _ (-23) 14260636 (by norm_num) (by norm_num) (by norm_num) (by norm_num)
      (by norm_num)]
    norm_num
  · show roundFloat (13421773 / 268435456 + (3565159 / 2097152)) = 7340033 / 4194304
    rw [roundFloat_eq _ (-23) 14680066 (by norm_num) (by norm_num) (by norm_num) (by norm_num)
      (by norm_num)]
    norm_num
  · show roundFloat (0 * (3565159 / 2097152)) = 0
    norm_num [roundFloat_zero]
  · show roundFloat (1 / 2 + 0) = 1 / 2
    rw [roundFloat_eq _ (-24) 8388608 (by norm_num) (by norm_num) (by norm_num) (by norm_num)
      (by norm_num)]
    norm_num
  · show roundFloat (0 * (3565159 / 2097152)) = 0
    norm_num [roundFloat_zero]
  · show roundFloat (1 / 2 + 0) = 1 / 2
    rw [roundFloat_eq _ (-24) 8388608 (by norm_num) (by norm_num) (by norm_num) (by norm_num)
      (by norm_num)]
    norm_num

theorem farBlock_sample_18 : raySample ⟨13421773 / 268435456, 1 / 2, 1 / 2⟩ ⟨1, 0, 0⟩ 18 =
    ⟨15518927 / 8388608, 1 / 2, 1 / 2⟩ := by
  rw [raySample, distAt_18]
  refine rayPoint_eval _ _ _ (15099497 / 8388608) 0 0 (15518927 / 8388608) (1 / 2) (1 / 2) ?_ ?_ ?_
      ?_ ?_ ?_
  · show roundFloat (1 * (15099497 / 8388608)) = 15099497 / 8388608
    rw [roundFloat_eq _ (-23) 15099497 (by norm_num) (by norm_num) (by norm_num) (by norm_num)
      (by norm_num)]
    norm_num
  · show roundFloat (13421773 / 268435456 + (15099497 / 8388608)) = 15518927 / 8388608
    rw [roundFloat_eq _ (-23) 15518927 (by norm_num) (by norm_num) (by norm_num) (by norm_num)
      (by norm_num)]
    norm_num
  · show roundFloat (0 * (15099497 / 8388608)) = 0
    norm_num [roundFloat_zero]
  · show roundFloat (1 / 2 + 0) = 1 / 2
    rw [roundFloat_eq _ (-24) 8388608 (by norm_num) (by norm_num) (by norm_num) (by norm_num)
      (by norm_num)]
    norm_num
  · show roundFloat (0 * (15099497 / 8388608)) = 0
    norm_num [roundFloat_zero]
  · show roundFloat (1 / 2 + 0) = 1 / 2
    rw [roundFloat_eq _ (-24) 8388608 (by norm_num) (by norm_num) (by norm_num) (by norm_num)
      (by norm_num)]
    norm_num

theorem farBlock_sample_19 : raySample ⟨13421773 / 268435456, 1 / 2, 1 / 2⟩ ⟨1, 0, 0⟩ 19 = ⟨4089447
    / 2097152, 1 / 2, 1 / 2⟩ := by
  rw [raySample, distAt_19]
  refine rayPoint_eval _ _ _ (7969179 / 4194304) 0 0 (4089447 / 2097152) (1 / 2) (1 / 2) ?_ ?_ ?_
      ?_ ?_ ?_
  · show roundFloat (1 * (7969179 / 4194304)) = 7969179 / 4194304
    rw [roundFloat_eq _ (-23) 15938358 (by norm_num) (by norm_num) (by norm_num) (by norm_num)
      (by norm_num)]
    norm_num
  · show roundFloat (13421773 / 268435456 + (7969179 / 4194304)) = 4089447 / 2097152
    rw [roundFloat_eq _ (-23) 16357788 (by norm_num) (by norm_num) (by norm_num) (by norm_num)
      (by norm_num)]
    norm_num
  · show roundFloat (0 * (7969179 / 4194304)) = 0
    norm_num [roundFloat_zero]
  · show roundFloat (1 / 2 + 0) = 1 / 2
    rw [roundFloat_eq _ (-24) 8388608 (by norm_num) (by norm_num) (by norm_num) (by norm_num)
      (by norm_num)]
    norm_num
  · show roundFloat (0 * (7969179 / 4194304)) = 0
    norm_num [roundFloat_zero]
  · show roundFloat (1 / 2 + 0) = 1 / 2
    rw [roundFloat_eq _ (-24) 8388608 (by norm_num) (by norm_num) (by norm_num) (by norm_num)
      (by norm_num)]
    norm_num

theorem farBlock_sample_20 : raySample ⟨13421773 / 268435456, 1 / 2, 1 / 2⟩ ⟨1, 0, 0⟩ 20 = ⟨2149581
    / 1048576, 1 / 2, 1 / 2⟩ := by
  rw [raySample, distAt_20]
  refine rayPoint_eval _ _ _ (8388609 / 4194304) 0 0 (2149581 / 1048576) (1 / 2) (1 / 2) ?_ ?_ ?_
      ?_ ?_ ?_
  · show roundFloat (1 * (8388609 / 4194304)) = 8388609 / 4194304
    rw [roundFloat_eq _ (-22) 8388609 (by norm_num) (by norm_num) (by norm_num) (by norm_num)
      (by norm_num)]
    norm_num
  · show roundFloat (13421773 / 268435456 + (8388609 / 4194304)) = 2149581 / 1048576
    rw [roundFloat_eq _ (-22) 8598324 (by norm_num) (by norm_num) (by norm_num) (by norm_num)
      (by norm_num)]
    norm_num
  · show roundFloat (0 * (8388609 / 4194304)) = 0
    norm_num [roundFloat_zero]
  · show roundFloat (1 / 2 + 0) = 1 / 2
    rw [roundFloat_eq _ (-24) 8388608 (by norm_num) (by norm_num) (by norm_num) (by norm_num)
      (by norm_num)]
    norm_num
  · show roundFloat (0 * (8388609 / 4194304)) = 0
    norm_num [roundFloat_zero]
  · show roundFloat (1 / 2 + 0) = 1 / 2
    rw [roundFloat_eq _ (-24) 8388608 (by norm_num) (by norm_num) (by norm_num) (by norm_num)
      (by norm_num)]
    norm_num

theorem farBlock_sample_21 : raySample ⟨13421773 / 268435456, 1 / 2, 1 / 2⟩ ⟨1, 0, 0⟩ 21 = ⟨4508877
    / 2097152, 1 / 2, 1 / 2⟩ := by
  rw [raySample, distAt_21]
  refine rayPoint_eval _ _ _ (8808039 / 4194304) 0 0 (4508877 / 2097152) (1 / 2) (1 / 2) ?_ ?_ ?_
      ?_ ?_ ?_
  · show roundFloat (1 * (8808039 / 4194304)) = 8808039 / 4194304
    rw [roundFloat_eq _ (-22) 8808039 (by norm_num) (by norm_num) (by norm_num) (by norm_num)
      (by norm_num)]
    norm_num
  · show roundFloat (13421773 / 268435456 + (8808039 / 4194304)) = 4508877 / 2097152
    rw [roundFloat_eq _ (-22) 9017754 (by norm_num) (by norm_num) (by norm_num) (by norm_num)
      (by norm_num)]
    norm_num
  · show roundFloat (0 * (8808039 / 4194304)) = 0
    norm_num [roundFloat_zero]
  · show roundFloat (1 / 2 + 0) = 1 / 2
    rw [roundFloat_eq _ (-24) 8388608 (by norm_num) (by norm_num) (by norm_num) (by norm_num)
      (by norm_num)]
    norm_num
  · show roundFloat (0 * (8808039 / 4194304)) = 0
    norm_num [roundFloat_zero]
  · show roundFloat (1 / 2 + 0) = 1 / 2
    rw [roundFloat_eq _ (-24) 8388608 (by norm_num) (by norm_num) (by norm_num) (by norm_num)
      (by norm_num)]
    norm_num

theorem farBlock_sample_22 : raySample ⟨13421773 / 268435456, 1 / 2, 1 / 2⟩ ⟨1, 0, 0⟩ 22 = ⟨9 / 4,
    1 / 2, 1 / 2⟩ := by
  rw [raySample, distAt_22]
  refine rayPoint_eval _ _ _ (9227469 / 4194304) 0 0 (9 / 4) (1 / 2) (1 / 2) ?_ ?_ ?_ ?_ ?_ ?_
  · show roundFloat (1 * (9227469 / 4194304)) = 9227469 / 4194304
    rw [roundFloat_eq _ (-22) 9227469 (by norm_num) (by norm_num) (by norm_num) (by norm_num)
      (by norm_num)]
    norm_num
  · show roundFloat (13421773 / 268435456 + (9227469 / 4194304)) = 9 / 4
    rw [roundFloat_eq _ (-22) 9437184 (by norm_num) (by norm_num) (by norm_num) (by norm_num)
      (by norm_num)]
    norm_num
  · show roundFloat (0 * (9227469 / 4194304)) = 0
    norm_num [roundFloat_zero]
  · show roundFloat (1 / 2 + 0) = 1 / 2
    rw [roundFloat_eq _ (-24) 8388608 (by norm_num) (by norm_num) (by norm_num) (by norm_num)
      (by norm_num)]
    norm_num
  · show roundFloat (0 * (9227469 / 4194304)) = 0
    norm_num [roundFloat_zero]
  · show roundFloat (1 / 2 + 0) = 1 / 2
    rw [roundFloat_eq _ (-24) 8388608 (by norm_num) (by norm_num) (by norm_num) (by norm_num)
      (by norm_num)]
    norm_num

theorem farBlock_sample_23 : raySample ⟨13421773 / 268435456, 1 / 2, 1 / 2⟩ ⟨1, 0, 0⟩ 23 = ⟨4928307
    / 2097152, 1 / 2, 1 / 2⟩ := by
  rw [raySample, distAt_23]
  refine rayPoint_eval _ _ _ (9646899 / 4194304) 0 0 (4928307 / 2097152) (1 / 2) (1 / 2) ?_ ?_ ?_
      ?_ ?_ ?_
  · show roundFloat (1 * (9646899 / 4194304)) = 9646899 / 4194304
    rw [roundFloat_eq _ (-22) 9646899 (by norm_num) (by norm_num) (by norm_num) (by norm_num)
      (by norm_num)]
    norm_num
  · show roundFloat (13421773 / 268435456 + (9646899 / 4194304)) = 4928307 / 2097152
    rw [roundFloat_eq _ (-22) 9856614 (by norm_num) (by norm_num) (by norm_num) (by norm_num)
      (by norm_num)]
    norm_num
  · show roundFloat (0 * (9646899 / 4194304)) = 0
    norm_num [roundFloat_zero]
  · show roundFloat (1 / 2 + 0) = 1 / 2
    rw [roundFloat_eq _ (-24) 8388608 (by norm_num) (by norm_num) (by norm_num) (by norm_num)
      (by norm_num)]
    norm_num
  · show roundFloat (0 * (9646899 / 4194304)) = 0
    norm_num [roundFloat_zero]
  · show roundFloat (1 / 2 + 0) = 1 / 2
    rw [roundFloat_eq _ (-24) 8388608 (by norm_num) (by norm_num) (by norm_num) (by norm_num)
      (by norm_num)]
    norm_num

theorem farBlock_sample_24 : raySample ⟨13421773 / 268435456, 1 / 2, 1 / 2⟩ ⟨1, 0, 0⟩ 24 = ⟨2569011
    / 1048576, 1 / 2, 1 / 2⟩ := by
  rw [raySample, distAt_24]
  refine rayPoint_eval _ _ _ (10066329 / 4194304) 0 0 (2569011 / 1048576) (1 / 2) (1 / 2) ?_ ?_ ?_
      ?_ ?_ ?_
  · show roundFloat (1 * (10066329 / 4194304)) = 10066329 / 4194304
    rw [roundFloat_eq _ (-22) 10066329 (by norm_num) (by norm_num) (by norm_num) (by norm_num)
      (by norm_num)]
    norm_num
  · show roundFloat (13421773 / 268435456 + (10066329 / 4194304)) = 2569011 / 1048576
    rw [roundFloat_eq _ (-22) 10276044 (by norm_num) (by norm_num) (by norm_num) (by norm_num)
      (by norm_num)]
    norm_num
  · show roundFloat (0 * (10066329 / 4194304)) = 0
    norm_num [roundFloat_zero]
  · show roundFloat (1 / 2 + 0) = 1 / 2
    rw [roundFloat_eq _ (-24) 8388608 (by norm_num) (by norm_num) (by norm_num) (by norm_num)
      (by norm_num)]
    norm_num
  · show roundFloat (0 * (10066329 / 4194304)) = 0
    norm_num [roundFloat_zero]
  · show roundFloat (1 / 2 + 0) = 1 / 2
    rw [roundFloat_eq _ (-24) 8388608 (by norm_num) (by norm_num) (by norm_num) (by norm_num)
      (by norm_num)]
    norm_num

theorem farBlock_sample_25 : raySample ⟨13421773 / 268435456, 1 / 2, 1 / 2⟩ ⟨1, 0, 0⟩ 25 = ⟨5347737
    / 2097152, 1 / 2, 1 / 2⟩ := by
  rw [raySample, distAt_25]
  refine rayPoint_eval _ _ _ (10485759 / 4194304) 0 0 (5347737 / 2097152) (1 / 2) (1 / 2) ?_ ?_ ?_
      ?_ ?_ ?_
  · show roundFloat (1 * (10485759 / 4194304)) = 10485759 / 4194304
    rw [roundFloat_eq _ (-22) 10485759 (by norm_num) (by norm_num) (by norm_num) (by norm_num)
      (by norm_num)]
    norm_num
  · show roundFloat (13421773 / 268435456 + (10485759 / 4194304)) = 5347737 / 2097152
    rw [roundFloat_eq _ (-22) 10695474 (by norm_num) (by norm_num) (by norm_num) (by norm_num)
      (by norm_num)]
    norm_num
  · show roundFloat (0 * (10485759 / 4194304)) = 0
    norm_num [roundFloat_zero]
  · show roundFloat (1 / 2 + 0) = 1 / 2
    rw [roundFloat_eq _ (-24) 8388608 (by norm_num) (by norm_num) (by norm_num) (by norm_num)
      (by norm_num)]
    norm_num
  · show roundFloat (0 * (10485759 / 4194304)) = 0
    norm_num [roundFloat_zero]
  · show roundFloat (1 / 2 + 0) = 1 / 2
    rw [roundFloat_eq _ (-24) 8388608 (by norm_num) (by norm_num) (by norm_num) (by norm_num)
      (by norm_num)]
    norm_num

theorem farBlock_sample_26 : raySample ⟨13421773 / 268435456, 1 / 2, 1 / 2⟩ ⟨1, 0, 0⟩ 26 = ⟨1389363
    / 524288, 1 / 2, 1 / 2⟩ := by
  rw [raySample, distAt_26]
  refine rayPoint_eval _ _ _ (10905189 / 4194304) 0 0 (1389363 / 524288) (1 / 2) (1 / 2) ?_ ?_ ?_
      ?_ ?_ ?_
  · show roundFloat (1 * (10905189 / 4194304)) = 10905189 / 4194304
    rw [roundFloat_eq _ (-22) 10905189 (by norm_num) (by norm_num) (by norm_num) (by norm_num)
      (by norm_num)]
    norm_num
  · show roundFloat (13421773 / 268435456 + (10905189 / 4194304)) = 1389363 / 524288
    rw [roundFloat_eq _ (-22) 11114904 (by norm_num) (by norm_num) (by norm_num) (by norm_num)
      (by norm_num)]
    norm_num
  · show roundFloat (0 * (10905189 / 4194304)) = 0
    norm_num [roundFloat_zero]
  · show roundFloat (1 / 2 + 0) = 1 / 2
    rw [roundFloat_eq _ (-24) 8388608 (by norm_num) (by norm_num) (by norm_num) (by norm_num)
      (by norm_num)]
    norm_num
  · show roundFloat (0 * (10905189 / 4194304)) = 0
    norm_num [roundFloat_zero]
  · show roundFloat (1 / 2 + 0) = 1 / 2
    rw [roundFloat_eq _ (-24) 8388608 (by norm_num) (by norm_num) (by norm_num) (by norm_num)
      (by norm_num)]
    norm_num

theorem farBlock_sample_27 : raySample ⟨13421773 / 268435456, 1 / 2, 1 / 2⟩ ⟨1, 0, 0⟩ 27 = ⟨5767167
    / 2097152, 1 / 2, 1 / 2⟩ := by
  rw [raySample, distAt_27]
  refine rayPoint_eval _ _ _ (11324619 / 4194304) 0 0 (5767167 / 2097152) (1 / 2) (1 / 2) ?_ ?_ ?_
      ?_ ?_ ?_
  · show roundFloat (1 * (11324619 / 4194304)) = 11324619 / 4194304
    rw [roundFloat_eq _ (-22) 11324619 (by norm_num) (by norm_num) (by norm_num) (by norm_num)
      (by norm_num)]
    norm_num
  · show roundFloat (13421773 / 268435456 + (11324619 / 4194304)) = 5767167 / 2097152
    rw [roundFloat_eq _ (-22) 11534334 (by norm_num) (by norm_num) (by norm_num) (by norm_num)
      (by norm_num)]
    norm_num
  · show roundFloat (0 * (11324619 / 4194304)) = 0
    norm_num [roundFloat_zero]
  · show roundFloat (1 / 2 + 0) = 1 / 2
    rw [roundFloat_eq _ (-24) 8388608 (by norm_num) (by norm_num) (by norm_num) (by norm_num)
      (by norm_num)]
    norm_num
  · show roundFloat (0 * (11324619 / 4194304)) = 0
    norm_num [roundFloat_zero]
  · show roundFloat (1 / 2 + 0) = 1 / 2
    rw [roundFloat_eq _ (-24) 8388608 (by norm_num) (by norm_num) (by norm_num) (by norm_num)
      (by norm_num)]
    norm_num

theorem farBlock_sample_28 : raySample ⟨13421773 / 268435456, 1 / 2, 1 / 2⟩ ⟨1, 0, 0⟩ 28 = ⟨2988441
    / 1048576, 1 / 2, 1 / 2⟩ := by
  rw [raySample, distAt_28]
  refine rayPoint_eval _ _ _ (11744049 / 4194304) 0 0 (2988441 / 1048576) (1 / 2) (1 / 2) ?_ ?_ ?_
      ?_ ?_ ?_
  · show roundFloat (1 * (11744049 / 4194304)) = 11744049 / 4194304
    rw [roundFloat_eq _ (-22) 11744049 (by norm_num) (by norm_num) (by norm_num) (by norm_num)
      (by norm_num)]
    norm_num
  · show roundFloat (13421773 / 268435456 + (11744049 / 4194304)) = 2988441 / 1048576
    rw [roundFloat_eq _ (-22) 11953764 (by norm_num) (by norm_num) (by norm_num) (by norm_num)
      (by norm_num)]
    norm_num
  · show roundFloat (0 * (11744049 / 4194304)) = 0
    norm_num [roundFloat_zero]
  · show roundFloat (1 / 2 + 0) = 1 / 2
    rw [roundFloat_eq _ (-24) 8388608 (by norm_num) (by norm_num) (by norm_num) (by norm_num)
      (by norm_num)]
    norm_num
  · show roundFloat (0 * (11744049 / 4194304)) = 0
    norm_num [roundFloat_zero]
  · show roundFloat (1 / 2 + 0) = 1 / 2
    rw [roundFloat_eq _ (-24) 8388608 (by norm_num) (by norm_num) (by norm_num) (by norm_num)
      (by norm_num)]
    norm_num

theorem farBlock_sample_29 : raySample ⟨13421773 / 268435456, 1 / 2, 1 / 2⟩ ⟨1, 0, 0⟩ 29 = ⟨6186597
    / 2097152, 1 / 2, 1 / 2⟩ := by
  rw [raySample, distAt_29]
  refine rayPoint_eval _ _ _ (12163479 / 4194304) 0 0 (6186597 / 2097152) (1 / 2) (1 / 2) ?_ ?_ ?_
      ?_ ?_ ?_
  · show roundFloat (1 * (12163479 / 4194304)) = 12163479 / 4194304
    rw [roundFloat_eq _ (-22) 12163479 (by norm_num) (by norm_num) (by norm_num) (by norm_num)
      (by norm_num)]
    norm_num
  · show roundFloat (13421773 / 268435456 + (12163479 / 4194304)) = 6186597 / 2097152
    rw [roundFloat_eq _ (-22) 12373194 (by norm_num) (by norm_num) (by norm_num) (by norm_num)
      (by norm_num)]
    norm_num
  · show roundFloat (0 * (12163479 / 4194304)) = 0
    norm_num [roundFloat_zero]
  · show roundFloat (1 / 2 + 0) = 1 / 2
    rw [roundFloat_eq _ (-24) 8388608 (by norm_num) (by norm_num) (by norm_num) (by norm_num)
      (by norm_num)]
    norm_num
  · show roundFloat (0 * (12163479 / 4194304)) = 0
    norm_num [roundFloat_zero]
  · show roundFloat (1 / 2 + 0) = 1 / 2
    rw [roundFloat_eq _ (-24) 8388608 (by norm_num) (by norm_num) (by norm_num) (by norm_num)
      (by norm_num)]
    norm_num

theorem farBlock_sample_30 : raySample ⟨13421773 / 268435456, 1 / 2, 1 / 2⟩ ⟨1, 0, 0⟩ 30 = ⟨799539
    / 262144, 1 / 2, 1 / 2⟩ := by
  rw [raySample, distAt_30]
  refine rayPoint_eval _ _ _ (12582909 / 4194304) 0 0 (799539 / 262144) (1 / 2) (1 / 2) ?_ ?_ ?_ ?_
      ?_ ?_
  · show roundFloat (1 * (12582909 / 4194304)) = 12582909 / 4194304
    rw [roundFloat_eq _ (-22) 12582909 (by norm_num) (by norm_num) (by norm_num) (by norm_num)
      (by norm_num)]
    norm_num
  · show roundFloat (13421773 / 268435456 + (12582909 / 4194304)) = 799539 / 262144
    rw [roundFloat_eq _ (-22) 12792624 (by norm_num) (by norm_num) (by norm_num) (by norm_num)
      (by norm_num)]
    norm_num
  · show roundFloat (0 * (12582909 / 4194304)) = 0
    norm_num [roundFloat_zero]
  · show roundFloat (1 / 2 + 0) = 1 / 2
    rw [roundFloat_eq _ (-24) 8388608 (by norm_num) (by norm_num) (by norm_num) (by norm_num)
      (by norm_num)]
    norm_num
  · show roundFloat (0 * (12582909 / 4194304)) = 0
    norm_num [roundFloat_zero]
  · show roundFloat (1 / 2 + 0) = 1 / 2
    rw [roundFloat_eq _ (-24) 8388608 (by norm_num) (by norm_num) (by norm_num) (by norm_num)
      (by norm_num)]
    norm_num

theorem farBlock_step_30 : stepVector ⟨13421773 / 268435456, 1 / 2, 1 / 2⟩ ⟨1, 0, 0⟩ 30 = ⟨209715 /
    2097152, 0, 0⟩ := by
  show (raySample ⟨13421773 / 268435456, 1 / 2, 1 / 2⟩ ⟨1, 0, 0⟩ 30).sub (raySample ⟨13421773 /
      268435456, 1 / 2, 1 / 2⟩ ⟨1, 0, 0⟩ 29) = _
  rw [farBlock_sample_30, farBlock_sample_29]
  refine sub_eval _ _ (209715 / 2097152) 0 0 ?_ ?_ ?_
  · show roundFloat (799539 / 262144 - (6186597 / 2097152)) = 209715 / 2097152
    rw [roundFloat_eq _ (-27) 13421760 (by norm_num) (by norm_num) (by norm_num) (by norm_num)
      (by norm_num)]
    norm_num
  · show roundFloat (1 / 2 - (1 / 2)) = 0
    norm_num [roundFloat_zero]
  · show roundFloat (1 / 2 - (1 / 2)) = 0
    norm_num [roundFloat_zero]

theorem farBlock_voxel_0 : voxelOf (raySample ⟨13421773 / 268435456, 1 / 2, 1 / 2⟩ ⟨1, 0, 0⟩ 0) =
    (0, 0, 0) := by
  rw [farBlock_sample_0]
  norm_num [voxelOf]

theorem farBlock_voxel_1 : voxelOf (raySample ⟨13421773 / 268435456, 1 / 2, 1 / 2⟩ ⟨1, 0, 0⟩ 1) =
    (0, 0, 0) := by
  rw [farBlock_sample_1]
  norm_num [voxelOf]

theorem farBlock_voxel_2 : voxelOf (raySample ⟨13421773 / 268435456, 1 / 2, 1 / 2⟩ ⟨1, 0, 0⟩ 2) =
    (0, 0, 0) := by
  rw [farBlock_sample_2]
  norm_num [voxelOf]

theorem farBlock_voxel_3 : voxelOf (raySample ⟨13421773 / 268435456, 1 / 2, 1 / 2⟩ ⟨1, 0, 0⟩ 3) =
    (0, 0, 0) := by
  rw [farBlock_sample_3]
  norm_num [voxelOf]

theorem farBlock_voxel_4 : voxelOf (raySample ⟨13421773 / 268435456, 1 / 2, 1 / 2⟩ ⟨1, 0, 0⟩ 4) =
    (0, 0, 0) := by
  rw [farBlock_sample_4]
  norm_num [voxelOf]

theorem farBlock_voxel_5 : voxelOf (raySample ⟨13421773 / 268435456, 1 / 2, 1 / 2⟩ ⟨1, 0, 0⟩ 5) =
    (0, 0, 0) := by
  rw [farBlock_sample_5]
  norm_num [voxelOf]

theorem farBlock_voxel_6 : voxelOf (raySample ⟨13421773 / 268435456, 1 / 2, 1 / 2⟩ ⟨1, 0, 0⟩ 6) =
    (0, 0, 0) := by
  rw [farBlock_sample_6]
  norm_num [voxelOf]

theorem farBlock_voxel_7 : voxelOf (raySample ⟨13421773 / 268435456, 1 / 2, 1 / 2⟩ ⟨1, 0, 0⟩ 7) =
    (0, 0, 0) := by
  rw [farBlock_sample_7]
  norm_num [voxelOf]

theorem farBlock_voxel_8 : voxelOf (raySample ⟨13421773 / 268435456, 1 / 2, 1 / 2⟩ ⟨1, 0, 0⟩ 8) =
    (0, 0, 0) := by
  rw [farBlock_sample_8]
  norm_num [voxelOf]

theorem farBlock_voxel_9 : voxelOf (raySample ⟨13421773 / 268435456, 1 / 2, 1 / 2⟩ ⟨1, 0, 0⟩ 9) =
    (0, 0, 0) := by
  rw [farBlock_sample_9]
  norm_num [voxelOf]

theorem farBlock_voxel_10 : voxelOf (raySample ⟨13421773 / 268435456, 1 / 2, 1 / 2⟩ ⟨1, 0, 0⟩ 10) =
    (1, 0, 0) := by
  rw [farBlock_sample_10]
  norm_num [voxelOf]

theorem farBlock_voxel_11 : voxelOf (raySample ⟨13421773 / 268435456, 1 / 2, 1 / 2⟩ ⟨1, 0, 0⟩ 11) =
    (1, 0, 0) := by
  rw [farBlock_sample_11]
  norm_num [voxelOf]

theorem farBlock_voxel_12 : voxelOf (raySample ⟨13421773 / 268435456, 1 / 2, 1 / 2⟩ ⟨1, 0, 0⟩ 12) =
    (1, 0, 0) := by
  rw [farBlock_sample_12]
  norm_num [voxelOf]

theorem farBlock_voxel_13 : voxelOf (raySample ⟨13421773 / 268435456, 1 / 2, 1 / 2⟩ ⟨1, 0, 0⟩ 13) =
    (1, 0, 0) := by
  rw [farBlock_sample_13]
  norm_num [voxelOf]

theorem farBlock_voxel_14 : voxelOf (raySample ⟨13421773 / 268435456, 1 / 2, 1 / 2⟩ ⟨1, 0, 0⟩ 14) =
    (1, 0, 0) := by
  rw [farBlock_sample_14]
  norm_num [voxelOf]

theorem farBlock_voxel_15 : voxelOf (raySample ⟨13421773 / 268435456, 1 / 2, 1 / 2⟩ ⟨1, 0, 0⟩ 15) =
    (1, 0, 0) := by
  rw [farBlock_sample_15]
  norm_num [voxelOf]

theorem farBlock_voxel_16 : voxelOf (raySample ⟨13421773 / 268435456, 1 / 2, 1 / 2⟩ ⟨1, 0, 0⟩ 16) =
    (1, 0, 0) := by
  rw [farBlock_sample_16]
  norm_num [voxelOf]

theorem farBlock_voxel_17 : voxelOf (raySample ⟨13421773 / 268435456, 1 / 2, 1 / 2⟩ ⟨1, 0, 0⟩ 17) =
    (1, 0, 0) := by
  rw [farBlock_sample_17]
  norm_num [voxelOf]

theorem farBlock_voxel_18 : voxelOf (raySample ⟨13421773 / 268435456, 1 / 2, 1 / 2⟩ ⟨1, 0, 0⟩ 18) =
    (1, 0, 0) := by
  rw [farBlock_sample_18]
  norm_num [voxelOf]

theorem farBlock_voxel_19 : voxelOf (raySample ⟨13421773 / 268435456, 1 / 2, 1 / 2⟩ ⟨1, 0, 0⟩ 19) =
    (1, 0, 0) := by
  rw [farBlock_sample_19]
  norm_num [voxelOf]

theorem farBlock_voxel_20 : voxelOf (raySample ⟨13421773 / 268435456, 1 / 2, 1 / 2⟩ ⟨1, 0, 0⟩ 20) =
    (2, 0, 0) := by
  rw [farBlock_sample_20]
  norm_num [voxelOf]

theorem farBlock_voxel_21 : voxelOf (raySample ⟨13421773 / 268435456, 1 / 2, 1 / 2⟩ ⟨1, 0, 0⟩ 21) =
    (2, 0, 0) := by
  rw [farBlock_sample_21]
  norm_num [voxelOf]

theorem farBlock_voxel_22 : voxelOf (raySample ⟨13421773 / 268435456, 1 / 2, 1 / 2⟩ ⟨1, 0, 0⟩ 22) =
    (2, 0, 0) := by
  rw [farBlock_sample_22]
  norm_num [voxelOf]

theorem farBlock_voxel_23 : voxelOf (raySample ⟨13421773 / 268435456, 1 / 2, 1 / 2⟩ ⟨1, 0, 0⟩ 23) =
    (2, 0, 0) := by
  rw [farBlock_sample_23]
  norm_num [voxelOf]

theorem farBlock_voxel_24 : voxelOf (raySample ⟨13421773 / 268435456, 1 / 2, 1 / 2⟩ ⟨1, 0, 0⟩ 24) =
    (2, 0, 0) := by
  rw [farBlock_sample_24]
  norm_num [voxelOf]

theorem farBlock_voxel_25 : voxelOf (raySample ⟨13421773 / 268435456, 1 / 2, 1 / 2⟩ ⟨1, 0, 0⟩ 25) =
    (2, 0, 0) := by
  rw [farBlock_sample_25]
  norm_num [voxelOf]

theorem farBlock_voxel_26 : voxelOf (raySample ⟨13421773 / 268435456, 1 / 2, 1 / 2⟩ ⟨1, 0, 0⟩ 26) =
    (2, 0, 0) := by
  rw [farBlock_sample_26]
  norm_num [voxelOf]

theorem farBlock_voxel_27 : voxelOf (raySample ⟨13421773 / 268435456, 1 / 2, 1 / 2⟩ ⟨1, 0, 0⟩ 27) =
    (2, 0, 0) := by
  rw [farBlock_sample_27]
  norm_num [voxelOf]

theorem farBlock_voxel_28 : voxelOf (raySample ⟨13421773 / 268435456, 1 / 2, 1 / 2⟩ ⟨1, 0, 0⟩ 28) =
    (2, 0, 0) := by
  rw [farBlock_sample_28]
  norm_num [voxelOf]

theorem farBlock_voxel_29 : voxelOf (raySample ⟨13421773 / 268435456, 1 / 2, 1 / 2⟩ ⟨1, 0, 0⟩ 29) =
    (2, 0, 0) := by
  rw [farBlock_sample_29]
  norm_num [voxelOf]

theorem farBlock_voxel_30 : voxelOf (raySample ⟨13421773 / 268435456, 1 / 2, 1 / 2⟩ ⟨1, 0, 0⟩ 30) =
    (3, 0, 0) := by
  rw [farBlock_sample_30]
  norm_num [voxelOf]

theorem farBlock_running (j : Nat) (hj : j ≤ 30) : distAt j < 3 := by
  interval_cases j <;>
    simp only [distAt_0, distAt_1, distAt_2, distAt_3, distAt_4, distAt_5, distAt_6, distAt_7,
        distAt_8, distAt_9, distAt_10, distAt_11, distAt_12, distAt_13, distAt_14, distAt_15,
        distAt_16, distAt_17, distAt_18, distAt_19, distAt_20, distAt_21, distAt_22, distAt_23,
        distAt_24, distAt_25, distAt_26, distAt_27, distAt_28, distAt_29, distAt_30] <;>
    norm_num

theorem farBlock_miss (j : Nat) (hj : j < 30) :
    farBlockApp.hitsVoxel (voxelOf (raySample ⟨13421773 / 268435456, 1 / 2, 1 / 2⟩ ⟨1, 0, 0⟩ j)) =
        false := by
  interval_cases j <;>
    simp only [farBlock_voxel_0, farBlock_voxel_1, farBlock_voxel_2, farBlock_voxel_3,
        farBlock_voxel_4, farBlock_voxel_5, farBlock_voxel_6, farBlock_voxel_7, farBlock_voxel_8,
        farBlock_voxel_9, farBlock_voxel_10, farBlock_voxel_11, farBlock_voxel_12,
        farBlock_voxel_13, farBlock_voxel_14, farBlock_voxel_15, farBlock_voxel_16,
        farBlock_voxel_17, farBlock_voxel_18, farBlock_voxel_19, farBlock_voxel_20,
        farBlock_voxel_21, farBlock_voxel_22, farBlock_voxel_23, farBlock_voxel_24,
        farBlock_voxel_25, farBlock_voxel_26, farBlock_voxel_27, farBlock_voxel_28,
        farBlock_voxel_29, farBlock_voxel_30] <;>
    decide

/-! ## The samples of the ray -/

theorem farBlock_raycast :
    farBlockApp.raycastVoxel id ⟨13421773 / 268435456, 1 / 2, 1 / 2⟩ ⟨1, 0, 0⟩ 3 = some ⟨(3, 0, 0),
        (-1, 0, 0)⟩ := by
  rw [raycastVoxel_eq_some_iff id farBlockApp _ _ 3 (by norm_num)]
  refine ⟨30, farBlock_running, ?_, ?_, ?_⟩
  · rw [id, farBlock_voxel_30]
    decide
  · intro j hj
    rw [id]
    exact farBlock_miss j hj
  · rw [id, farBlock_voxel_30, farBlock_step_30]
    norm_num [hitFaceNormal, abs_div]

theorem farBlock_exact_samples_air (k : Nat) (hk : (k : ℚ) / 10 < 3) :
    ¬ specSolidVoxel farBlockApp (voxelOf (specSample ⟨13421773 / 268435456, 1 / 2, 1 / 2⟩ ⟨1, 0,
        0⟩ k)) := by
  have hk30 : k < 30 := by
    have h1 : (k : ℚ) < 30 := by linarith
    exact_mod_cast h1
  intro hs
  have hh := (hitsVoxel_iff_specSolid farBlockApp _ (by
    interval_cases k <;> norm_num [specSample, voxelOf]) (by
    interval_cases k <;> norm_num [specSample, voxelOf])).2 hs
  revert hh
  interval_cases k <;> norm_num [specSample, voxelOf] <;> decide

/-- C21 (as stated) fails: in `farBlockApp` (block at `(3,0,0)` only) the ray from
`(0.05f, 0.5, 0.5)` along `+x` with `maxDist = 3` is sampled a 31st time, because after thirty
`float` additions of `0.1f` the counter is `2.9999993`, still below `3`; that sample has
`x = 3.0499992` and hits voxel `(3,0,0)`.  No sample `start + dir * d` with `d = k / 10 < 3`
lies in a solid voxel: the last one has `x = 2.95`. -/
theorem raycastVoxel_samples_past_tenth_steps :
    farBlockApp.raycastVoxel id ⟨13421773 / 268435456, 1 / 2, 1 / 2⟩ ⟨1, 0, 0⟩ 3 = some ⟨(3, 0, 0),
        (-1, 0, 0)⟩ ∧
      distAt 30 = 12582909 / 4194304 ∧ distAt 30 < 3 ∧
      raySample ⟨13421773 / 268435456, 1 / 2, 1 / 2⟩ ⟨1, 0, 0⟩ 30 = ⟨799539 / 262144, 1 / 2, 1 / 2⟩
          ∧
      (∀ k : Nat, (k : ℚ) / 10 < 3 →
        ¬ specSolidVoxel farBlockApp (voxelOf (specSample ⟨13421773 / 268435456, 1 / 2, 1 / 2⟩ ⟨1,
            0, 0⟩ k))) ∧
      ¬ (∀ (normalize : Vec3 → Vec3) (app : Application) (start direction : Vec3)
          (maxDist : ℚ),
          (app.raycastVoxel normalize start direction maxDist).isSome = true ↔
            ∃ k : Nat, (k : ℚ) / 10 < maxDist ∧
              specSolidVoxel app (voxelOf (specSample start (normalize direction) k))) := by
  refine ⟨farBlock_raycast, distAt_30, farBlock_running 30 (le_refl 30), farBlock_sample_30,
    farBlock_exact_samples_air, ?_⟩
  intro h
  have hsome : (farBlockApp.raycastVoxel id ⟨13421773 / 268435456, 1 / 2, 1 / 2⟩ ⟨1, 0, 0⟩
      3).isSome = true := by
    rw [farBlock_raycast]
    rfl
  obtain ⟨k, hk, hs⟩ := (h id farBlockApp ⟨13421773 / 268435456, 1 / 2, 1 / 2⟩ ⟨1, 0, 0⟩ 3).1 hsome
  exact farBlock_exact_samples_air k hk hs

/-- C21 (amended): for `maxDist ≤ 2^20 - 1`, and when the voxel coordinates of the samples are
below `2^24` in absolute value, `raycastVoxel(start, dir, maxDist)` finishes and returns a hit
exactly when some sample of the loop, taken while the `float` counter `dist` (starting at `0`
and increased by the `float` sum `dist += 0.1f`) has stayed below `maxDist`, floors to a world
voxel whose chunk is loaded, with `0 ≤ y < 16`, that is not `0`; the samples are the `float`
values of `start + normalize(dir) * dist`; the returned `voxelPos` is the floored first such
sample and is itself solid; for `maxDist ≤ 0` the result is empty. -/
theorem raycastVoxel_first_solid_sample (normalize : Vec3 → Vec3) (app : Application)
    (start direction : Vec3) (maxDist : ℚ) (hmax : maxDist ≤ 1048575)
    (hrep : ∀ k : Nat, (∀ j, j ≤ k → distAt j < maxDist) →
      |(voxelOf (raySample start (normalize direction) k)).1| < 2 ^ 24 ∧
        |(voxelOf (raySample start (normalize direction) k)).2.2| < 2 ^ 24) :
    (distAt 0 = 0 ∧ ∀ k : Nat, distAt (k + 1) = roundFloat (distAt k + stepSize)) ∧
      (∀ k : Nat, raySample start (normalize direction) k =
        ⟨roundFloat (start.x + roundFloat ((normalize direction).x * distAt k)),
          roundFloat (start.y + roundFloat ((normalize direction).y * distAt k)),
          roundFloat (start.z + roundFloat ((normalize direction).z * distAt k))⟩) ∧
      ((app.raycastVoxel normalize start direction maxDist).isSome = true ↔
        ∃ k : Nat, (∀ j, j ≤ k → distAt j < maxDist) ∧
          specSolidVoxel app (voxelOf (raySample start (normalize direction) k))) ∧
      (∀ r, app.raycastVoxel normalize start direction maxDist = some r →
        specSolidVoxel app r.voxelPos ∧
          ∃ k : Nat, (∀ j, j ≤ k → distAt j < maxDist) ∧
            r.voxelPos = voxelOf (raySample start (normalize direction) k) ∧
            ∀ j : Nat, j < k →
              ¬ specSolidVoxel app (voxelOf (raySample start (normalize direction) j))) ∧
      (maxDist ≤ 0 → app.raycastVoxel normalize start direction maxDist = none) ∧
      (∀ fuel : Nat, raycastFuel maxDist ≤ fuel →
        app.raycastLoop start (normalize direction) maxDist fuel 0 start =
          some (app.raycastVoxel normalize start direction maxDist)) := by
  have hspec : ∀ k : Nat, (∀ j, j ≤ k → distAt j < maxDist) →
      (app.hitsVoxel (voxelOf (raySample start (normalize direction) k)) = true ↔
        specSolidVoxel app (voxelOf (raySample start (normalize direction) k))) := by
    intro k hk
    have hb := hrep k hk
    exact hitsVoxel_iff_specSolid app _ hb.1 hb.2
  have hsome : ∀ r, app.raycastVoxel normalize start direction maxDist = some r →
      specSolidVoxel app r.voxelPos ∧
        ∃ k : Nat, (∀ j, j ≤ k → distAt j < maxDist) ∧
          r.voxelPos = voxelOf (raySample start (normalize direction) k) ∧
          ∀ j : Nat, j < k →
            ¬ specSolidVoxel app (voxelOf (raySample start (normalize direction) j)) := by
    intro r hr
    obtain ⟨k, hk, hhit, hfirst, rfl⟩ :=
      (raycastVoxel_eq_some_iff normalize app start direction maxDist hmax r).1 hr
    refine ⟨(hspec k hk).1 hhit, k, hk, rfl, ?_⟩
    intro j hj hs
    have hh := (hspec j (fun i hi => hk i (by omega))).2 hs
    rw [hfirst j hj] at hh
    exact absurd hh (by decide)
  refine ⟨⟨rfl, fun _ => rfl⟩, fun _ => rfl, ?_, hsome, ?_, ?_⟩
  · constructor
    · intro h
      obtain ⟨r, hr⟩ := Option.isSome_iff_exists.1 h
      obtain ⟨_, k, hk, hv, _⟩ := hsome r hr
      have hs := (hsome r hr).1
      rw [hv] at hs
      exact ⟨k, hk, hs⟩
    · rintro ⟨k, hk, hs⟩
      have hh := (hspec k hk).2 hs
      cases hr : app.raycastVoxel normalize start direction maxDist with
      | some r => rfl
      | none =>
        have hm := (raycastVoxel_eq_none_iff normalize app start direction maxDist hmax).1 hr
          k hk
        rw [hm] at hh
        exact absurd hh (by decide)
  · intro hle
    rw [raycastVoxel_eq_none_iff normalize app start direction maxDist hmax]
    intro k hk
    have h0 := hk 0 (Nat.zero_le k)
    rw [show distAt 0 = 0 from rfl] at h0
    linarith
  · intro fuel hf
    exact raycastLoop_finishes normalize app start direction maxDist hmax fuel hf

theorem twoBlock_voxel_bound (k : Nat) (hk : ∀ j, j ≤ k → distAt j < 1 / 8) :
    |(voxelOf (raySample ⟨3 / 2, 15938355 / 16777216, 1 / 2⟩ (id ⟨13421773 / 16777216, 5033165 /
        8388608, 0⟩) k)).1| < 2 ^ 24 ∧
      |(voxelOf (raySample ⟨3 / 2, 15938355 / 16777216, 1 / 2⟩ (id ⟨13421773 / 16777216, 5033165 /
          8388608, 0⟩) k)).2.2| < 2 ^ 24 := by
  have hk1 : k < 2 := by
    by_contra hge
    have h2 := hk 2 (by omega)
    rw [distAt_2] at h2
    norm_num at h2
  rw [id]
  interval_cases k
  · rw [twoBlock_sample_0]
    norm_num [voxelOf]
  · rw [twoBlock_sample_1]
    norm_num [voxelOf]

theorem raycastVoxel_first_solid_sample_witness :
    ((1 : ℚ) / 8 ≤ 1048575) ∧
      (∀ k : Nat, (∀ j, j ≤ k → distAt j < 1 / 8) →
        |(voxelOf (raySample ⟨3 / 2, 15938355 / 16777216, 1 / 2⟩ (id ⟨13421773 / 16777216, 5033165
            / 8388608, 0⟩) k)).1| < 2 ^ 24 ∧
          |(voxelOf (raySample ⟨3 / 2, 15938355 / 16777216, 1 / 2⟩ (id ⟨13421773 / 16777216,
              5033165 / 8388608, 0⟩) k)).2.2| < 2 ^ 24) ∧
      ((twoBlockApp.raycastVoxel id ⟨3 / 2, 15938355 / 16777216, 1 / 2⟩ ⟨13421773 / 16777216,
          5033165 / 8388608, 0⟩ (1 / 8)).isSome = true ↔
        ∃ k : Nat, (∀ j, j ≤ k → distAt j < 1 / 8) ∧
          specSolidVoxel twoBlockApp (voxelOf (raySample ⟨3 / 2, 15938355 / 16777216, 1 / 2⟩ (id
              ⟨13421773 / 16777216, 5033165 / 8388608, 0⟩) k))) :=
  ⟨by norm_num, twoBlock_voxel_bound,
    (raycastVoxel_first_solid_sample id twoBlockApp ⟨3 / 2, 15938355 / 16777216, 1 / 2⟩ ⟨13421773 /
        16777216, 5033165 / 8388608, 0⟩ (1 / 8) (by norm_num)
      twoBlock_voxel_bound).2.2.1⟩

/-! ## Face normal of a hit -/

/-- The face normal computed from a step vector is a unit vector along an axis on which the
step vector has the greatest absolute value; its component is `-1` when the step on that axis is
positive and `1` when it is negative or zero. -/
theorem hitFaceNormal_spec (delta : Vec3) :
    (∃ s : Int, hitFaceNormal delta = (s, 0, 0) ∧ (s = -1 ∨ s = 1) ∧
        |delta.y| ≤ |delta.x| ∧ |delta.z| ≤ |delta.x| ∧
        (0 < delta.x → s = -1) ∧ (delta.x ≤ 0 → s = 1)) ∨
      (∃ s : Int, hitFaceNormal delta = (0, s, 0) ∧ (s = -1 ∨ s = 1) ∧
        |delta.x| ≤ |delta.y| ∧ |delta.z| ≤ |delta.y| ∧
        (0 < delta.y → s = -1) ∧ (delta.y ≤ 0 → s = 1)) ∨
      (∃ s : Int, hitFaceNormal delta = (0, 0, s) ∧ (s = -1 ∨ s = 1) ∧
        |delta.x| ≤ |delta.z| ∧ |delta.y| ≤ |delta.z| ∧
        (0 < delta.z → s = -1) ∧ (delta.z ≤ 0 → s = 1)) := by
  unfold hitFaceNormal
  by_cases h1 : |delta.x| ≥ |delta.y| ∧ |delta.x| ≥ |delta.z|
  · rw [if_pos h1]
    left
    by_cases hp : delta.x > 0
    · exact ⟨-1, by rw [if_pos hp], Or.inl rfl, h1.1, h1.2, fun _ => rfl,
        fun h => absurd hp (not_lt.mpr h)⟩
    · exact ⟨1, by rw [if_neg hp], Or.inr rfl, h1.1, h1.2, fun h => absurd h hp, fun _ => rfl⟩
  · rw [if_neg h1]
    by_cases h2 : |delta.y| ≥ |delta.x| ∧ |delta.y| ≥ |delta.z|
    · rw [if_pos h2]
      right
      left
      by_cases hp : delta.y > 0
      · exact ⟨-1, by rw [if_pos hp], Or.inl rfl, h2.1, h2.2, fun _ => rfl,
          fun h => absurd hp (not_lt.mpr h)⟩
      · exact ⟨1, by rw [if_neg hp], Or.inr rfl, h2.1, h2.2, fun h => absurd h hp,
          fun _ => rfl⟩
    · rw [if_neg h2]
      right
      right
      have hx : |delta.x| ≤ |delta.z| := by
        by_contra hc
        rw [not_le] at hc
        rcases not_and_or.mp h1 with h | h
        · rcases not_and_or.mp h2 with h3 | h3
          · exact h3 (le_of_lt (not_le.mp h))
          · exact h3 (le_of_lt (lt_trans hc (not_le.mp h)))
        · exact h (le_of_lt hc)
      have hy : |delta.y| ≤ |delta.z| := by
        by_contra hc
        rw [not_le] at hc
        rcases not_and_or.mp h2 with h | h
        · rcases not_and_or.mp h1 with h3 | h3
          · exact h3 (le_of_lt (not_le.mp h))
          · exact h3 (le_of_lt (lt_trans hc (not_le.mp h)))
        · exact h (le_of_lt hc)
      by_cases hp : delta.z > 0
      · exact ⟨-1, by rw [if_pos hp], Or.inl rfl, hx, hy, fun _ => rfl,
          fun h => absurd hp (not_lt.mpr h)⟩
      · exact ⟨1, by rw [if_neg hp], Or.inr rfl, hx, hy, fun h => absurd h hp, fun _ => rfl⟩

theorem hitFaceNormal_zero : hitFaceNormal ⟨0, 0, 0⟩ = (1, 0, 0) := by
  simp [hitFaceNormal]

/-- At the first sample the step vector is zero when the start position is a `float` vector:
`prevPos` is then the sample itself. -/
theorem stepVector_first (start rayDir : Vec3) (hx : roundFloat start.x = start.x)
    (hy : roundFloat start.y = start.y) (hz : roundFloat start.z = start.z) :
    stepVector start rayDir 0 = ⟨0, 0, 0⟩ := by
  have hs : raySample start rayDir 0 = start := by
    obtain ⟨sx, sy, sz⟩ := start
    simp only at hx hy hz
    simp only [raySample, rayPoint, distAt, fadd, fmul, mul_zero, roundFloat_zero, add_zero,
      hx, hy, hz]
  simp only [stepVector, prevSample, hs, Vec3.sub, fsub, sub_self, roundFloat_zero]

/-- C22 (amended): for every hit returned by `raycastVoxel` (with `maxDist ≤ 2^20 - 1`), at
its sample `k`, `faceNormal` is a unit axis vector along an axis on which the computed step
vector `delta = rayPos - prevPos` (a `float` difference of the sample and the previous sample)
has the greatest absolute value, with component `-1` when the step on that axis is positive
and `1` when it is negative or zero.  For a hit at the first sample `prevPos` is the start
position, the step vector is zero and `faceNormal` is `(1, 0, 0)` whatever the ray
direction. -/
theorem raycastVoxel_faceNormal_axis (normalize : Vec3 → Vec3) (app : Application)
    (start direction : Vec3) (maxDist : ℚ) (r : RaycastResult) (hmax : maxDist ≤ 1048575)
    (hr : app.raycastVoxel normalize start direction maxDist = some r) :
    ∃ k : Nat, (∀ j, j ≤ k → distAt j < maxDist) ∧
      r.voxelPos = voxelOf (raySample start (normalize direction) k) ∧
      (∀ j : Nat, j < k →
        app.hitsVoxel (voxelOf (raySample start (normalize direction) j)) = false) ∧
      r.faceNormal = hitFaceNormal (stepVector start (normalize direction) k) ∧
      stepVector start (normalize direction) k =
        (raySample start (normalize direction) k).sub
          (if k = 0 then start else raySample start (normalize direction) (k - 1)) ∧
      (k = 0 → roundFloat start.x = start.x → roundFloat start.y = start.y →
        roundFloat start.z = start.z →
        stepVector start (normalize direction) k = ⟨0, 0, 0⟩ ∧ r.faceNormal = (1, 0, 0)) ∧
      ((∃ s : Int, r.faceNormal = (s, 0, 0) ∧ (s = -1 ∨ s = 1) ∧
          |(stepVector start (normalize direction) k).y| ≤
            |(stepVector start (normalize direction) k).x| ∧
          |(stepVector start (normalize direction) k).z| ≤
            |(stepVector start (normalize direction) k).x| ∧
          (0 < (stepVector start (normalize direction) k).x → s = -1) ∧
          ((stepVector start (normalize direction) k).x ≤ 0 → s = 1)) ∨
        (∃ s : Int, r.faceNormal = (0, s, 0) ∧ (s = -1 ∨ s = 1) ∧
          |(stepVector start (normalize direction) k).x| ≤
            |(stepVector start (normalize direction) k).y| ∧
          |(stepVector start (normalize direction) k).z| ≤
            |(stepVector start (normalize direction) k).y| ∧
          (0 < (stepVector start (normalize direction) k).y → s = -1) ∧
          ((stepVector start (normalize direction) k).y ≤ 0 → s = 1)) ∨
        (∃ s : Int, r.faceNormal = (0, 0, s) ∧ (s = -1 ∨ s = 1) ∧
          |(stepVector start (normalize direction) k).x| ≤
            |(stepVector start (normalize direction) k).z| ∧
          |(stepVector start (normalize direction) k).y| ≤
            |(stepVector start (normalize direction) k).z| ∧
          (0 < (stepVector start (normalize direction) k).z → s = -1) ∧
          ((stepVector start (normalize direction) k).z ≤ 0 → s = 1))) := by
  obtain ⟨k, hk, _, hfirst, rfl⟩ :=
    (raycastVoxel_eq_some_iff normalize app start direction maxDist hmax r).1 hr
  refine ⟨k, hk, rfl, hfirst, rfl, ?_, ?_, ?_⟩
  · rw [prevSample_eq]
    rfl
  · intro h0 hx hy hz
    subst h0
    have hz0 := stepVector_first start (normalize direction) hx hy hz
    refine ⟨hz0, ?_⟩
    show hitFaceNormal (stepVector start (normalize direction) 0) = (1, 0, 0)
    rw [hz0, hitFaceNormal_zero]
  · exact hitFaceNormal_spec (stepVector start (normalize direction) k)

theorem twoBlockApp_raycast :
    twoBlockApp.raycastVoxel id ⟨3 / 2, 15938355 / 16777216, 1 / 2⟩ (id ⟨13421773 / 16777216,
        5033165 / 8388608, 0⟩) 10 = some ⟨(1, 1, 0), (-1, 0, 0)⟩ := by
  rw [raycastVoxel_eq_some_iff id twoBlockApp _ _ 10 (by norm_num)]
  refine ⟨1, ?_, ?_, ?_, ?_⟩
  · intro j hj
    interval_cases j
    · rw [distAt_0]
      norm_num
    · rw [distAt_1]
      norm_num
  · rw [id, id, twoBlock_sample_1]
    norm_num [voxelOf]
    decide
  · intro j hj
    have hj0 : j = 0 := by omega
    subst hj0
    rw [id, id, twoBlock_sample_0]
    norm_num [voxelOf]
    decide
  · rw [id, id, twoBlock_sample_1, twoBlock_step_1]
    norm_num [voxelOf, hitFaceNormal, abs_div]

theorem raycastVoxel_faceNormal_axis_witness :
    twoBlockApp.raycastVoxel id ⟨3 / 2, 15938355 / 16777216, 1 / 2⟩ (id ⟨13421773 / 16777216,
        5033165 / 8388608, 0⟩) 10 = some ⟨(1, 1, 0), (-1, 0, 0)⟩ ∧
      (10 : ℚ) ≤ 1048575 ∧
      ∃ k : Nat, (∀ j, j ≤ k → distAt j < 10) ∧
        (⟨(1, 1, 0), (-1, 0, 0)⟩ : RaycastResult).faceNormal =
          hitFaceNormal (stepVector ⟨3 / 2, 15938355 / 16777216, 1 / 2⟩ (id (id ⟨13421773 /
              16777216, 5033165 / 8388608, 0⟩)) k) :=
  ⟨twoBlockApp_raycast, by norm_num,
    (raycastVoxel_faceNormal_axis id twoBlockApp ⟨3 / 2, 15938355 / 16777216, 1 / 2⟩ (id ⟨13421773
        / 16777216, 5033165 / 8388608, 0⟩) 10 ⟨(1, 1, 0), (-1, 0, 0)⟩
      (by norm_num) twoBlockApp_raycast).imp
      fun _ h => ⟨h.1, h.2.2.2.1⟩⟩

/-- C22 (as stated) fails: with the ray starting inside the solid voxel `(1,1,0)` and pointing
along `+x`, the hit is at the first sample, where `prevPos` equals `rayPos` and the step vector
is zero; `faceNormal` is `(1, 0, 0)`, the direction of travel, not its opposite. -/
theorem faceNormal_at_first_sample_follows_travel :
    twoBlockApp.raycastVoxel id ⟨3 / 2, 3 / 2, 1 / 2⟩ ⟨1, 0, 0⟩ 10 =
        some ⟨(1, 1, 0), (1, 0, 0)⟩ ∧
      stepVector ⟨3 / 2, 3 / 2, 1 / 2⟩ (id ⟨1, 0, 0⟩) 0 = ⟨0, 0, 0⟩ ∧
      ¬ (∀ (normalize : Vec3 → Vec3) (app : Application) (start direction : Vec3)
          (maxDist : ℚ) (r : RaycastResult),
          app.raycastVoxel normalize start direction maxDist = some r →
          r.faceNormal.1 ≠ 0 →
            (0 < (normalize direction).x → r.faceNormal.1 = -1) ∧
              ((normalize direction).x < 0 → r.faceNormal.1 = 1)) := by
  have f32 : roundFloat (3 / 2) = 3 / 2 := by
    rw [roundFloat_eq _ (-23) 12582912 (by norm_num) (by norm_num) (by norm_num) (by norm_num)
      (by norm_num)]
    norm_num
  have f12 : roundFloat (1 / 2) = 1 / 2 := by
    rw [roundFloat_eq _ (-24) 8388608 (by norm_num) (by norm_num) (by norm_num) (by norm_num)
      (by norm_num)]
    norm_num
  have hstep : stepVector ⟨3 / 2, 3 / 2, 1 / 2⟩ (id ⟨1, 0, 0⟩) 0 = ⟨0, 0, 0⟩ :=
    stepVector_first _ _ f32 f32 f12
  have hsample : raySample ⟨3 / 2, 3 / 2, 1 / 2⟩ (id ⟨1, 0, 0⟩) 0 = ⟨3 / 2, 3 / 2, 1 / 2⟩ := by
    simp only [raySample, rayPoint, distAt, fadd, fmul, mul_zero, roundFloat_zero, add_zero,
      f32, f12]
  have hray : twoBlockApp.raycastVoxel id ⟨3 / 2, 3 / 2, 1 / 2⟩ ⟨1, 0, 0⟩ 10 =
      some ⟨(1, 1, 0), (1, 0, 0)⟩ := by
    rw [raycastVoxel_eq_some_iff id twoBlockApp _ _ 10 (by norm_num)]
    have v0 : voxelOf (raySample ⟨3 / 2, 3 / 2, 1 / 2⟩ (id ⟨1, 0, 0⟩) 0) = (1, 1, 0) := by
      rw [hsample]
      norm_num [voxelOf]
    refine ⟨0, ?_, ?_, ?_, ?_⟩
    · intro j hj
      have hj0 : j = 0 := by omega
      subst hj0
      rw [distAt_0]
      norm_num
    · rw [v0]
      decide
    · intro j hj
      omega
    · rw [v0, hstep, hitFaceNormal_zero]
  refine ⟨hray, hstep, ?_⟩
  intro h
  have h1 := (h id twoBlockApp ⟨3 / 2, 3 / 2, 1 / 2⟩ ⟨1, 0, 0⟩ 10 ⟨(1, 1, 0), (1, 0, 0)⟩ hray
    (by decide)).1 (by norm_num)
  exact absurd h1 (by decide)

/-! ## Breaking and placing voxels -/

theorem getVoxel_ne_zero_inRange (c : VoxelChunk) (x y z : Int) (h : c.getVoxel x y z ≠ 0) :
    c.inRange x y z ∧ c.m_voxelData x y z ≠ 0 := by
  by_cases hr : c.inRange x y z
  · rw [getVoxel_of_inRange c x y z hr] at h
    exact ⟨hr, h⟩
  · exfalso
    apply h
    have hout : x < 0 ∨ x ≥ c.m_size ∨ y < 0 ∨ y ≥ c.m_size ∨ z < 0 ∨ z ≥ c.m_size := by
      by_contra hc
      exact hr ((inRange_iff_not_outside c x y z).2 hc)
    simp only [VoxelChunk.getVoxel, if_pos hout]

theorem setVoxel_inRange (c : VoxelChunk) (x y z t : Int) (i j k : Int) :
    (c.setVoxel x y z t).inRange i j k ↔ c.inRange i j k := by
  unfold VoxelChunk.inRange
  rw [setVoxel_size]

theorem setVoxel_dirty_of_ne (c : VoxelChunk) (x y z t : Int) (h : c.inRange x y z)
    (hne : c.m_voxelData x y z ≠ t) : (c.setVoxel x y z t).needsMeshUpdate = true := by
  unfold VoxelChunk.setVoxel
  rw [if_pos h, if_pos hne]
  rfl

theorem hitsVoxel_eq_true (app : Application) (p : Int × Int × Int)
    (h : app.hitsVoxel p = true) :
    ∃ chunk, (app.getChunkFromWorldPos p).chunk = some chunk ∧
      chunk.getVoxel (app.getChunkFromWorldPos p).localPos.1
        (app.getChunkFromWorldPos p).localPos.2.1
        (app.getChunkFromWorldPos p).localPos.2.2 ≠ 0 := by
  unfold Application.hitsVoxel at h
  cases hc : (app.getChunkFromWorldPos p).chunk with
  | none =>
    rw [hc] at h
    simp at h
  | some chunk =>
    rw [hc] at h
    exact ⟨chunk, rfl, by simpa using h⟩

/-- A lookup that returns a chunk returns the store entry at the chunk coordinate it computed. -/
theorem getChunkFromWorldPos_some (app : Application) (p : Int × Int × Int) (chunk : VoxelChunk)
    (h : (app.getChunkFromWorldPos p).chunk = some chunk) :
    app.m_loadedChunks (app.getChunkFromWorldPos p).chunkPos = some chunk ∧
      ¬ ((app.getChunkFromWorldPos p).localPos.2.1 < 0 ∨
        (app.getChunkFromWorldPos p).localPos.2.1 ≥ (CHUNK_SIZE : Int)) := by
  simp only [Application.getChunkFromWorldPos] at h ⊢
  by_cases hy : p.2.1 < 0 ∨ p.2.1 ≥ (CHUNK_SIZE : Int)
  · rw [if_pos hy] at h
    exact absurd h (by simp)
  · rw [if_neg hy] at h ⊢
    exact ⟨h, hy⟩

/-- After a write through the pointer of the chunk at `chunkPos`, a lookup of a world position
of that chunk returns the written chunk. -/
theorem getChunkFromWorldPos_writeChunk (app : Application) (p : Int × Int × Int)
    (chunk new : VoxelChunk) (h : (app.getChunkFromWorldPos p).chunk = some chunk) :
    ((app.writeChunk (app.getChunkFromWorldPos p).chunkPos new).getChunkFromWorldPos p).chunk =
        some new ∧
      ((app.writeChunk (app.getChunkFromWorldPos p).chunkPos new).getChunkFromWorldPos p).localPos
        = (app.getChunkFromWorldPos p).localPos ∧
      ((app.writeChunk (app.getChunkFromWorldPos p).chunkPos new).getChunkFromWorldPos p).chunkPos
        = (app.getChunkFromWorldPos p).chunkPos := by
  obtain ⟨_, hy⟩ := getChunkFromWorldPos_some app p chunk h
  simp only [Application.getChunkFromWorldPos] at hy ⊢
  by_cases hy2 : p.2.1 < 0 ∨ p.2.1 ≥ (CHUNK_SIZE : Int)
  · rw [if_pos hy2] at hy
    exact absurd hy2 hy
  · simp only [if_neg hy2, Application.writeChunk, if_true, and_self]

/-- C23: when the raycast of `handleVoxelManipulation` returns a hit `r` and the action is a
break (a left click), afterwards `getChunkFromWorldPos` at `r.voxelPos` returns a chunk whose
`getVoxel` at the local position is `0` and whose dirty flag is set; before the call the same
read gave a nonzero block. -/
theorem break_clears_voxel_and_marks_dirty (normalize : Vec3 → Vec3) (app : Application)
    (mouse : MouseState) (inp : EditInput) (r : RaycastResult)
    (hw : inp.hasWindow = true) (hpress : inp.leftMousePressed = true)
    (hdown : mouse.m_leftMouseDown = false)
    (hr : app.raycastVoxel normalize
      ⟨app.m_cameraPosition.1, app.m_cameraPosition.2.1, app.m_cameraPosition.2.2⟩
      (normalize inp.lookDir) 10 = some r) :
    (∃ v, app.readVoxel r.voxelPos = some v ∧ v ≠ 0) ∧
      (app.handleVoxelManipulation normalize mouse inp).1.readVoxel r.voxelPos = some 0 ∧
      ∃ chunk,
        ((app.handleVoxelManipulation normalize mouse inp).1.getChunkFromWorldPos
          r.voxelPos).chunk = some chunk ∧
        chunk.getVoxel (app.getChunkFromWorldPos r.voxelPos).localPos.1
          (app.getChunkFromWorldPos r.voxelPos).localPos.2.1
          (app.getChunkFromWorldPos r.voxelPos).localPos.2.2 = 0 ∧
        chunk.needsMeshUpdate = true := by
  have hhit : app.hitsVoxel r.voxelPos = true :=
    raycastVoxel_some_hits normalize app _ _ 10 r hr
  obtain ⟨chunk, hchunk, hne⟩ := hitsVoxel_eq_true app r.voxelPos hhit
  obtain ⟨hin, hdata⟩ := getVoxel_ne_zero_inRange chunk _ _ _ hne
  have hstate : (app.handleVoxelManipulation normalize mouse inp).1 =
      app.writeChunk (app.getChunkFromWorldPos r.voxelPos).chunkPos
        (chunk.setVoxel (app.getChunkFromWorldPos r.voxelPos).localPos.1
          (app.getChunkFromWorldPos r.voxelPos).localPos.2.1
          (app.getChunkFromWorldPos r.voxelPos).localPos.2.2 0) := by
    simp only [Application.handleVoxelManipulation, hw, hpress, hdown, hr,
      Application.breakVoxel, hchunk, Bool.not_true, Bool.not_false, Bool.and_self,
      Bool.false_eq_true, if_false, Bool.true_and, Bool.false_and, if_true]
  obtain ⟨w1, w2, _⟩ := getChunkFromWorldPos_writeChunk app r.voxelPos chunk
    (chunk.setVoxel (app.getChunkFromWorldPos r.voxelPos).localPos.1
      (app.getChunkFromWorldPos r.voxelPos).localPos.2.1
      (app.getChunkFromWorldPos r.voxelPos).localPos.2.2 0) hchunk
  have hzero : (chunk.setVoxel (app.getChunkFromWorldPos r.voxelPos).localPos.1
      (app.getChunkFromWorldPos r.voxelPos).localPos.2.1
      (app.getChunkFromWorldPos r.voxelPos).localPos.2.2 0).getVoxel
      (app.getChunkFromWorldPos r.voxelPos).localPos.1
      (app.getChunkFromWorldPos r.voxelPos).localPos.2.1
      (app.getChunkFromWorldPos r.voxelPos).localPos.2.2 = 0 := by
    rw [getVoxel_of_inRange _ _ _ _ ((setVoxel_inRange chunk _ _ _ 0 _ _ _).2 hin),
      setVoxel_data_at chunk _ _ _ 0 hin]
  refine ⟨⟨_, ?_, hne⟩, ?_, _, ?_, hzero, setVoxel_dirty_of_ne chunk _ _ _ 0 hin hdata⟩
  · simp only [Application.readVoxel, hchunk, Option.map_some']
  · rw [hstate]
    simp only [Application.readVoxel, w1, w2, Option.map_some', hzero]
  · rw [hstate]
    exact w1

theorem break_clears_voxel_and_marks_dirty_witness :
    (twoBlockApp.raycastVoxel id
        ⟨twoBlockApp.m_cameraPosition.1, twoBlockApp.m_cameraPosition.2.1,
          twoBlockApp.m_cameraPosition.2.2⟩
        (id (⟨true, true, false, ⟨13421773 / 16777216, 5033165 / 8388608, 0⟩, none⟩ :
          EditInput).lookDir) 10 =
        some ⟨(1, 1, 0), (-1, 0, 0)⟩) ∧
      twoBlockApp.readVoxel (1, 1, 0) = some 1 ∧
      (twoBlockApp.handleVoxelManipulation id ⟨false, false⟩
        ⟨true, true, false, ⟨13421773 / 16777216, 5033165 / 8388608, 0⟩, none⟩).1.readVoxel
          (1, 1, 0) = some 0 :=
  ⟨twoBlockApp_raycast, by decide,
    (break_clears_voxel_and_marks_dirty id twoBlockApp ⟨false, false⟩
      ⟨true, true, false, ⟨13421773 / 16777216, 5033165 / 8388608, 0⟩, none⟩
      ⟨(1, 1, 0), (-1, 0, 0)⟩ rfl rfl rfl
      twoBlockApp_raycast).2.1⟩

/-- For a loaded chunk at any coordinate other than `(-1, -1)`, `isChunkInView` is the frustum
test of the chunk's box. -/
theorem isChunkInView_eq_isAABBVisible (app : Application) (f : Frustum) (key : Int × Int)
    (hl : (app.m_loadedChunks key).isSome = true) (hk : key ≠ (-1, -1)) :
    app.isChunkInView f key = f.isAABBVisible (specChunkBox key).1 (specChunkBox key).2 := by
  obtain ⟨cx, cz⟩ := key
  have hne : ¬ (cx = -1 ∧ cz = -1) := by
    rintro ⟨rfl, rfl⟩
    exact hk rfl
  simp only [Application.isChunkInView, hl, if_true, if_neg hne, specChunkBox, CHUNK_SIZE]
  push_cast
  rfl

theorem isChunkInView_minus_one (app : Application) (f : Frustum) :
    app.isChunkInView f (-1, -1) = false := by
  simp only [Application.isChunkInView]
  split_ifs <;> simp_all

/-- C29 (failing input): the chunk that the store holds at coordinate `(-1, -1)` is reported
out of view by `isChunkInView` for every frustum, because the found key equals the default
`chunkPos(-1, -1)` that stands for `not found`; for `cubeFrustum` the frustum test of its box
from `(-16, 0, -16)` to `(0, 16, 0)` is true.  `updateChunks` with the camera at the origin
loads that chunk.  At every other coordinate of a loaded chunk `isChunkInView` is the frustum
test of the chunk's box. -/
theorem isChunkInView_rejects_chunk_minus_one :
    (minusOneApp.m_loadedChunks (-1, -1)).isSome = true ∧
      specChunkBox (-1, -1) = (⟨-16, 0, -16⟩, ⟨0, 16, 0⟩) ∧
      cubeFrustum.isAABBVisible (specChunkBox (-1, -1)).1 (specChunkBox (-1, -1)).2 = true ∧
      minusOneApp.isChunkInView cubeFrustum (-1, -1) = false ∧
      (∀ (app : Application) (f : Frustum), app.isChunkInView f (-1, -1) = false) ∧
      (((emptyApp.updateChunks zeroNoise).m_loadedChunks (-1, -1)).isSome = true) ∧
      (∀ (app : Application) (f : Frustum) (key : Int × Int),
        (app.m_loadedChunks key).isSome = true → key ≠ (-1, -1) →
        app.isChunkInView f key =
          f.isAABBVisible (specChunkBox key).1 (specChunkBox key).2) := by
  refine ⟨by decide, ?_, ?_, isChunkInView_minus_one _ _, isChunkInView_minus_one, ?_,
    isChunkInView_eq_isAABBVisible⟩
  · norm_num [specChunkBox]
  · have hb : specChunkBox (-1, -1) = (⟨-16, 0, -16⟩, ⟨0, 16, 0⟩) := by
      norm_num [specChunkBox]
    rw [hb, isAABBVisible_eq_true_iff]
    intro i hi
    simp only [Planes.Count] at hi
    interval_cases i <;> norm_num [cubeFrustum, planeDistance, pVertex]
  · have hp : emptyApp.playerChunk = (0, 0) := by
      simp [Application.playerChunk, emptyApp]
    unfold Application.updateChunks
    rw [updateChunksWith_isSome, hp]
    decide

/-! ## Rebuilding the mesh -/

/-- The mesh build reads the grid, the size and the atlas only: it starts by clearing the three
buffers, so their previous content does not matter. -/
theorem generateOptimizedMesh_of_buffers (c : VoxelChunk) (v : List Vertex) (i : List Nat)
    (n : Nat) :
    ({ c with m_vertices := v, m_indices := i, m_indexCount := n } :
      VoxelChunk).generateOptimizedMesh = c.generateOptimizedMesh := rfl

theorem foldl_addOptimizedFace_buffers (calls : List FaceCall) (c : VoxelChunk) :
    ∃ (v : List Vertex) (i : List Nat) (n : Nat),
      calls.foldl (fun acc f => addOptimizedFace acc f.x f.y f.z f.face f.width f.height
        f.voxelType) c = { c with m_vertices := v, m_indices := i, m_indexCount := n } := by
  induction calls generalizing c with
  | nil => exact ⟨c.m_vertices, c.m_indices, c.m_indexCount, rfl⟩
  | cons f rest ih =>
    obtain ⟨v, i, n, h⟩ := ih (addOptimizedFace c f.x f.y f.z f.face f.width f.height f.voxelType)
    rw [List.foldl_cons, h]
    exact ⟨v, i, n, rfl⟩

/-- The mesh build changes the three mesh buffers and nothing else. -/
theorem generateOptimizedMesh_buffers (c : VoxelChunk) :
    ∃ (v : List Vertex) (i : List Nat) (n : Nat),
      c.generateOptimizedMesh = { c with m_vertices := v, m_indices := i, m_indexCount := n } := by
  obtain ⟨v, i, n, h⟩ := foldl_addOptimizedFace_buffers (passCalls c.m_size c.m_voxelData)
    { c with m_vertices := [], m_indices := [], m_indexCount := 0 }
  simp only [generateOptimizedMesh]
  rw [h]
  split_ifs
  · exact ⟨_, _, _, rfl⟩
  · exact ⟨v, i, n, rfl⟩

/-- C24: running `generateOptimizedMesh` a second time, with no grid mutation in between,
gives the same vertex buffer, index buffer and index count as the first run; the whole chunk
state is the same. -/
theorem generateOptimizedMesh_twice (c : VoxelChunk) :
    c.generateOptimizedMesh.generateOptimizedMesh.m_vertices =
        c.generateOptimizedMesh.m_vertices ∧
      c.generateOptimizedMesh.generateOptimizedMesh.m_indices =
        c.generateOptimizedMesh.m_indices ∧
      c.generateOptimizedMesh.generateOptimizedMesh.m_indexCount =
        c.generateOptimizedMesh.m_indexCount ∧
      c.generateOptimizedMesh.generateOptimizedMesh = c.generateOptimizedMesh := by
  have h : c.generateOptimizedMesh.generateOptimizedMesh = c.generateOptimizedMesh := by
    obtain ⟨v, i, n, hb⟩ := generateOptimizedMesh_buffers c
    calc c.generateOptimizedMesh.generateOptimizedMesh
        = ({ c with m_vertices := v, m_indices := i, m_indexCount := n } :
            VoxelChunk).generateOptimizedMesh := congrArg generateOptimizedMesh hb
      _ = c.generateOptimizedMesh := generateOptimizedMesh_of_buffers c v i n
  rw [h]
  exact ⟨rfl, rfl, rfl, rfl⟩

/-! ## The mesh of an empty grid -/

/-- On a grid whose in-range cells are all air, `generateOptimizedMesh` stores the dummy Top
quad: its four vertex records, six indices, and an index count of 6. -/
theorem generateOptimizedMesh_all_air (c : VoxelChunk)
    (hair : ∀ i j k : Int, c.inRange i j k → c.m_voxelData i j k = 0) :
    c.generateOptimizedMesh.m_vertices =
        (faceQuad c.m_textureAtlas 0 0 0 Face.Top 1 1 0).vertices ∧
      c.generateOptimizedMesh.m_indices = [0, 1, 2, 0, 2, 3] ∧
      c.generateOptimizedMesh.m_indexCount = 6 := by
  have hnil : passCalls c.m_size c.m_voxelData = [] := by
    apply passCalls_all_air
    intro i j k hi hj hk
    apply hair
    unfold VoxelChunk.inRange
    omega
  simp only [generateOptimizedMesh, hnil, List.foldl_nil, List.isEmpty_nil, if_true,
    addOptimizedFace, List.nil_append, List.length_nil, Nat.zero_add]
  refine ⟨?_, ?_, ?_⟩ <;> first | rfl | trivial

/-- C25 (amended): for a grid in which every cell is air, `generateOptimizedMesh` completes
and returns the dummy Top quad at cell `(0,0,0)` with width 1, height 1 and block type 0: four
vertex records with the positions `(0,1,0)`, `(1,1,0)`, `(1,1,1)`, `(0,1,1)`, the six indices
`0,1,2,0,2,3`, and an index count of 6. -/
theorem empty_grid_mesh_is_dummy_quad (c : VoxelChunk)
    (hair : ∀ i j k : Int, c.inRange i j k → c.m_voxelData i j k = 0) :
    c.generateOptimizedMesh.m_vertices =
        (faceQuad c.m_textureAtlas 0 0 0 Face.Top 1 1 0).vertices ∧
      c.generateOptimizedMesh.m_vertices.length = 4 ∧
      (quadsOf c.generateOptimizedMesh.m_vertices).map Quad.positions =
        [[(0, 1, 0), (1, 1, 0), (1, 1, 1), (0, 1, 1)]] ∧
      c.generateOptimizedMesh.m_indices = [0, 1, 2, 0, 2, 3] ∧
      c.generateOptimizedMesh.m_indexCount = 6 := by
  obtain ⟨h1, h2, h3⟩ := generateOptimizedMesh_all_air c hair
  rw [h1]
  exact ⟨rfl, rfl, rfl, h2, h3⟩

theorem empty_grid_mesh_is_dummy_quad_witness :
    (∀ i j k : Int, (VoxelChunk.new 16).inRange i j k →
        (VoxelChunk.new 16).m_voxelData i j k = 0) ∧
      (VoxelChunk.new 16).generateOptimizedMesh.m_vertices.length = 4 ∧
      (VoxelChunk.new 16).generateOptimizedMesh.m_indexCount = 6 :=
  ⟨fun _ _ _ _ => rfl,
    (empty_grid_mesh_is_dummy_quad (VoxelChunk.new 16) (fun _ _ _ _ => rfl)).2.1,
    (empty_grid_mesh_is_dummy_quad (VoxelChunk.new 16) (fun _ _ _ _ => rfl)).2.2.2.2⟩

/-- C25 (as stated) fails: the newly constructed chunk of side 16 is all air, and its mesh is
not empty; `generateOptimizedMesh` leaves four vertex records, six indices and an index count
of 6. -/
theorem empty_grid_mesh_not_empty :
    (∀ i j k : Int, (VoxelChunk.new 16).m_voxelData i j k = 0) ∧
      (VoxelChunk.new 16).generateOptimizedMesh.m_vertices.length = 4 ∧
      (VoxelChunk.new 16).generateOptimizedMesh.m_indices = [0, 1, 2, 0, 2, 3] ∧
      (VoxelChunk.new 16).generateOptimizedMesh.m_indexCount = 6 ∧
      ¬ ((VoxelChunk.new 16).generateOptimizedMesh.m_vertices = [] ∧
        (VoxelChunk.new 16).generateOptimizedMesh.m_indices = [] ∧
        (VoxelChunk.new 16).generateOptimizedMesh.m_indexCount = 0) := by
  obtain ⟨h1, h2, h3⟩ := generateOptimizedMesh_all_air (VoxelChunk.new 16) (fun _ _ _ _ => rfl)
  refine ⟨fun _ _ _ => rfl, ?_, h2, h3, ?_⟩
  · rw [h1]
    rfl
  · rw [h3]
    intro h
    exact absurd h.2.2 (by decide)

/-! ## The merged rectangles of a plane -/

theorem runLength_stop (ok : Nat → Bool) (i n : Nat) (h : runLength ok i n < n) :
    ok (i + runLength ok i n) = false := by
  induction n generalizing i with
  | zero => omega
  | succ n ih =>
    unfold runLength at h ⊢
    by_cases hok : ok i = true
    · rw [if_pos hok] at h ⊢
      have := ih (i + 1) (by omega)
      rw [show i + (runLength ok (i + 1) n + 1) = i + 1 + runLength ok (i + 1) n by omega]
      exact this
    · rw [if_neg hok]
      simpa using hok

/-- A merged rectangle starts at its cell, is at least one cell wide and high, and stays inside
the plane. -/
theorem mergeRect_shape (size : Nat) (typ : Nat → Nat → Int) (exposed : Nat → Nat → Bool)
    (st : PlaneState) (a b : Nat) (ha : a < size) (hb : b < size) :
    (mergeRect size typ exposed st a b).a = a ∧ (mergeRect size typ exposed st a b).b = b ∧
      (mergeRect size typ exposed st a b).blockType = typ a b ∧
      1 ≤ (mergeRect size typ exposed st a b).width ∧
      1 ≤ (mergeRect size typ exposed st a b).height ∧
      a + (mergeRect size typ exposed st a b).width ≤ size ∧
      b + (mergeRect size typ exposed st a b).height ≤ size := by
  have hw := runLength_le
    (fun i => !st.processed i b && typ i b == typ a b && exposed i b) (a + 1) (size - (a + 1))
  have hh := runLength_le
    (fun j => (List.range (mergeWidth size typ exposed st a b)).all fun dx =>
      !(st.processed (a + dx) j || typ (a + dx) j != typ a b || !exposed (a + dx) j))
    (b + 1) (size - (b + 1))
  simp only [mergeRect, mergeWidth, mergeHeight] at hw hh ⊢
  refine ⟨?_, ?_, ?_, ?_, ?_, ?_, ?_⟩ <;> first | trivial | rfl | omega

/-- The width run of a merge ends at the edge of the plane or at a cell that is processed, of
another block type or not exposed. -/
theorem mergeRect_width_stop (size : Nat) (typ : Nat → Nat → Int) (exposed : Nat → Nat → Bool)
    (st : PlaneState) (a b : Nat) (ha : a < size)
    (hlt : a + (mergeRect size typ exposed st a b).width < size) :
    (!st.processed (a + (mergeRect size typ exposed st a b).width) b &&
      typ (a + (mergeRect size typ exposed st a b).width) b == typ a b &&
      exposed (a + (mergeRect size typ exposed st a b).width) b) = false := by
  simp only [mergeRect, mergeWidth] at hlt ⊢
  have hs := runLength_stop
    (fun i => !st.processed i b && typ i b == typ a b && exposed i b) (a + 1) (size - (a + 1))
    (by omega)
  rw [show a + (1 + runLength (fun i => !st.processed i b && typ i b == typ a b && exposed i b)
      (a + 1) (size - (a + 1))) = a + 1 + runLength
      (fun i => !st.processed i b && typ i b == typ a b && exposed i b) (a + 1)
      (size - (a + 1)) by omega]
  exact hs

theorem row_cell_accepted (P E : Bool) (t u : Int) (h : (!P && t == u && E) = true) :
    (!(P || t != u || !E)) = true := by
  cases P <;> cases E <;> simp_all

/-- The height of a merge ends at the edge of the plane or at a row in which some cell over the
full width is processed, of another block type or not exposed. -/
theorem mergeRect_height_stop (size : Nat) (typ : Nat → Nat → Int)
    (exposed : Nat → Nat → Bool) (st : PlaneState) (a b : Nat) (hb : b < size)
    (hlt : b + (mergeRect size typ exposed st a b).height < size) :
    ∃ dx, dx < (mergeRect size typ exposed st a b).width ∧
      (!st.processed (a + dx) (b + (mergeRect size typ exposed st a b).height) &&
        typ (a + dx) (b + (mergeRect size typ exposed st a b).height) == typ a b &&
        exposed (a + dx) (b + (mergeRect size typ exposed st a b).height)) = false := by
  simp only [mergeRect, mergeHeight] at hlt ⊢
  have hs := runLength_stop
    (fun j => (List.range (mergeWidth size typ exposed st a b)).all fun dx =>
      !(st.processed (a + dx) j || typ (a + dx) j != typ a b || !exposed (a + dx) j))
    (b + 1) (size - (b + 1)) (by omega)
  rw [show b + 1 + runLength
      (fun j => (List.range (mergeWidth size typ exposed st a b)).all fun dx =>
        !(st.processed (a + dx) j || typ (a + dx) j != typ a b || !exposed (a + dx) j))
      (b + 1) (size - (b + 1)) = b + (1 + runLength
      (fun j => (List.range (mergeWidth size typ exposed st a b)).all fun dx =>
        !(st.processed (a + dx) j || typ (a + dx) j != typ a b || !exposed (a + dx) j))
      (b + 1) (size - (b + 1))) by omega] at hs
  simp only [List.all_eq_false, List.mem_range] at hs
  obtain ⟨dx, hdx, hbad⟩ := hs
  refine ⟨dx, hdx, ?_⟩
  by_contra hgood
  rw [Bool.not_eq_false] at hgood
  exact hbad (row_cell_accepted _ _ _ _ hgood)

/-- Invariant of the raster scan that records how each rectangle was made: the processed grid
is the union of the rectangles, and every rectangle is the greedy merge at its origin over the
cells processed by the rectangles before it, started at an unprocessed exposed solid cell. -/
theorem mergeCell_greedy (size : Nat) (typ : Nat → Nat → Int) (exposed : Nat → Nat → Bool)
    (st : PlaneState) (a b : Nat) (ha : a < size) (hb : b < size)
    (hproc : ∀ i j, st.processed i j = processedBy st.rects i j)
    (hrec : ∀ pre r post, st.rects = pre ++ r :: post →
      r = mergeRect size typ exposed ⟨processedBy pre, pre⟩ r.a r.b ∧
        processedBy pre r.a r.b = false ∧ typ r.a r.b ≠ 0 ∧ exposed r.a r.b = true ∧
        r.a < size ∧ r.b < size) :
    (∀ i j, (mergeCell size typ exposed st a b).processed i j =
        processedBy (mergeCell size typ exposed st a b).rects i j) ∧
      (∀ pre r post, (mergeCell size typ exposed st a b).rects = pre ++ r :: post →
        r = mergeRect size typ exposed ⟨processedBy pre, pre⟩ r.a r.b ∧
          processedBy pre r.a r.b = false ∧ typ r.a r.b ≠ 0 ∧ exposed r.a r.b = true ∧
          r.a < size ∧ r.b < size) := by
  by_cases hskip : st.processed a b = true ∨ typ a b = 0 ∨ exposed a b = false
  · rw [mergeCell_skip size typ exposed st a b hskip]
    exact ⟨hproc, hrec⟩
  · have h0 : st.processed a b = false := by
      cases hp : st.processed a b with
      | false => rfl
      | true => exact absurd (Or.inl hp) hskip
    have h1 : typ a b ≠ 0 := fun h => hskip (Or.inr (Or.inl h))
    have h2 : exposed a b = true := by
      cases he : exposed a b with
      | true => rfl
      | false => exact absurd (Or.inr (Or.inr he)) hskip
    rw [mergeCell_merge size typ exposed st a b h0 h1 h2]
    have hst : st = ⟨processedBy st.rects, st.rects⟩ := by
      obtain ⟨pr, rs⟩ := st
      have : pr = processedBy rs := by
        funext i j
        exact hproc i j
      rw [this]
    constructor
    · intro i j
      simp only [processedBy, List.any_append, List.any_cons, List.any_nil, Bool.or_false]
      rw [hproc i j]
      rfl
    · intro pre r post hsplit
      simp only at hsplit
      rcases List.eq_nil_or_concat post with hpost | ⟨post1, y, hpost⟩
      · subst hpost
        have hinj := List.append_inj' hsplit rfl
        obtain ⟨hpre, hr⟩ := hinj
        have hr2 : r = mergeRect size typ exposed st a b := by
          simpa using hr.symm
        subst hpre
        have hra : r.a = a := by rw [hr2]; rfl
        have hrb : r.b = b := by rw [hr2]; rfl
        rw [hra, hrb, ← hst]
        refine ⟨hr2, ?_, h1, h2, ha, hb⟩
        rw [← hproc a b]
        exact h0
      · subst hpost
        have hsplit2 : st.rects ++ [mergeRect size typ exposed st a b] =
            (pre ++ r :: post1) ++ [y] := by
          rw [hsplit]
          simp
        obtain ⟨hpre, _⟩ := List.append_inj' hsplit2 rfl
        exact hrec pre r post1 hpre

theorem mergeCell_foldl_greedy (size : Nat) (typ : Nat → Nat → Int)
    (exposed : Nat → Nat → Bool) (ps : List (Nat × Nat))
    (hps : ∀ q ∈ ps, q.1 < size ∧ q.2 < size) (st : PlaneState)
    (hproc : ∀ i j, st.processed i j = processedBy st.rects i j)
    (hrec : ∀ pre r post, st.rects = pre ++ r :: post →
      r = mergeRect size typ exposed ⟨processedBy pre, pre⟩ r.a r.b ∧
        processedBy pre r.a r.b = false ∧ typ r.a r.b ≠ 0 ∧ exposed r.a r.b = true ∧
        r.a < size ∧ r.b < size) :
    ∀ pre r post,
      (ps.foldl (fun st q => mergeCell size typ exposed st q.1 q.2) st).rects =
        pre ++ r :: post →
      r = mergeRect size typ exposed ⟨processedBy pre, pre⟩ r.a r.b ∧
        processedBy pre r.a r.b = false ∧ typ r.a r.b ≠ 0 ∧ exposed r.a r.b = true ∧
        r.a < size ∧ r.b < size := by
  induction ps generalizing st with
  | nil => exact hrec
  | cons q rest ih =>
    have hq := hps q (List.mem_cons_self _ _)
    obtain ⟨s1, s2⟩ := mergeCell_greedy size typ exposed st q.1 q.2 hq.1 hq.2 hproc hrec
    rw [List.foldl_cons]
    exact ih (fun q1 hq1 => hps q1 (List.mem_cons_of_mem _ hq1)) _ s1 s2

/-- Every rectangle of a plane is the greedy merge at its origin over the cells processed by
the rectangles made before it. -/
theorem mergePlane_greedy (size : Nat) (typ : Nat → Nat → Int) (exposed : Nat → Nat → Bool)
    (pre post : List Rect) (r : Rect) (h : mergePlane size typ exposed = pre ++ r :: post) :
    r = mergeRect size typ exposed ⟨processedBy pre, pre⟩ r.a r.b ∧
      processedBy pre r.a r.b = false ∧ typ r.a r.b ≠ 0 ∧ exposed r.a r.b = true ∧
      r.a < size ∧ r.b < size := by
  rw [mergePlane_eq] at h
  refine mergeCell_foldl_greedy size typ exposed (planeCells size)
    (fun q hq => (mem_planeCells size q).1 hq) ⟨fun _ _ => false, []⟩ ?_ ?_ pre r post h
  · intro i j
    rfl
  · intro pre r post hnil
    simp at hnil

theorem planeRects_eq (size : Nat) (d : Int → Int → Int → Int) (face : Face) (p : Nat) :
    planeRects size d face p =
      mergePlane size (planeType d face p) (planeExposed size d face p) := by
  cases face <;>
    simp only [planeRects, planeType, planeExposed, planeCell, Face.neighbour, Face.normal,
      add_zero, Int.add_neg_one] <;> rfl

theorem facePass_eq (size : Nat) (d : Int → Int → Int → Int) (face : Face) :
    facePass size d face =
      (passPlanes size face).flatMap fun p => (planeRects size d face p).map (rectCall face p) := by
  cases face <;> rfl

theorem facePass_subset (size : Nat) (d : Int → Int → Int → Int) (face : Face) (f : FaceCall)
    (h : f ∈ facePass size d face) : f ∈ passCalls size d := by
  unfold passCalls
  simp only [List.mem_append]
  cases face <;> simp only [facePass] at h <;> tauto

theorem mem_passPlanes (size : Nat) (face : Face) (p : Nat) :
    p ∈ passPlanes size face ↔ p < size := by
  cases face <;> simp [passPlanes]

theorem countP_le_one_pairwise (l : List Rect)
    (h : ∀ i j, l.countP (fun r => r.contains i j) ≤ 1) :
    l.Pairwise fun r s => ∀ i j, ¬ (r.contains i j = true ∧ s.contains i j = true) := by
  induction l with
  | nil => exact List.Pairwise.nil
  | cons r rest ih =>
    rw [List.pairwise_cons]
    constructor
    · intro s hs i j hboth
      have h1 := h i j
      rw [List.countP_cons] at h1
      simp only [hboth.1, if_true] at h1
      have h2 : 0 < rest.countP (fun r => r.contains i j) :=
        List.countP_pos_iff.2 ⟨s, hs, hboth.2⟩
      omega
    · apply ih
      intro i j
      have h1 := h i j
      rw [List.countP_cons] at h1
      omega

theorem exposedFace_planeCell (c : VoxelChunk) (face : Face) (p i j : Nat) :
    exposedFace c (planeCell face p i j).1 (planeCell face p i j).2.1 (planeCell face p i j).2.2
        face ↔
      planeType c.m_voxelData face p i j ≠ 0 ∧
        planeExposed c.m_size c.m_voxelData face p i j = true := by
  rfl

/-- C27: for every voxel grid, face direction and plane `p` of the grid along the normal axis
of that direction, the rectangles that the merge steps of the pass mark processed are pairwise
disjoint, a plane cell lies in one of them exactly when it is inside the grid and exposed (not
`0`, with the neighbour in that direction air or outside the grid), every cell of a rectangle
holds the block type of the rectangle, and that block type is the one passed to
`addOptimizedFace` in the call the pass makes for the rectangle. -/
theorem merged_rectangles_partition_exposed_cells (c : VoxelChunk) (face : Face) (p : Nat)
    (hp : p < c.m_size) :
    ((planeRects c.m_size c.m_voxelData face p).Pairwise fun r s =>
        ∀ i j, ¬ (r.contains i j = true ∧ s.contains i j = true)) ∧
      (∀ i j : Nat, (∃ r ∈ planeRects c.m_size c.m_voxelData face p, r.contains i j = true) ↔
        (i < c.m_size ∧ j < c.m_size ∧
          exposedFace c (planeCell face p i j).1 (planeCell face p i j).2.1
            (planeCell face p i j).2.2 face)) ∧
      (∀ r ∈ planeRects c.m_size c.m_voxelData face p, ∀ i j : Nat, r.contains i j = true →
        c.m_voxelData (planeCell face p i j).1 (planeCell face p i j).2.1
          (planeCell face p i j).2.2 = r.blockType) ∧
      (∀ r ∈ planeRects c.m_size c.m_voxelData face p,
        rectCall face p r ∈ passCalls c.m_size c.m_voxelData ∧
          (rectCall face p r).voxelType = r.blockType ∧ (rectCall face p r).face = face) := by
  have hcount := mergePlane_count c.m_size (planeType c.m_voxelData face p)
    (planeExposed c.m_size c.m_voxelData face p)
  rw [planeRects_eq]
  refine ⟨?_, ?_, ?_, ?_⟩
  · apply countP_le_one_pairwise
    intro i j
    rw [hcount i j]
    split_ifs <;> omega
  · intro i j
    rw [exposedFace_planeCell]
    constructor
    · rintro ⟨r, hr, hc⟩
      have hpos : 0 < (mergePlane c.m_size (planeType c.m_voxelData face p)
          (planeExposed c.m_size c.m_voxelData face p)).countP (fun r => r.contains i j) :=
        List.countP_pos_iff.2 ⟨r, hr, hc⟩
      rw [hcount i j] at hpos
      by_cases hcond : i < c.m_size ∧ j < c.m_size ∧ planeType c.m_voxelData face p i j ≠ 0 ∧
          planeExposed c.m_size c.m_voxelData face p i j = true
      · exact hcond
      · rw [if_neg hcond] at hpos
        omega
    · intro hcond
      have hpos : 0 < (mergePlane c.m_size (planeType c.m_voxelData face p)
          (planeExposed c.m_size c.m_voxelData face p)).countP (fun r => r.contains i j) := by
        rw [hcount i j, if_pos hcond]
        omega
      obtain ⟨r, hr, hc⟩ := List.countP_pos_iff.1 hpos
      exact ⟨r, hr, hc⟩
  · intro r hr i j hc
    obtain ⟨pre, post, hsplit⟩ := List.append_of_mem hr
    obtain ⟨g1, g2, _, g4, g5, g6⟩ := mergePlane_greedy c.m_size _ _ pre post r hsplit
    rw [g1] at hc
    have hcells := merged_rect_cells c.m_size (planeType c.m_voxelData face p)
      (planeExposed c.m_size c.m_voxelData face p) ⟨processedBy pre, pre⟩ r.a r.b g5 g6 g2 g4
      i j hc
    have hbt : r.blockType = planeType c.m_voxelData face p r.a r.b := by
      conv_lhs => rw [g1]
      rfl
    rw [hbt, ← hcells.2.1]
    rfl
  · intro r hr
    refine ⟨?_, rfl, rfl⟩
    apply facePass_subset c.m_size c.m_voxelData face
    rw [facePass_eq]
    simp only [List.mem_flatMap, List.mem_map]
    refine ⟨p, (mem_passPlanes c.m_size face p).2 hp, r, ?_, rfl⟩
    rw [planeRects_eq]
    exact hr

theorem merged_rectangles_partition_exposed_cells_witness :
    (1 : Nat) < chunkA.m_size ∧
      planeRects chunkA.m_size chunkA.m_voxelData Face.Right 1 =
        [⟨0, 0, 2, 1, 1⟩, ⟨0, 1, 1, 1, 2⟩] ∧
      ((planeRects chunkA.m_size chunkA.m_voxelData Face.Right 1).Pairwise fun r s =>
        ∀ i j, ¬ (r.contains i j = true ∧ s.contains i j = true)) :=
  ⟨by decide, by decide,
    (merged_rectangles_partition_exposed_cells chunkA Face.Right 1 (by decide)).1⟩

theorem cellMatches_eq (size : Nat) (d : Int → Int → Int → Int) (face : Face) (p : Nat)
    (processed : Nat → Nat → Bool) (blockType : Int) (a b : Nat) :
    cellMatches size d face p processed blockType a b =
      (!processed a b && planeType d face p a b == blockType &&
        planeExposed size d face p a b) := rfl

/-- C28: every rectangle `r` merged on a plane of a pass of `generateOptimizedMesh` is
greedy-maximal with respect to the cells processed by the rectangles made before it on that
plane (`pre`): all its cells pass the merge test (unprocessed, of the block type of `r`,
exposed), so no row is merged in part; its width run ends at the grid edge or at a cell of the
origin row that fails the test; and its height ends at the grid edge or at a row in which some
cell over the full width fails the test. -/
theorem merged_rectangles_greedy_maximal (c : VoxelChunk) (face : Face) (p : Nat)
    (pre post : List Rect) (r : Rect)
    (hsplit : planeRects c.m_size c.m_voxelData face p = pre ++ r :: post) :
    r.blockType ≠ 0 ∧ 1 ≤ r.width ∧ 1 ≤ r.height ∧
      r.a + r.width ≤ c.m_size ∧ r.b + r.height ≤ c.m_size ∧
      (∀ i j : Nat, r.contains i j = true →
        cellMatches c.m_size c.m_voxelData face p (processedBy pre) r.blockType i j = true) ∧
      (r.a + r.width = c.m_size ∨
        cellMatches c.m_size c.m_voxelData face p (processedBy pre) r.blockType
          (r.a + r.width) r.b = false) ∧
      (r.b + r.height = c.m_size ∨
        ∃ dx : Nat, dx < r.width ∧
          cellMatches c.m_size c.m_voxelData face p (processedBy pre) r.blockType
            (r.a + dx) (r.b + r.height) = false) := by
  rw [planeRects_eq] at hsplit
  obtain ⟨g1, g2, g3, g4, g5, g6⟩ := mergePlane_greedy c.m_size _ _ pre post r hsplit
  obtain ⟨_, _, s3, s4, s5, s6, s7⟩ := mergeRect_shape c.m_size
    (planeType c.m_voxelData face p) (planeExposed c.m_size c.m_voxelData face p)
    ⟨processedBy pre, pre⟩ r.a r.b g5 g6
  have hw := mergeRect_width_stop c.m_size (planeType c.m_voxelData face p)
    (planeExposed c.m_size c.m_voxelData face p) ⟨processedBy pre, pre⟩ r.a r.b g5
  have hh := mergeRect_height_stop c.m_size (planeType c.m_voxelData face p)
    (planeExposed c.m_size c.m_voxelData face p) ⟨processedBy pre, pre⟩ r.a r.b g6
  have hcells := merged_rect_cells c.m_size (planeType c.m_voxelData face p)
    (planeExposed c.m_size c.m_voxelData face p) ⟨processedBy pre, pre⟩ r.a r.b g5 g6 g2 g4
  rw [← g1] at s3 s4 s5 s6 s7 hw hh hcells
  refine ⟨by rw [s3]; exact g3, s4, s5, s6, s7, ?_, ?_, ?_⟩
  · intro i j hc
    obtain ⟨c1, c2, c3, _, _⟩ := hcells i j hc
    rw [cellMatches_eq, s3]
    simp only at c1
    simp [c1, c2, c3]
  · by_cases hedge : r.a + r.width = c.m_size
    · exact Or.inl hedge
    · right
      rw [cellMatches_eq, s3]
      exact hw (by omega)
  · by_cases hedge : r.b + r.height = c.m_size
    · exact Or.inl hedge
    · right
      obtain ⟨dx, hdx, hbad⟩ := hh (by omega)
      refine ⟨dx, hdx, ?_⟩
      rw [cellMatches_eq, s3]
      exact hbad

theorem merged_rectangles_greedy_maximal_witness :
    planeRects chunkA.m_size chunkA.m_voxelData Face.Right 1 =
        [] ++ (⟨0, 0, 2, 1, 1⟩ : Rect) :: [⟨0, 1, 1, 1, 2⟩] ∧
      ((⟨0, 0, 2, 1, 1⟩ : Rect).a + (⟨0, 0, 2, 1, 1⟩ : Rect).width = chunkA.m_size ∨
        cellMatches chunkA.m_size chunkA.m_voxelData Face.Right 1 (processedBy [])
          (⟨0, 0, 2, 1, 1⟩ : Rect).blockType
          ((⟨0, 0, 2, 1, 1⟩ : Rect).a + (⟨0, 0, 2, 1, 1⟩ : Rect).width)
          (⟨0, 0, 2, 1, 1⟩ : Rect).b = false) :=
  ⟨by decide,
    (merged_rectangles_greedy_maximal chunkA Face.Right 1 [] [⟨0, 1, 1, 1, 2⟩] ⟨0, 0, 2, 1, 1⟩
      (by decide)).2.2.2.2.2.2.1⟩

/-! ## The quad of a merged rectangle -/

theorem rightCall_covers (atlas : Option TextureAtlas) (r : Rect) (x i j k : Nat) (d : Face) :
    (callQuad atlas ⟨x, r.a, r.b, Face.Right, r.width, r.height, r.blockType⟩).covers i j k d =
      (decide (d = Face.Right) && decide (i = x) &&
        decide (r.a ≤ j ∧ j < r.a + r.height ∧ r.b ≤ k ∧ k < r.b + r.width)) := by
  rw [Bool.eq_iff_iff]
  cases d <;>
    simp only [callQuad, faceQuad, Quad.covers, Face.normal, Face.cellLo, Face.cellHi,
      min4_le_iff, le_max4_iff,
      decide_eq_true_eq, Bool.and_eq_true, Prod.mk.injEq, reduceCtorEq,
      false_and, and_false, true_and] <;>
    first | omega | simp

theorem leftCall_covers (atlas : Option TextureAtlas) (r : Rect) (x i j k : Nat) (d : Face) :
    (callQuad atlas ⟨x, r.a, r.b, Face.Left, r.width, r.height, r.blockType⟩).covers i j k d =
      (decide (d = Face.Left) && decide (i = x) &&
        decide (r.a ≤ j ∧ j < r.a + r.height ∧ r.b ≤ k ∧ k < r.b + r.width)) := by
  rw [Bool.eq_iff_iff]
  cases d <;>
    simp only [callQuad, faceQuad, Quad.covers, Face.normal, Face.cellLo, Face.cellHi,
      min4_le_iff, le_max4_iff,
      decide_eq_true_eq, Bool.and_eq_true, Prod.mk.injEq, reduceCtorEq,
      false_and, and_false, true_and]
  omega

/-- For the Top, Bottom, Front and Back passes the quad of a merged rectangle covers the faces
of exactly the cells that the merge marked processed. -/
theorem rectCall_covers_processed (atlas : Option TextureAtlas) (face : Face) (p : Nat)
    (r : Rect) (i j : Nat)
    (hf : face = Face.Top ∨ face = Face.Bottom ∨ face = Face.Front ∨ face = Face.Back) :
    (callQuad atlas (rectCall face p r)).covers (planeCell face p i j).1
      (planeCell face p i j).2.1 (planeCell face p i j).2.2 face = r.contains i j := by
  rcases hf with h | h | h | h <;> subst h
  · simp only [rectCall, planeCell]
    rw [topCall_covers]
    simp
  · simp only [rectCall, planeCell]
    rw [bottomCall_covers]
    simp
  · simp only [rectCall, planeCell]
    rw [frontCall_covers]
    simp
  · simp only [rectCall, planeCell]
    rw [backCall_covers]
    simp

/-- C26 (failing input): on `chunkA` the first merge of the Right pass on plane `x = 1` marks
the cells `(y, z) = (0, 0)` and `(1, 0)` processed (`width = 2` along `y`, `height = 1` along
`z`), but the quad that `addOptimizedFace` writes for it spans `y` in `[0, 1]` and `z` in
`[0, 2]`: it misses the processed cell `(1,1,0)` and covers the cell `(1,0,1)`, which the merge
did not mark.  For every Right or Left rectangle the quad spans `height` along `y` and `width`
along `z`, the two extents exchanged; for Top, Bottom, Front and Back the quad covers exactly
the processed cells. -/
theorem right_quad_spans_exchanged_extents :
    planeRects chunkA.m_size chunkA.m_voxelData Face.Right 1 =
        [⟨0, 0, 2, 1, 1⟩, ⟨0, 1, 1, 1, 2⟩] ∧
      rectCall Face.Right 1 ⟨0, 0, 2, 1, 1⟩ = ⟨1, 0, 0, Face.Right, 2, 1, 1⟩ ∧
      rectCall Face.Right 1 ⟨0, 0, 2, 1, 1⟩ ∈ passCalls chunkA.m_size chunkA.m_voxelData ∧
      (callQuad none (rectCall Face.Right 1 ⟨0, 0, 2, 1, 1⟩)).positions =
        [(2, 0, 0), (2, 0, 2), (2, 1, 2), (2, 1, 0)] ∧
      (⟨0, 0, 2, 1, 1⟩ : Rect).contains 1 0 = true ∧
      (callQuad none (rectCall Face.Right 1 ⟨0, 0, 2, 1, 1⟩)).covers 1 1 0 Face.Right = false ∧
      (⟨0, 0, 2, 1, 1⟩ : Rect).contains 0 1 = false ∧
      (callQuad none (rectCall Face.Right 1 ⟨0, 0, 2, 1, 1⟩)).covers 1 0 1 Face.Right = true ∧
      (∀ (atlas : Option TextureAtlas) (r : Rect) (x j k : Nat),
        (callQuad atlas (rectCall Face.Right x r)).covers x j k Face.Right =
          decide (r.a ≤ j ∧ j < r.a + r.height ∧ r.b ≤ k ∧ k < r.b + r.width)) ∧
      (∀ (atlas : Option TextureAtlas) (r : Rect) (x j k : Nat),
        (callQuad atlas (rectCall Face.Left x r)).covers x j k Face.Left =
          decide (r.a ≤ j ∧ j < r.a + r.height ∧ r.b ≤ k ∧ k < r.b + r.width)) ∧
      (∀ (atlas : Option TextureAtlas) (face : Face) (p : Nat) (r : Rect) (i j : Nat),
        face = Face.Top ∨ face = Face.Bottom ∨ face = Face.Front ∨ face = Face.Back →
        (callQuad atlas (rectCall face p r)).covers (planeCell face p i j).1
          (planeCell face p i j).2.1 (planeCell face p i j).2.2 face = r.contains i j) := by
  refine ⟨by decide, by decide, by decide, by decide, by decide, by decide, by decide,
    by decide, ?_, ?_, rectCall_covers_processed⟩
  · intro atlas r x j k
    simp only [rectCall, planeCell]
    rw [rightCall_covers]
    simp
  · intro atlas r x j k
    simp only [rectCall, planeCell]
    rw [leftCall_covers]
    simp

end TerraVecta
